import Mathlib

/-!
Verification of the neurobloom risk-scoring engine.

This file is a shallow embedding, in Lean 4, of the core risk-scoring engine
of the repository: the three domain feature extractors
(`ml_models/dyslexia_nn_model.py`, `ml_models/dyscalculia_nn_model.py`,
`ml_models/dysgraphia_nn_model.py`), the deterministic seeded "neural"
scorer shared by the three models, the unified orchestrator
(`ml_models/unified_predictor.py`), and the input-validation guards of
`assessment_routes.py`.

Conventions of the embedding:
* Python floats are modelled by real numbers (`ℝ`); machine rounding is not
  modelled.  Where a computation stays inside rational arithmetic a parallel
  executable `ℚ` evaluator is provided together with proved cast lemmas.
* `numpy` reductions are modelled over lists: `np.mean` is the sum divided by
  the length (with Lean's `x / 0 = 0` convention standing in for numpy's
  `nan` on empty input; every call site in the source guards emptiness),
  `np.var`/`np.std` are the population variance and its square root, and
  `np.polyfit(x, y, 1)` is the closed-form least-squares line.
* The weight matrices produced by `np.random.seed(42)` followed by
  `np.random.randn` are embedded as the exact values of the seed-42
  MT19937 / polar-method gaussian draw stream of numpy's legacy
  `RandomState` (each draw is a dyadic rational, being an IEEE-754 double).
* Dictionaries with optional, loosely-typed fields are modelled by
  structures of `Option`-valued fields for the well-typed fragment, and by
  an explicit dynamic `PyVal` type (with `Except`-valued operations mirroring
  Python's `TypeError`/`AttributeError` behaviour) where claims quantify over
  malformed data.
-/

namespace NpModel

/-- Model of `np.clip(v, lo, hi)`: clamp `v` into `[lo, hi]`. -/
noncomputable def npClip (v lo hi : ℝ) : ℝ := min hi (max lo v)

/-- Sum of a list of reals (model of `sum`/`np.sum`). -/
def npSum (xs : List ℝ) : ℝ := xs.foldr (· + ·) 0

/-- Model of `np.mean` over a list.  On the empty list numpy produces `nan`;
every call site in the source guards against emptiness, and the embedding
returns `0 / 0 = 0` there. -/
noncomputable def npMean (xs : List ℝ) : ℝ := npSum xs / xs.length

/-- Model of `np.var` (population variance). -/
noncomputable def npVar (xs : List ℝ) : ℝ :=
  npMean (xs.map (fun x => (x - npMean xs) ^ 2))

/-- Model of `np.std` (population standard deviation). -/
noncomputable def npStd (xs : List ℝ) : ℝ := Real.sqrt (npVar xs)

/-- Model of `np.max` over a list (call sites guard emptiness). -/
def npMax (xs : List ℝ) : ℝ :=
  match xs with
  | [] => 0
  | x :: rest => rest.foldl max x

/-- Model of `np.min` over a list (call sites guard emptiness). -/
def npMin (xs : List ℝ) : ℝ :=
  match xs with
  | [] => 0
  | x :: rest => rest.foldl min x

/-- Dot product of two lists (model of `np.dot` of a matrix row with a
vector; extra trailing entries of either side are ignored, matching the
fixed shapes used by the source). -/
def npDot : List ℝ → List ℝ → ℝ
  | a :: as, b :: bs => a * b + npDot as bs
  | _, _ => 0

/-- Slope of the degree-1 least-squares fit of `np.polyfit(x, y, 1)`,
in closed form: `Sxy / Sxx` about the means.  Lean's `x / 0 = 0`
convention covers the degenerate all-equal-x case. -/
noncomputable def polyfitSlope (xs ys : List ℝ) : ℝ :=
  let xm := npMean xs
  let ym := npMean ys
  let sxy := npSum ((xs.zip ys).map (fun p => (p.1 - xm) * (p.2 - ym)))
  let sxx := npSum (xs.map (fun x => (x - xm) ^ 2))
  sxy / sxx

/-- Intercept of the degree-1 least-squares fit: `ȳ - slope * x̄`. -/
noncomputable def polyfitIntercept (xs ys : List ℝ) : ℝ :=
  npMean ys - polyfitSlope xs ys * npMean xs

/-- Model of Python's substring test `needle in hay`. -/
def pyInStr (needle hay : String) : Bool :=
  decide (needle.toList <:+: hay.toList)

theorem npClip_le (v lo hi : ℝ) : npClip v lo hi ≤ hi := min_le_left _ _

theorem le_npClip (v lo hi : ℝ) (h : lo ≤ hi) : lo ≤ npClip v lo hi :=
  le_min h (le_max_left _ _)

theorem npClip_of_mem (v lo hi : ℝ) (h1 : lo ≤ v) (h2 : v ≤ hi) :
    npClip v lo hi = v := by
  unfold npClip
  rw [max_eq_right h1, min_eq_right h2]

end NpModel

namespace QEval

/-- Executable rational twin of `NpModel.npSum`. -/
def sumQ (xs : List ℚ) : ℚ := xs.foldr (· + ·) 0

/-- Executable rational cast of a natural number (kernel-reducible,
unlike the generic `Nat.cast` instance path). -/
def natQ (n : Nat) : ℚ := mkRat n 1

/-- Executable rational twin of `NpModel.npMean`. -/
def meanQ (xs : List ℚ) : ℚ := sumQ xs / natQ xs.length

/-- Executable rational twin of `NpModel.npVar`. -/
def varQ (xs : List ℚ) : ℚ :=
  meanQ (xs.map (fun x => (x - meanQ xs) ^ 2))

/-- Executable rational twin of `NpModel.npDot`. -/
def dotQ : List ℚ → List ℚ → ℚ
  | a :: as, b :: bs => a * b + dotQ as bs
  | _, _ => 0

/-- Cast a rational list into the reals. -/
noncomputable def castList (xs : List ℚ) : List ℝ := xs.map Rat.cast

theorem natQ_cast (n : Nat) : ((natQ n : ℚ) : ℝ) = (n : ℝ) := by
  unfold natQ
  rw [Rat.mkRat_one]
  push_cast
  rfl

theorem sumQ_cast (xs : List ℚ) :
    ((sumQ xs : ℚ) : ℝ) = NpModel.npSum (castList xs) := by
  induction xs with
  | nil => simp [sumQ, castList, NpModel.npSum]
  | cons a as ih =>
      simp only [sumQ, castList, NpModel.npSum, List.foldr, List.map] at *
      push_cast
      rw [ih]

theorem castList_length (xs : List ℚ) : (castList xs).length = xs.length := by
  simp [castList]

theorem meanQ_cast (xs : List ℚ) :
    ((meanQ xs : ℚ) : ℝ) = NpModel.npMean (castList xs) := by
  unfold meanQ NpModel.npMean
  push_cast [natQ_cast, sumQ_cast, castList_length]
  rfl

theorem varQ_cast (xs : List ℚ) :
    ((varQ xs : ℚ) : ℝ) = NpModel.npVar (castList xs) := by
  unfold varQ NpModel.npVar
  rw [meanQ_cast]
  congr 1
  unfold castList
  rw [List.map_map, List.map_map]
  congr 1
  funext q
  simp only [Function.comp_apply]
  push_cast [meanQ_cast]
  simp [castList]

theorem dotQ_cast (xs ys : List ℚ) :
    ((dotQ xs ys : ℚ) : ℝ) = NpModel.npDot (castList xs) (castList ys) := by
  induction xs generalizing ys with
  | nil => simp [dotQ, castList, NpModel.npDot]
  | cons a as ih =>
      cases ys with
      | nil => simp [dotQ, castList, NpModel.npDot]
      | cons b bs =>
          simp only [dotQ, castList, List.map, NpModel.npDot] at *
          push_cast
          rw [ih]

end QEval

namespace NNModel

open NpModel

/-- LeakyReLU with slope `0.1` for negative inputs, as in
`h1 = np.where(z1 > 0, z1, alpha * z1)` with `alpha = 0.1`. -/
noncomputable def leakyRelu (z : ℝ) : ℝ := if 0 < z then z else 0.1 * z

/-- Logistic sigmoid `1 / (1 + exp(-z))`. -/
noncomputable def sigmoid (z : ℝ) : ℝ := 1 / (1 + Real.exp (-z))

/-- Normalisation step of `_neural_forward_pass`: clamp every feature into
`[0,1]`, then pad with `0.5` up to length 20 (`np.pad` with
`constant_values=0.5`) or truncate to the first 20 entries. -/
noncomputable def clipPad20 (features : List ℝ) : List ℝ :=
  let clipped := features.map (fun v => npClip v 0 1)
  if clipped.length < 20 then
    clipped ++ List.replicate (20 - clipped.length) 0.5
  else
    clipped.take 20

/-- Shared body of `_neural_forward_pass` of the three domain models
(`dyslexia_nn_model.py:385`, `dyscalculia_nn_model.py:405`,
`dysgraphia_nn_model.py:679`): clamp/pad the features, apply the domain's
feature-importance weights element-wise, run the 20 → 64 → 32 → 1 cascade
with LeakyReLU, a batch-norm-like rescaling of the 32 activations
(`(h2 - mean) / (std + 1e-6)`), and a final sigmoid clipped into `[0,1]`.
The bias vectors `b1`, `b2`, `b3` of the source are identically zero and are
dropped from the sums.  The weight matrices are parameters here; the models
instantiate them with the seed-42 constants below. -/
noncomputable def neural_forward_pass (imp : List ℝ) (w1 w2 : List (List ℝ))
    (w3 : List ℝ) (features : List ℝ) : ℝ :=
  let fn := clipPad20 features
  let weighted := List.zipWith (· * ·) fn imp
  let h1 := w1.map (fun row => leakyRelu (npDot row weighted))
  let h2 := w2.map (fun row => leakyRelu (npDot row h1))
  let m := npMean h2
  let sd := npStd h2 + 1e-6
  let h2n := h2.map (fun h => (h - m) / sd)
  let z3 := npDot w3 h2n
  npClip (sigmoid z3) 0 1

/-- Conversion of a risk score to a risk tier, shared verbatim by the three
models (`_get_risk_level`): `< 0.83 → None`, `< 0.87 → Low`,
`< 0.90 → Medium`, otherwise `High`. -/
noncomputable def get_risk_level (score : ℝ) : String :=
  if score < 0.83 then "None"
  else if score < 0.87 then "Low"
  else if score < 0.90 then "Medium"
  else "High"

/-- Confidence estimate shared by the three models
(`_calculate_confidence`): `clip((1 - var(features)) * (0.5 + |score - 0.5|),
0.5, 0.99)`. -/
noncomputable def calculate_confidence (features : List ℝ) (risk_score : ℝ) : ℝ :=
  npClip ((1 - npVar features) * (0.5 + |risk_score - 0.5|)) 0.5 0.99

/-- Ordinal of a risk tier in the ordering None < Low < Medium < High
(used to state monotonicity of the tier mapping). -/
def riskOrd : String → ℕ
  | "Low" => 1
  | "Medium" => 2
  | "High" => 3
  | _ => 0

theorem sigmoid_pos (z : ℝ) : 0 < sigmoid z := by
  unfold sigmoid
  positivity

theorem sigmoid_lt_one (z : ℝ) : sigmoid z < 1 := by
  unfold sigmoid
  rw [div_lt_one (by positivity)]
  nlinarith [Real.exp_pos (-z)]

theorem clipPad20_length (features : List ℝ) : (clipPad20 features).length = 20 := by
  simp only [clipPad20]
  split_ifs with h
  · rw [List.length_append, List.length_replicate]
    omega
  · rw [List.length_take]
    omega

end NNModel

namespace NNModel

open NpModel

theorem neural_forward_pass_pos (imp : List ℝ) (w1 w2 : List (List ℝ))
    (w3 : List ℝ) (features : List ℝ) :
    0 < neural_forward_pass imp w1 w2 w3 features := by
  unfold neural_forward_pass
  dsimp only
  rw [npClip_of_mem _ _ _ (le_of_lt (sigmoid_pos _)) (le_of_lt (sigmoid_lt_one _))]
  exact sigmoid_pos _

theorem neural_forward_pass_lt_one (imp : List ℝ) (w1 w2 : List (List ℝ))
    (w3 : List ℝ) (features : List ℝ) :
    neural_forward_pass imp w1 w2 w3 features < 1 := by
  unfold neural_forward_pass
  dsimp only
  rw [npClip_of_mem _ _ _ (le_of_lt (sigmoid_pos _)) (le_of_lt (sigmoid_lt_one _))]
  exact sigmoid_lt_one _

theorem calculate_confidence_mem (features : List ℝ) (risk_score : ℝ) :
    0.5 ≤ calculate_confidence features risk_score ∧
      calculate_confidence features risk_score ≤ 0.99 := by
  unfold calculate_confidence
  constructor
  · exact le_npClip _ _ _ (by norm_num)
  · exact npClip_le _ _ _

theorem riskOrd_get_risk_level (s : ℝ) :
    riskOrd (get_risk_level s) =
      if s < 0.83 then 0 else if s < 0.87 then 1 else if s < 0.90 then 2 else 3 := by
  unfold get_risk_level
  split_ifs <;> rfl

theorem get_risk_level_monotone (s1 s2 : ℝ) (h : s1 ≤ s2) :
    riskOrd (get_risk_level s1) ≤ riskOrd (get_risk_level s2) := by
  rw [riskOrd_get_risk_level, riskOrd_get_risk_level]
  split_ifs <;> first | omega | linarith

theorem get_risk_level_none (s : ℝ) (h : s < 0.83) : get_risk_level s = "None" := by
  unfold get_risk_level
  rw [if_pos h]

theorem get_risk_level_low (s : ℝ) (h1 : 0.83 ≤ s) (h2 : s < 0.87) :
    get_risk_level s = "Low" := by
  unfold get_risk_level
  rw [if_neg (by linarith), if_pos h2]

theorem get_risk_level_medium (s : ℝ) (h1 : 0.87 ≤ s) (h2 : s < 0.90) :
    get_risk_level s = "Medium" := by
  unfold get_risk_level
  rw [if_neg (by linarith), if_neg (by linarith), if_pos h2]

theorem get_risk_level_high (s : ℝ) (h1 : 0.90 ≤ s) : get_risk_level s = "High" := by
  unfold get_risk_level
  rw [if_neg (by linarith), if_neg (by linarith), if_neg (by linarith)]

end NNModel

namespace NpRandom

/-- Gaussian draws 1 to 1280 of the `np.random.seed(42)` stream of numpy's
legacy `RandomState` (MT19937 with the randomkit integer seeding, doubles
via `(a * 2^26 + b) / 2^53`, gaussians via the Marsaglia polar method).
These are the exact IEEE-754 doubles consumed row-major by
`w1 = np.random.randn(64, 20) * 0.5 + 0.2`. -/
def gaussDraws1 : List ℚ := [
  mkRat (2237001674411039) 4503599627370496, mkRat (-2490748220932757) 18014398509481984, mkRat (729232464710605) 1125899906842624, mkRat (6859116693793323) 4503599627370496,
  mkRat (-131816631393945) 562949953421312, mkRat (-8435672896559931) 36028797018963968, mkRat (889017780932225) 562949953421312, mkRat (6912437520488435) 9007199254740992,
  mkRat (-8457298678226571) 18014398509481984, mkRat (4886946420239741) 9007199254740992, mkRat (-521761937166775) 1125899906842624, mkRat (-8389841378537447) 18014398509481984,
  mkRat (544850598031255) 2251799813685248, mkRat (-4308324098448095) 2251799813685248, mkRat (-3884169653875209) 2251799813685248, mkRat (-5064635814329443) 9007199254740992,
  mkRat (-4561385856127353) 4503599627370496, mkRat (5660976679912991) 18014398509481984, mkRat (-8178753776321529) 9007199254740992, mkRat (-6360450423067591) 4503599627370496,
  mkRat (6600695249571137) 4503599627370496, mkRat (-8134448501922009) 36028797018963968, mkRat (2432959979756259) 36028797018963968, mkRat (-3208247700263857) 2251799813685248,
  mkRat (-612920458829637) 1125899906842624, mkRat (7992814938949173) 72057594037927936, mkRat (-5183614246384917) 4503599627370496, mkRat (845996727712701) 2251799813685248,
  mkRat (-2705036180102633) 4503599627370496, mkRat (-164208982859413) 562949953421312, mkRat (-5419691349245351) 9007199254740992, mkRat (8341919341540951) 4503599627370496,
  mkRat (-3890310163218883) 288230376151711744, mkRat (-2381753272755747) 2251799813685248, mkRat (7408825919286839) 9007199254740992, mkRat (-1374547751771783) 1125899906842624,
  mkRat (7525104069077429) 36028797018963968, mkRat (-8825569639674051) 4503599627370496, mkRat (-5981618194897663) 4503599627370496, mkRat (110823023562985) 562949953421312,
  mkRat (3325757814492895) 4503599627370496, mkRat (1543548254620547) 9007199254740992, mkRat (-8333336983515487) 72057594037927936, mkRat (-5424201965023201) 18014398509481984,
  mkRat (-3329335542438915) 2251799813685248, mkRat (-6483780217382439) 9007199254740992, mkRat (-8298130388987609) 18014398509481984, mkRat (2380427632042289) 2251799813685248,
  mkRat (773759600429105) 2251799813685248, mkRat (-3970013493365415) 2251799813685248, mkRat (729772221901575) 2251799813685248, mkRat (-108391025911869) 281474976710656,
  mkRat (-6097171336673613) 9007199254740992, mkRat (5509490212990201) 9007199254740992, mkRat (1160802266332981) 1125899906842624, mkRat (4194112797429263) 4503599627370496,
  mkRat (-7558999449736531) 9007199254740992, mkRat (-5570274962647503) 18014398509481984, mkRat (2983755732461125) 9007199254740992, mkRat (4290492842765) 4398046511104,
  mkRat (-8632035676022357) 18014398509481984, mkRat (-6689069584969235) 36028797018963968, mkRat (-311405611042531) 281474976710656, mkRat (-1346808926616957) 1125899906842624,
  mkRat (457411373870427) 562949953421312, mkRat (6107962087296509) 4503599627370496, mkRat (-2594438053728765) 36028797018963968, mkRat (2259755192500277) 2251799813685248,
  mkRat (3257327735296545) 9007199254740992, mkRat (-5810722172897967) 9007199254740992, mkRat (6510324457204111) 18014398509481984, mkRat (216459403363073) 140737488355328,
  mkRat (-2581538182171817) 72057594037927936, mkRat (7046528585291569) 4503599627370496, mkRat (-5899141537292127) 2251799813685248, mkRat (7403039624878271) 9007199254740992,
  mkRat (6272402305297953) 72057594037927936, mkRat (-84163087008695) 281474976710656, mkRat (826507598025031) 9007199254740992, mkRat (-4475607311584881) 2251799813685248,
  mkRat (-7914513857670337) 36028797018963968, mkRat (6433168175958483) 18014398509481984, mkRat (6655843069190967) 4503599627370496, mkRat (-291760195236803) 562949953421312,
  mkRat (-7282262977442379) 9007199254740992, mkRat (-4519425669035681) 9007199254740992, mkRat (515325579522153) 562949953421312, mkRat (46267605467531) 140737488355328,
  mkRat (-1192913928140477) 2251799813685248, mkRat (4623102041021443) 9007199254740992, mkRat (3497587320559005) 36028797018963968, mkRat (8724778436836435) 9007199254740992,
  mkRat (-790441512995087) 1125899906842624, mkRat (-5902636485284503) 18014398509481984, mkRat (-3531796264669837) 9007199254740992, mkRat (-411942835941185) 281474976710656,
  mkRat (5334428677779491) 18014398509481984, mkRat (1175688426512453) 4503599627370496, mkRat (5895414125967885) 1152921504606846976, mkRat (-2112973052908449) 9007199254740992,
  mkRat (-1593565786622337) 1125899906842624, mkRat (-1894418118861213) 4503599627370496, mkRat (-6173795875697675) 18014398509481984, mkRat (-1806567805357151) 2251799813685248,
  mkRat (-90795783869903) 562949953421312, mkRat (7278733152754739) 18014398509481984, mkRat (8494626121843227) 4503599627370496, mkRat (6289828582533009) 36028797018963968,
  mkRat (4639615374752669) 18014398509481984, mkRat (-167637299251883) 2251799813685248, mkRat (-8641377330229997) 4503599627370496, mkRat (-955263036745927) 36028797018963968,
  mkRat (8680088033499309) 144115188075855872, mkRat (693341016244503) 281474976710656, mkRat (-1732633538617785) 9007199254740992, mkRat (2716096997136441) 9007199254740992,
  mkRat (-625311652439617) 18014398509481984, mkRat (-5263257974739407) 4503599627370496, mkRat (1286704100400087) 1125899906842624, mkRat (3386405325815723) 4503599627370496,
  mkRat (445311397742653) 562949953421312, mkRat (-2047758501274495) 2251799813685248, mkRat (1579405984002317) 1125899906842624, mkRat (-3156687962010125) 2251799813685248,
  mkRat (5285938777917259) 9007199254740992, mkRat (4932467570084713) 2251799813685248, mkRat (-8921958049511017) 9007199254740992, mkRat (-5100756488039603) 9007199254740992,
  mkRat (1795159402702649) 18014398509481984, mkRat (-4534905536535663) 9007199254740992, mkRat (-3491783625163245) 2251799813685248, mkRat (2470241502302699) 36028797018963968,
  mkRat (-1196047652322795) 1125899906842624, mkRat (8531482776536365) 18014398509481984, mkRat (-8281437277381519) 9007199254740992, mkRat (3490142004442851) 2251799813685248,
  mkRat (-7054918471004383) 9007199254740992, mkRat (-2900872248748515) 9007199254740992, mkRat (7327511674011055) 9007199254740992, mkRat (-5543320076835601) 4503599627370496,
  mkRat (8195107813798997) 36028797018963968, mkRat (5886847621106387) 4503599627370496, mkRat (-904932612021783) 562949953421312, mkRat (6652135811888497) 36028797018963968,
  mkRat (2340816110674407) 9007199254740992, mkRat (1760508597003013) 2251799813685248, mkRat (-696341345073275) 562949953421312, mkRat (-2973403955322627) 2251799813685248,
  mkRat (4701231680842867) 9007199254740992, mkRat (5350000254830901) 18014398509481984, mkRat (1128119507476663) 4503599627370496, mkRat (6241056108775021) 18014398509481984,
  mkRat (-6125118165407233) 9007199254740992, mkRat (8367821311917725) 36028797018963968, mkRat (2639762163080981) 9007199254740992, mkRat (-6434305560070271) 9007199254740992,
  mkRat (8402701393148895) 4503599627370496, mkRat (266744220756775) 562949953421312, mkRat (-5365153986087017) 4503599627370496, mkRat (1478427293596035) 2251799813685248,
  mkRat (-8779152013681235) 9007199254740992, mkRat (7089427856247123) 9007199254740992, mkRat (5217850617890849) 4503599627370496, mkRat (-1848012291559159) 2251799813685248,
  mkRat (8677320753364717) 9007199254740992, mkRat (7436000114947447) 18014398509481984, mkRat (7404459660454631) 9007199254740992, mkRat (8542396169879289) 4503599627370496,
  mkRat (-8841038622333405) 36028797018963968, mkRat (-3394525908936057) 4503599627370496, mkRat (-2003008426901093) 2251799813685248, mkRat (-1837041447687683) 2251799813685248,
  mkRat (-5555763676591807) 72057594037927936, mkRat (6145647626643785) 18014398509481984, mkRat (2492209161519037) 9007199254740992, mkRat (3725302172125753) 4503599627370496,
  mkRat (1873770093326513) 144115188075855872, mkRat (3273067764128005) 2251799813685248, mkRat (-2383816831103029) 9007199254740992, mkRat (1531319105629715) 562949953421312,
  mkRat (5635510468504737) 9007199254740992, mkRat (-3860294451674175) 4503599627370496, mkRat (-4822871055221885) 4503599627370496, mkRat (4345725179011505) 9007199254740992,
  mkRat (-4025547666898701) 18014398509481984, mkRat (6431144718270991) 9007199254740992, mkRat (8525091158748461) 18014398509481984, mkRat (-2623938111226325) 36028797018963968,
  mkRat (-7627239746305091) 9007199254740992, mkRat (-3411132698309245) 2251799813685248, mkRat (-2010924571744391) 4503599627370496, mkRat (964219322748933) 1125899906842624,
  mkRat (7713540050297127) 36028797018963968, mkRat (-2805154349804143) 2251799813685248, mkRat (3119750212524243) 18014398509481984, mkRat (6941260831064661) 18014398509481984,
  mkRat (-7961080040648129) 9007199254740992, mkRat (1384632659707539) 9007199254740992, mkRat (1048595050812477) 18014398509481984, mkRat (-5147480607405539) 4503599627370496,
  mkRat (805665511371201) 2251799813685248, mkRat (5051097967974241) 9007199254740992, mkRat (2438814587593665) 2251799813685248, mkRat (4745902528866653) 4503599627370496,
  mkRat (-3102235626085651) 2251799813685248, mkRat (-8447177000600935) 9007199254740992, mkRat (36242384960681) 70368744177664, mkRat (4627772434152839) 9007199254740992,
  mkRat (4639137136251907) 9007199254740992, mkRat (8675580052835589) 2251799813685248, mkRat (2571062291227099) 4503599627370496, mkRat (1278533248493021) 1125899906842624,
  mkRat (2148220993289391) 2251799813685248, mkRat (2933605396653193) 4503599627370496, mkRat (-5679385810734553) 18014398509481984, mkRat (3418093498599155) 4503599627370496,
  mkRat (-870123837053483) 1125899906842624, mkRat (-33329255908397) 140737488355328, mkRat (-8743532372569489) 18014398509481984, mkRat (5899653498104357) 72057594037927936,
  mkRat (2606073864590185) 1125899906842624, mkRat (-4204707412779047) 2251799813685248, mkRat (6181282275299729) 9007199254740992, mkRat (-907878324568025) 562949953421312,
  mkRat (-4250784349827111) 9007199254740992, mkRat (4904197502727109) 4503599627370496, mkRat (578982940091389) 9007199254740992, mkRat (-4853730980282921) 4503599627370496,
  mkRat (-6442883036959853) 9007199254740992, mkRat (1530318084432017) 2251799813685248, mkRat (-3289278890445141) 4503599627370496, mkRat (7798742587060201) 36028797018963968,
  mkRat (6567594278700917) 144115188075855872, mkRat (-5869094165344087) 9007199254740992, mkRat (4827732900894357) 2251799813685248, mkRat (5709834945388929) 9007199254740992,
  mkRat (-4560215699321661) 2251799813685248, mkRat (1679431165034431) 9007199254740992, mkRat (-1490210638064875) 2251799813685248, mkRat (7678036897892927) 9007199254740992,
  mkRat (-3569196102288901) 4503599627370496, mkRat (-4133815960289145) 36028797018963968, mkRat (4548521042886455) 9007199254740992, mkRat (7798029539717261) 9007199254740992,
  mkRat (-5405654451550539) 4503599627370496, mkRat (-3012919282176531) 9007199254740992, mkRat (-4277927052731693) 9007199254740992, mkRat (-2942333288369221) 4503599627370496,
  mkRat (3975449529334805) 2251799813685248, mkRat (7295501930302501) 18014398509481984, mkRat (-5678516506900747) 4503599627370496, mkRat (8267365445466895) 9007199254740992,
  mkRat (2389335464522021) 1125899906842624, mkRat (4649810162691127) 4503599627370496, mkRat (-3421317006254209) 2251799813685248, mkRat (-8723185560482189) 18014398509481984,
  mkRat (5705660579388401) 4503599627370496, mkRat (-3187059941662219) 4503599627370496, mkRat (1998785011219141) 4503599627370496, mkRat (1744320817186429) 2251799813685248,
  mkRat (-8349047452794825) 9007199254740992, mkRat (-4289253942064303) 72057594037927936, mkRat (-7298685192471617) 2251799813685248, mkRat (-4613431799796049) 4503599627370496,
  mkRat (-4549863329999567) 18014398509481984, mkRat (-1404878968334017) 1125899906842624, mkRat (3675863470050949) 2251799813685248, mkRat (-6440784176870633) 4503599627370496,
  mkRat (-7927136745259909) 18014398509481984, mkRat (1177606430295689) 9007199254740992, mkRat (6490917847577207) 4503599627370496, mkRat (-3233274124503561) 2251799813685248,
  mkRat (654802980096993) 562949953421312, mkRat (1474739513429497) 144115188075855872, mkRat (-2210160997560235) 2251799813685248, mkRat (8324516137994711) 18014398509481984,
  mkRat (224121292702291) 1125899906842624, mkRat (-5406273008627661) 9007199254740992, mkRat (2514885151605863) 36028797018963968, mkRat (-6941192684989635) 18014398509481984,
  mkRat (4089893390188869) 36028797018963968, mkRat (2981971459043561) 4503599627370496, mkRat (1785696185548887) 1125899906842624, mkRat (-2787312709635011) 2251799813685248,
  mkRat (4803164155635397) 2251799813685248, mkRat (-8791421886524031) 4503599627370496, mkRat (-5468634379541187) 36028797018963968, mkRat (1324772575949795) 2251799813685248,
  mkRat (5061899483302531) 18014398509481984, mkRat (-2804389325427813) 4503599627370496, mkRat (-3749197156626135) 18014398509481984, mkRat (-8881115302491303) 18014398509481984,
  mkRat (-1327131449879627) 2251799813685248, mkRat (7652535375114157) 9007199254740992, mkRat (6431419238230735) 18014398509481984, mkRat (-6241174790034647) 9007199254740992,
  mkRat (8102875327567465) 9007199254740992, mkRat (5535816030844119) 18014398509481984, mkRat (7321611071013465) 9007199254740992, mkRat (2835596217868897) 4503599627370496,
  mkRat (-3733461622280645) 4503599627370496, mkRat (-2522831123891089) 4503599627370496, mkRat (6731022403138953) 9007199254740992, mkRat (2748863299964183) 4503599627370496,
  mkRat (-1506118572614191) 72057594037927936, mkRat (8454328955996575) 72057594037927936, mkRat (2877045574288557) 2251799813685248, mkRat (-5328401372648181) 9007199254740992,
  mkRat (2463907561972757) 4503599627370496, mkRat (-1821189508316675) 9007199254740992, mkRat (-1960697971479341) 9007199254740992, mkRat (1237112755293209) 1125899906842624,
  mkRat (7434689523456013) 9007199254740992, mkRat (7327443387109567) 9007199254740992, mkRat (1469838467360079) 1125899906842624, mkRat (1513486293610281) 72057594037927936,
  mkRat (1535621573704101) 2251799813685248, mkRat (-1397317249379741) 4503599627370496, mkRat (5839661857092003) 18014398509481984, mkRat (-1172224422310325) 9007199254740992,
  mkRat (6989295868762357) 72057594037927936, mkRat (2680348957984617) 4503599627370496, mkRat (-7369876728234199) 9007199254740992, mkRat (4711637277545903) 2251799813685248,
  mkRat (-1132674876112575) 1125899906842624, mkRat (-2734109692054165) 2251799813685248, mkRat (5215667698348625) 4503599627370496, mkRat (3565331813534601) 4503599627370496,
  mkRat (702696443877657) 1125899906842624, mkRat (5659633202765071) 9007199254740992, mkRat (-7059783888621543) 576460752303423488, mkRat (-8081748906160279) 9007199254740992,
  mkRat (341393380034251) 4503599627370496, mkRat (-6099330463271027) 9007199254740992, mkRat (8783097736123603) 9007199254740992, mkRat (-1324575137070225) 9007199254740992,
  mkRat (-58089201060471) 70368744177664, mkRat (-2894786313421149) 9007199254740992, mkRat (7438711774421035) 18014398509481984, mkRat (-634697421486895) 1125899906842624,
  mkRat (-7405902934178805) 9007199254740992, mkRat (2194939269739863) 9007199254740992, mkRat (68951959897717) 281474976710656, mkRat (-570767273924859) 1125899906842624,
  mkRat (-8485471750639633) 18014398509481984, mkRat (4180240045660791) 18014398509481984, mkRat (-6521592100768399) 4503599627370496, mkRat (-3169326664909863) 2251799813685248,
  mkRat (-3235585127118957) 4503599627370496, mkRat (-961280512912769) 4503599627370496, mkRat (2800406393147683) 9007199254740992, mkRat (6644413708892747) 4503599627370496,
  mkRat (7725111118926669) 9007199254740992, mkRat (-2881196415781901) 18014398509481984, mkRat (-5481048756771155) 288230376151711744, mkRat (-35273366195397) 35184372088832,
  mkRat (-5336048150834343) 288230376151711744, mkRat (-2600005877356019) 9007199254740992, mkRat (5813580752336651) 18014398509481984, mkRat (-7451033938263171) 9007199254740992,
  mkRat (4677857536025419) 9007199254740992, mkRat (1725710599363667) 1125899906842624, mkRat (-7836994625009019) 72057594037927936, mkRat (1809148761955153) 4503599627370496,
  mkRat (3108132223902153) 4503599627370496, mkRat (-7227745470713867) 18014398509481984, mkRat (8073782540623381) 36028797018963968, mkRat (7259024827979683) 576460752303423488,
  mkRat (3519152328220179) 36028797018963968, mkRat (-6962653149050453) 9007199254740992, mkRat (7064576746199061) 288230376151711744, mkRat (8971139675536605) 18014398509481984,
  mkRat (6535369811326827) 4503599627370496, mkRat (8640343469809451) 9007199254740992, mkRat (4848535856654867) 2251799813685248, mkRat (-1727913099143139) 2251799813685248,
  mkRat (491072861810355) 562949953421312, mkRat (3302795954898401) 18014398509481984, mkRat (1232749459256741) 562949953421312, mkRat (-3640251856729671) 4503599627370496,
  mkRat (-7563541951080419) 9007199254740992, mkRat (-1349712247335157) 2251799813685248, mkRat (-2391293998143859) 1125899906842624, mkRat (-4735580239459285) 9007199254740992,
  mkRat (-3418829571698007) 4503599627370496, mkRat (5418507205864693) 36028797018963968, mkRat (3078264170323311) 9007199254740992, mkRat (1056190286547007) 562949953421312,
  mkRat (8560656886997465) 9007199254740992, mkRat (-5196286177339751) 9007199254740992, mkRat (-8092199958217303) 9007199254740992, mkRat (8861627989972409) 18014398509481984,
  mkRat (-5945801779180319) 4503599627370496, mkRat (515509813465381) 281474976710656, mkRat (5311726088186201) 4503599627370496, mkRat (-1056489645995029) 2251799813685248,
  mkRat (-3857636013424603) 2251799813685248, mkRat (3048649559899281) 2251799813685248, mkRat (-8253465670380227) 72057594037927936, mkRat (1393657270339201) 1125899906842624,
  mkRat (-1795165952503881) 1125899906842624, mkRat (-1349672565014897) 2251799813685248, mkRat (6045574168794235) 1152921504606846976, mkRat (6770617106321183) 144115188075855872,
  mkRat (-8107658758584993) 18014398509481984, mkRat (1402533361613967) 2251799813685248, mkRat (-4808134967940581) 4503599627370496, mkRat (-1282440391374201) 9007199254740992,
  mkRat (4334106897216049) 36028797018963968, mkRat (4633653082743789) 9007199254740992, mkRat (3204828499792425) 4503599627370496, mkRat (-5064937705726203) 4503599627370496,
  mkRat (-3454518003834373) 2251799813685248, mkRat (5754144859002045) 4503599627370496, mkRat (2993218521042567) 9007199254740992, mkRat (-421360460890991) 562949953421312,
  mkRat (6985767458958243) 4503599627370496, mkRat (8335235838360587) 72057594037927936, mkRat (1327770589677231) 1125899906842624, mkRat (4865219323507015) 72057594037927936,
  mkRat (290024487081345) 140737488355328, mkRat (1976338090983857) 1125899906842624, mkRat (-4484939385275873) 18014398509481984, mkRat (8751133145364067) 9007199254740992,
  mkRat (5813029772131101) 9007199254740992, mkRat (6163768572510187) 4503599627370496, mkRat (-543203617188701) 562949953421312, mkRat (772425274901489) 1125899906842624,
  mkRat (1191680031143903) 1125899906842624, mkRat (-7920658495696915) 4503599627370496, mkRat (-666115324590569) 562949953421312, mkRat (-4591942637941157) 2251799813685248,
  mkRat (-4853202076862301) 18014398509481984, mkRat (3231523035825281) 4503599627370496, mkRat (6766014659997109) 4503599627370496, mkRat (1334772901954393) 18014398509481984,
  mkRat (7334632364164667) 4503599627370496, mkRat (-6215424412950063) 4503599627370496, mkRat (-7671352519149321) 4503599627370496, mkRat (-8005267073667227) 144115188075855872,
  mkRat (3459354025457893) 9007199254740992, mkRat (-4711809770672959) 144115188075855872, mkRat (-290966608479677) 140737488355328, mkRat (-1605443906964151) 18014398509481984,
  mkRat (-2937404178194917) 2251799813685248, mkRat (6031874082742423) 9007199254740992, mkRat (6604046898065773) 18014398509481984, mkRat (-8465684510953877) 9007199254740992,
  mkRat (-4628501714871117) 9007199254740992, mkRat (-4770273622484873) 4503599627370496, mkRat (-4516504945974015) 72057594037927936, mkRat (8603157197390335) 9007199254740992,
  mkRat (-4439315454966147) 4503599627370496, mkRat (2270023699463561) 4503599627370496, mkRat (-2388068012512491) 4503599627370496, mkRat (-3570781791928883) 4503599627370496,
  mkRat (-7712350227338827) 72057594037927936, mkRat (-1165579234371515) 1125899906842624, mkRat (-2493414805255503) 4503599627370496, mkRat (-5394762430698493) 4503599627370496,
  mkRat (8848335376487699) 4503599627370496, mkRat (5082013424628387) 144115188075855872, mkRat (-6302567074114079) 9007199254740992, mkRat (3854719384989657) 18014398509481984,
  mkRat (-2023522250923503) 18014398509481984, mkRat (-3980634424472123) 18014398509481984, mkRat (2765960921458937) 4503599627370496, mkRat (3411511440699321) 4503599627370496,
  mkRat (-298645596337299) 562949953421312, mkRat (-5186509628001031) 9007199254740992, mkRat (-2477445441599533) 9007199254740992, mkRat (-5183465649869719) 2251799813685248,
  mkRat (-3411906951556253) 2251799813685248, mkRat (6155854441525481) 4503599627370496, mkRat (3704137990780439) 2251799813685248, mkRat (-2243117229895859) 9007199254740992,
  mkRat (5193163447951629) 9007199254740992, mkRat (2803492160042557) 9007199254740992, mkRat (3466511615419295) 1125899906842624, mkRat (1260529288487529) 1125899906842624,
  mkRat (-1152179234653823) 9007199254740992, mkRat (-4303371572225517) 4503599627370496, mkRat (-1808697762325677) 1125899906842624, mkRat (3665275018700289) 18014398509481984,
  mkRat (-6812601869247571) 9007199254740992, mkRat (-6405261276570391) 4503599627370496, mkRat (-5823810801085019) 9007199254740992, mkRat (-4870859186061093) 4503599627370496,
  mkRat (1899552609758513) 1125899906842624, mkRat (248159530054535) 281474976710656, mkRat (-4595914811222607) 576460752303423488, mkRat (3332537936217135) 2251799813685248,
  mkRat (5574974103873595) 72057594037927936, mkRat (-7757758416324127) 9007199254740992, mkRat (6859541026830659) 4503599627370496, mkRat (4854070143848893) 9007199254740992,
  mkRat (-4671341394116109) 4503599627370496, mkRat (-6857673597532245) 36028797018963968, mkRat (-3943434039662397) 4503599627370496, mkRat (-3113788176549503) 2251799813685248,
  mkRat (1042783214485605) 1125899906842624, mkRat (537453004407269) 281474976710656, mkRat (-6298588404304343) 4503599627370496, mkRat (5070776089161415) 9007199254740992,
  mkRat (-1465116815924221) 2251799813685248, mkRat (-2193817696805395) 4503599627370496, mkRat (-2667905056458717) 4503599627370496, mkRat (-7782137016763135) 9007199254740992,
  mkRat (3496351768507723) 72057594037927936, mkRat (-935566658658055) 1125899906842624, mkRat (4872117039207557) 18014398509481984, mkRat (-1810018647959451) 36028797018963968,
  mkRat (-4304505339313883) 18014398509481984, mkRat (-4087303370185543) 4503599627370496, mkRat (-5195094298851057) 9007199254740992, mkRat (3401979643147817) 4503599627370496,
  mkRat (1127965229764319) 2251799813685248, mkRat (-8805034872417657) 9007199254740992, mkRat (7157646939470623) 72057594037927936, mkRat (1691973384414089) 2251799813685248,
  mkRat (-1879583250497137) 1125899906842624, mkRat (4894153519860473) 9007199254740992, mkRat (-5968384227750705) 9007199254740992, mkRat (5139495902508507) 9007199254740992,
  mkRat (-1718706826495999) 2251799813685248, mkRat (-4064233178000203) 2251799813685248, mkRat (-916224939597535) 562949953421312, mkRat (1732442782930641) 36028797018963968,
  mkRat (4678744647890395) 18014398509481984, mkRat (-4072680015845159) 4503599627370496, mkRat (1437982379695695) 2251799813685248, mkRat (-7482821133303091) 4503599627370496,
  mkRat (-4761551305036357) 72057594037927936, mkRat (-2726966052994917) 2251799813685248, mkRat (-5871217704408877) 9007199254740992, mkRat (6830868431310681) 144115188075855872,
  mkRat (-7749914622554805) 9007199254740992, mkRat (-6927536822786799) 18014398509481984, mkRat (1132984980150941) 1125899906842624, mkRat (-5196180017235043) 9007199254740992,
  mkRat (7527245368986071) 9007199254740992, mkRat (-635968421209243) 562949953421312, mkRat (4772051796477199) 9007199254740992, mkRat (405765493926495) 281474976710656,
  mkRat (-2782824312441399) 1125899906842624, mkRat (-7177794351180311) 9007199254740992, mkRat (5197803633872359) 9007199254740992, mkRat (-7315480999380163) 36028797018963968,
  mkRat (6685969668060495) 18014398509481984, mkRat (-2720107461830669) 4503599627370496, mkRat (779931469194085) 9007199254740992, mkRat (-5608863514414705) 36028797018963968,
  mkRat (2629611428870529) 2251799813685248, mkRat (4583238460346523) 18014398509481984, mkRat (95026701445073) 281474976710656, mkRat (-3709857902303269) 9007199254740992,
  mkRat (-4391966418072833) 9007199254740992, mkRat (-7792275573922007) 18014398509481984, mkRat (3552909042860783) 9007199254740992, mkRat (-947972775475449) 2251799813685248,
  mkRat (163128742192503) 562949953421312, mkRat (2336693565856007) 1125899906842624, mkRat (7846393779536407) 9007199254740992, mkRat (-5873117831940409) 18014398509481984,
  mkRat (2704893286124897) 2251799813685248, mkRat (-1837808097878935) 4503599627370496, mkRat (-573681056072603) 281474976710656, mkRat (-4540017134204919) 4503599627370496,
  mkRat (-4212648899209889) 2251799813685248, mkRat (-3166151991488285) 9007199254740992, mkRat (2654368180954673) 144115188075855872, mkRat (7550002454872959) 4503599627370496,
  mkRat (5889399994645991) 18014398509481984, mkRat (-7893928479202237) 36028797018963968, mkRat (7470621332713943) 9007199254740992, mkRat (-4979034076856829) 2251799813685248,
  mkRat (8488909088806413) 36028797018963968, mkRat (3471668199942229) 4503599627370496, mkRat (-6658960465529235) 4503599627370496, mkRat (321938142674389) 281474976710656,
  mkRat (1524452294658095) 4503599627370496, mkRat (-7481161977180477) 18014398509481984, mkRat (5699592352806143) 9007199254740992, mkRat (2556572877070181) 1125899906842624,
  mkRat (6552422388101651) 36028797018963968, mkRat (8943089119743037) 36028797018963968, mkRat (-8275110303992077) 18014398509481984, mkRat (-7654717571289101) 9007199254740992,
  mkRat (3739500073981041) 4503599627370496, mkRat (-3855458799361083) 4503599627370496, mkRat (5156890868377031) 72057594037927936, mkRat (-1075588949631061) 2251799813685248,
  mkRat (4314266729498871) 9007199254740992, mkRat (3005361066075911) 9007199254740992, mkRat (584083063292735) 562949953421312, mkRat (-2296909663835081) 4503599627370496,
  mkRat (-2430817316047727) 9007199254740992, mkRat (-8815919811361923) 9007199254740992, mkRat (-2000918960521999) 4503599627370496, mkRat (6796841439534003) 18014398509481984,
  mkRat (1704586825923857) 2251799813685248, mkRat (-8306126820680693) 9007199254740992, mkRat (7832713795494057) 9007199254740992, mkRat (3052625077881657) 2251799813685248,
  mkRat (7447781104400865) 18014398509481984, mkRat (8452336922087013) 4503599627370496, mkRat (-1742418374373083) 2251799813685248, mkRat (-5605426458038233) 4503599627370496,
  mkRat (-8010643850161665) 4503599627370496, mkRat (6737584603752435) 4503599627370496, mkRat (5894001852240369) 9007199254740992, mkRat (-8010595302394787) 144115188075855872,
  mkRat (5043466404677489) 18014398509481984, mkRat (-5068752054022543) 4503599627370496, mkRat (688417981502687) 281474976710656, mkRat (4655683735936077) 36028797018963968,
  mkRat (7882725699501881) 72057594037927936, mkRat (817140574237023) 1125899906842624, mkRat (8665091987244921) 18014398509481984, mkRat (8066272066541625) 36028797018963968,
  mkRat (-7119960925978805) 9007199254740992, mkRat (8493218870058601) 18014398509481984, mkRat (8475884821027107) 4503599627370496, mkRat (6059233218520353) 4503599627370496,
  mkRat (3587537349032423) 2251799813685248, mkRat (-4604621459762883) 9007199254740992, mkRat (-8913567799521183) 9007199254740992, mkRat (-2265975705955431) 18014398509481984,
  mkRat (8030806214995795) 144115188075855872, mkRat (4927800514857721) 4503599627370496, mkRat (-7622183075721405) 4503599627370496, mkRat (6888482248767243) 4503599627370496,
  mkRat (-5692834505295455) 36028797018963968, mkRat (-3845002855093439) 9007199254740992, mkRat (-4558112887281739) 4503599627370496, mkRat (-3726405945383129) 2251799813685248,
  mkRat (231701920949577) 281474976710656, mkRat (165097384854629) 2251799813685248, mkRat (-181545857106135) 140737488355328, mkRat (-5832516275281141) 4503599627370496,
  mkRat (-3024479693199471) 9007199254740992, mkRat (7516604719366647) 4503599627370496, mkRat (-584547756634867) 2251799813685248, mkRat (-3384777021773645) 2251799813685248,
  mkRat (-4426913487385371) 18014398509481984, mkRat (-4912951068363041) 18014398509481984, mkRat (-6072848840106065) 2251799813685248, mkRat (-1956178724941999) 36028797018963968,
  mkRat (-8320293313558261) 36028797018963968, mkRat (6270869450293357) 9007199254740992, mkRat (1040869747527533) 562949953421312, mkRat (634199730909989) 562949953421312,
  mkRat (-2421934013173751) 9007199254740992, mkRat (-2491674835142393) 2251799813685248, mkRat (2897345562751571) 1125899906842624, mkRat (2133568938888909) 36028797018963968,
  mkRat (8029690095190961) 576460752303423488, mkRat (-6953582932409057) 288230376151711744, mkRat (7136755638255083) 36028797018963968, mkRat (-5201131978781749) 36028797018963968,
  mkRat (-2583544000422443) 4503599627370496, mkRat (-1231416861997227) 2251799813685248, mkRat (-295015231079871) 9007199254740992, mkRat (-2447367596781921) 4503599627370496,
  mkRat (-3210372001237507) 4503599627370496, mkRat (3834553070193469) 36028797018963968, mkRat (-4593261205458119) 18014398509481984, mkRat (6773382262948835) 4503599627370496,
  mkRat (-2984726660312301) 1125899906842624, mkRat (2457854925795171) 2251799813685248, mkRat (5611868808604215) 4503599627370496, mkRat (-1167214934758371) 562949953421312,
  mkRat (-3086655442009501) 9007199254740992, mkRat (-6691283782755283) 18014398509481984, mkRat (-6338869143850795) 4503599627370496, mkRat (-7005949888793639) 9007199254740992,
  mkRat (-1250397240951645) 1125899906842624, mkRat (7891524516054961) 4503599627370496, mkRat (8427841725435061) 9007199254740992, mkRat (5726575051996749) 4503599627370496,
  mkRat (6500244077417621) 9007199254740992, mkRat (-635599642016989) 562949953421312, mkRat (-1181114637882931) 2251799813685248, mkRat (8815788366362607) 18014398509481984,
  mkRat (-2751987172362443) 2251799813685248, mkRat (6422118928880231) 9007199254740992, mkRat (-1082329373592643) 4503599627370496, mkRat (-6752171396844303) 18014398509481984,
  mkRat (400234880984573) 562949953421312, mkRat (8003136336251645) 18014398509481984, mkRat (-1625647089876165) 4503599627370496, mkRat (2610578635215369) 2251799813685248,
  mkRat (-2434338199671403) 2251799813685248, mkRat (5547854739836813) 9007199254740992, mkRat (5342181208758771) 9007199254740992, mkRat (-2788146457496701) 9007199254740992,
  mkRat (5875090229771265) 18014398509481984, mkRat (-5634514636407019) 4503599627370496, mkRat (8322895478760939) 9007199254740992, mkRat (-416362596392327) 2251799813685248,
  mkRat (-4708270400855053) 9007199254740992, mkRat (4724317558587227) 4503599627370496, mkRat (-6344163964538261) 9007199254740992, mkRat (-6343145769468693) 4503599627370496,
  mkRat (-876304320729537) 562949953421312, mkRat (2729226191063035) 4503599627370496, mkRat (-2883270577388253) 2251799813685248, mkRat (7902890424096699) 4503599627370496,
  mkRat (-1172022063194601) 562949953421312, mkRat (7640160268081321) 4503599627370496, mkRat (7602705493299025) 36028797018963968, mkRat (-1742228538325361) 18014398509481984,
  mkRat (-2454097396299857) 4503599627370496, mkRat (898774627933047) 2251799813685248, mkRat (-5423732218135891) 144115188075855872, mkRat (4968829944726773) 4503599627370496,
  mkRat (8230969535196315) 72057594037927936, mkRat (5415191655302729) 36028797018963968, mkRat (-1637563823433683) 4503599627370496, mkRat (-2051682318164639) 36028797018963968,
  mkRat (5544863726745029) 18014398509481984, mkRat (-7701913735909179) 4503599627370496, mkRat (-758960920577703) 562949953421312, mkRat (6694727793757137) 9007199254740992,
  mkRat (1539019046966991) 9007199254740992, mkRat (-6628698280322451) 36028797018963968, mkRat (5313219461393747) 288230376151711744, mkRat (6261475354990493) 18014398509481984,
  mkRat (-4861722990221717) 9007199254740992, mkRat (-7010345742605103) 9007199254740992, mkRat (7056068943041587) 36028797018963968, mkRat (-8812398553392991) 9007199254740992,
  mkRat (3677213917017347) 9007199254740992, mkRat (-3833877442806327) 2251799813685248, mkRat (2317452472383007) 2251799813685248, mkRat (2128389845691615) 4503599627370496,
  mkRat (2306110832103475) 9007199254740992, mkRat (8851293498234725) 9007199254740992, mkRat (937578760934593) 562949953421312, mkRat (2284158323415719) 2251799813685248,
  mkRat (-4145280251130573) 2251799813685248, mkRat (-5762702350582775) 4503599627370496, mkRat (-5627865427368845) 9007199254740992, mkRat (1880058304115455) 72057594037927936,
  mkRat (4662657943379437) 9007199254740992, mkRat (-6536919132968781) 9007199254740992, mkRat (6728981847233305) 36028797018963968, mkRat (-425242786583557) 562949953421312,
  mkRat (-5508062699369925) 9007199254740992, mkRat (-6335038391602227) 4503599627370496, mkRat (-2078936451580561) 2251799813685248, mkRat (-1521861571544039) 1125899906842624,
  mkRat (-8789884836939099) 9007199254740992, mkRat (2372590401292523) 2251799813685248, mkRat (-8551424963939003) 9007199254740992, mkRat (5927597443149225) 2251799813685248,
  mkRat (69428322330699) 140737488355328, mkRat (832427897796841) 4503599627370496, mkRat (-7731399557949359) 9007199254740992, mkRat (6307830623900421) 9007199254740992,
  mkRat (-2592442299744801) 4503599627370496, mkRat (8791733692358289) 72057594037927936, mkRat (1441199471573039) 562949953421312, mkRat (-3460922628841443) 36028797018963968,
  mkRat (1293966731001755) 1125899906842624, mkRat (-395853135771583) 562949953421312, mkRat (-5042372888459931) 144115188075855872, mkRat (15576127114835) 8796093022208,
  mkRat (-5647217215653131) 9007199254740992, mkRat (8162542650423161) 4503599627370496, mkRat (6374862705576053) 9007199254740992, mkRat (-633281290581427) 1125899906842624,
  mkRat (1424055628978331) 2251799813685248, mkRat (8759991713872917) 9007199254740992, mkRat (700095778534157) 1125899906842624, mkRat (-7071663463386601) 4503599627370496,
  mkRat (-3274734714092113) 4503599627370496, mkRat (-8917798678696083) 36028797018963968, mkRat (-5363493816942027) 72057594037927936, mkRat (5590517254496995) 9007199254740992,
  mkRat (6402353292690929) 36028797018963968, mkRat (-3006928178149053) 2251799813685248, mkRat (6849035600470077) 18014398509481984, mkRat (5499667469875925) 9007199254740992,
  mkRat (1260536026353897) 2251799813685248, mkRat (4867403672877009) 4503599627370496, mkRat (7511303008964891) 9007199254740992, mkRat (8271852934836569) 18014398509481984,
  mkRat (-631996543958697) 9007199254740992, mkRat (-3740151520629785) 2251799813685248, mkRat (7739313806388359) 18014398509481984, mkRat (1870684381034455) 9007199254740992,
  mkRat (2446164699989593) 9007199254740992, mkRat (-5749964410310157) 4503599627370496, mkRat (-152145182267159) 140737488355328, mkRat (4742978797834239) 4503599627370496,
  mkRat (-5700498437421257) 144115188075855872, mkRat (6138412573480169) 9007199254740992, mkRat (8162216204088479) 288230376151711744, mkRat (4288311639840721) 144115188075855872,
  mkRat (2112827299480637) 2251799813685248, mkRat (-1162029422853137) 2251799813685248, mkRat (1731557980855901) 18014398509481984, mkRat (-8327611271818471) 18014398509481984,
  mkRat (-7827188191832251) 18014398509481984, mkRat (-5569549840186837) 18014398509481984, mkRat (125050196394499) 562949953421312, mkRat (-2156092114127775) 4503599627370496,
  mkRat (2827711409600563) 2251799813685248, mkRat (-8057906225837365) 9007199254740992, mkRat (-1683190134022417) 9007199254740992, mkRat (-247546578773351) 562949953421312,
  mkRat (1629152265197205) 1125899906842624, mkRat (7081632146043349) 36028797018963968, mkRat (4647014683455225) 4503599627370496, mkRat (-3345184571222841) 2251799813685248,
  mkRat (601343738928993) 2251799813685248, mkRat (4006540919667029) 4503599627370496, mkRat (1482296573757433) 18014398509481984, mkRat (1199624255028723) 1125899906842624,
  mkRat (-4659320142230195) 9007199254740992, mkRat (1586784151613835) 1125899906842624, mkRat (2588329183223597) 1125899906842624, mkRat (-6536318422366783) 18014398509481984,
  mkRat (-8025459957492529) 18014398509481984, mkRat (6545461789573341) 4503599627370496, mkRat (7113760526917651) 4503599627370496, mkRat (-4709504446908773) 9007199254740992,
  mkRat (-3784706385797795) 9007199254740992, mkRat (-5076180237851685) 18014398509481984, mkRat (-6054866820512043) 4503599627370496, mkRat (-517155070483677) 562949953421312,
  mkRat (-4522247982972137) 4503599627370496, mkRat (-3457852828098927) 4503599627370496, mkRat (-4998619069135851) 144115188075855872, mkRat (4219237528704621) 18014398509481984,
  mkRat (6982833441675247) 4503599627370496, mkRat (-562023360731881) 562949953421312, mkRat (8865987973983151) 9007199254740992, mkRat (-3854880316461781) 18014398509481984,
  mkRat (-3564235909744951) 72057594037927936, mkRat (379889601682983) 562949953421312, mkRat (-2528145238974309) 2251799813685248, mkRat (6888881561669345) 18014398509481984,
  mkRat (5997072823066525) 36028797018963968, mkRat (1108901664542615) 2251799813685248, mkRat (5209199187801925) 18014398509481984, mkRat (5528844397592715) 2251799813685248,
  mkRat (-5744251110866985) 9007199254740992, mkRat (-1195698844340527) 2251799813685248, mkRat (-5612750885212047) 9007199254740992, mkRat (-5003293093725919) 9007199254740992,
  mkRat (-89704263407137) 140737488355328, mkRat (2677427203216665) 2251799813685248, mkRat (6397382401925317) 4503599627370496, mkRat (-2570412795853233) 4503599627370496,
  mkRat (-468574531108995) 562949953421312, mkRat (4246133848156929) 9007199254740992, mkRat (-2486991496449183) 4503599627370496, mkRat (2850471498594649) 4503599627370496,
  mkRat (3655536164363235) 18014398509481984, mkRat (-1706576157872639) 1125899906842624, mkRat (3484671924031985) 2251799813685248, mkRat (8087914019355985) 4503599627370496,
  mkRat (-86242341191323) 140737488355328, mkRat (-6984210403434633) 18014398509481984, mkRat (5149693068587213) 18014398509481984, mkRat (753129737378549) 2251799813685248,
  mkRat (5931639482032667) 9007199254740992, mkRat (2263289102931653) 1125899906842624, mkRat (-3187597871225773) 18014398509481984, mkRat (-1797605586517137) 2251799813685248,
  mkRat (-6211901561311185) 4503599627370496, mkRat (-6583632511032657) 9007199254740992, mkRat (-1193524981522761) 36028797018963968, mkRat (4040985062716751) 2251799813685248,
  mkRat (-582778513365515) 1125899906842624, mkRat (8062810684887599) 36028797018963968, mkRat (-591697189068725) 36028797018963968, mkRat (5352047503470395) 4503599627370496,
  mkRat (5690145965777433) 2251799813685248, mkRat (-4781640815813177) 9007199254740992, mkRat (-4408478581890977) 9007199254740992, mkRat (4702482536883123) 4503599627370496,
  mkRat (6141932517176337) 9007199254740992, mkRat (4158415212023583) 2251799813685248, mkRat (2629778757845141) 4503599627370496, mkRat (-6472430904743071) 18014398509481984,
  mkRat (5320145750820935) 9007199254740992, mkRat (2496578516188759) 2251799813685248, mkRat (7390246491009161) 9007199254740992, mkRat (4569118274939111) 9007199254740992,
  mkRat (4803875734559253) 4503599627370496, mkRat (658254898177137) 562949953421312, mkRat (1556172679250847) 1125899906842624, mkRat (2921529608020271) 4503599627370496,
  mkRat (-6021063393934863) 36028797018963968, mkRat (1321479407102529) 9007199254740992, mkRat (2716816665993099) 2251799813685248, mkRat (-7358302366887565) 9007199254740992,
  mkRat (3320713952922891) 9007199254740992, mkRat (-1771440528627855) 4503599627370496, mkRat (8285131126916795) 288230376151711744, mkRat (5757635332049347) 4503599627370496,
  mkRat (3442534766101143) 18014398509481984, mkRat (1673052967779231) 36028797018963968, mkRat (-6124247609794645) 4503599627370496, mkRat (3360827281884095) 4503599627370496,
  mkRat (2907002317660497) 4503599627370496, mkRat (608902072861621) 281474976710656, mkRat (-2772219888494167) 9007199254740992, mkRat (7895722672043501) 36028797018963968,
  mkRat (1123124265032039) 4503599627370496, mkRat (3552109001468575) 2251799813685248, mkRat (-858345848295901) 9007199254740992, mkRat (1256601239487647) 4503599627370496,
  mkRat (2737722494639231) 4503599627370496, mkRat (6723302220087275) 36028797018963968, mkRat (-8042233040541691) 18014398509481984, mkRat (3496414478772641) 18014398509481984,
  mkRat (4835207548601603) 4503599627370496, mkRat (-1155753479979441) 1125899906842624, mkRat (598842174939447) 4503599627370496, mkRat (-6306127682548777) 9007199254740992,
  mkRat (10511741313899) 8796093022208, mkRat (-6859823976799827) 4503599627370496, mkRat (-5034320446203109) 9007199254740992, mkRat (6795245039921209) 18014398509481984,
  mkRat (7050493434699333) 4503599627370496, mkRat (-4737805620285131) 72057594037927936, mkRat (-625099095382941) 1125899906842624, mkRat (132374660577469) 70368744177664,
  mkRat (-6521274862341895) 4503599627370496, mkRat (-2475635421723557) 1125899906842624, mkRat (3963297826595643) 9007199254740992, mkRat (-2261051217714203) 4503599627370496,
  mkRat (-2299611867344201) 2251799813685248, mkRat (398769229012857) 562949953421312, mkRat (137247600461579) 562949953421312, mkRat (-5080768622387179) 9007199254740992,
  mkRat (-5765978412775047) 4503599627370496, mkRat (1964599249269559) 2251799813685248, mkRat (2928245782770483) 4503599627370496, mkRat (-7146374130575615) 72057594037927936,
  mkRat (1039564210911105) 562949953421312, mkRat (-4819233354881305) 4503599627370496, mkRat (-3435177295660483) 2251799813685248, mkRat (-6232153851383623) 9007199254740992,
  mkRat (-821204665087701) 18014398509481984, mkRat (8767227626353733) 36028797018963968, mkRat (-8691444962160757) 36028797018963968, mkRat (6342066210222237) 18014398509481984,
  mkRat (-5636432484423569) 4503599627370496, mkRat (6502137732915043) 4503599627370496, mkRat (-92494004099205) 1125899906842624, mkRat (1257963272700725) 1125899906842624,
  mkRat (3086995484474105) 9007199254740992, mkRat (8228134510325023) 18014398509481984, mkRat (5132007421883309) 9007199254740992, mkRat (2016300104064561) 4503599627370496,
  mkRat (5789131963684015) 9007199254740992, mkRat (2992985419711485) 2251799813685248, mkRat (7080421333103639) 36028797018963968, mkRat (6386138116959811) 9007199254740992,
  mkRat (-404133639353787) 4503599627370496, mkRat (3242855677434041) 2251799813685248, mkRat (-3046200119510399) 4503599627370496, mkRat (8110714662573609) 4503599627370496,
  mkRat (-723421326231311) 18014398509481984, mkRat (-6443638216749825) 4503599627370496, mkRat (288465497628373) 2251799813685248, mkRat (-766795997705983) 1125899906842624,
  mkRat (3785921973977029) 4503599627370496, mkRat (-1469578554999649) 2251799813685248, mkRat (-4018863087129941) 9007199254740992, mkRat (-2127433732946917) 1125899906842624,
  mkRat (-4074013141654925) 9007199254740992, mkRat (-5458091016098609) 2251799813685248, mkRat (-1783316041410345) 1125899906842624, mkRat (6849206324117043) 9007199254740992,
  mkRat (7077858603375129) 9007199254740992, mkRat (1916090516716727) 4503599627370496, mkRat (-4354873397872883) 4503599627370496, mkRat (-429745691484723) 9007199254740992,
  mkRat (-4153444788703107) 1152921504606846976, mkRat (-1304202695651669) 1125899906842624, mkRat (846338003953497) 562949953421312, mkRat (7902576969811037) 9007199254740992,
  mkRat (-31097942841297) 140737488355328, mkRat (3874657743273983) 144115188075855872, mkRat (938472736223015) 4503599627370496, mkRat (-1149394549078123) 562949953421312,
  mkRat (-8905503742513399) 36028797018963968, mkRat (-6142768010310867) 9007199254740992, mkRat (-2255447751664787) 2251799813685248, mkRat (-5063852697179695) 18014398509481984,
  mkRat (8096060372448471) 4503599627370496, mkRat (721524917801287) 1125899906842624, mkRat (-643090371386915) 1125899906842624, mkRat (1289341800377179) 2251799813685248,
  mkRat (6302136622767597) 4503599627370496, mkRat (4164179909820155) 4503599627370496, mkRat (8593641976078753) 144115188075855872, mkRat (-728386057751773) 1125899906842624,
  mkRat (6289036510023113) 9007199254740992, mkRat (3544201270322255) 9007199254740992, mkRat (8063183704282979) 9007199254740992, mkRat (5721118978742329) 9007199254740992,
  mkRat (2363382608808925) 2251799813685248, mkRat (-4820970198679485) 9007199254740992, mkRat (1483253855772713) 1125899906842624, mkRat (7119276048489987) 36028797018963968,
  mkRat (2336536023162929) 1125899906842624, mkRat (-3103826000736463) 4503599627370496, mkRat (3909042968531843) 2251799813685248, mkRat (1782621861309967) 9007199254740992,
  mkRat (-1466862939170231) 2251799813685248, mkRat (-8716912247747617) 18014398509481984, mkRat (-5770864071252327) 18014398509481984, mkRat (3820547196317849) 9007199254740992,
  mkRat (4709283418185495) 9007199254740992, mkRat (-5167430247920473) 9007199254740992, mkRat (-1754933322101163) 72057594037927936, mkRat (602995499298203) 281474976710656,
  mkRat (7780162777132009) 4503599627370496, mkRat (7860108464627593) 18014398509481984, mkRat (5476878403746867) 144115188075855872, mkRat (4324584306249183) 36028797018963968,
  mkRat (5526078626747613) 9007199254740992, mkRat (-4606248215504853) 4503599627370496, mkRat (-2318241756067371) 9007199254740992, mkRat (-234832331667233) 140737488355328,
  mkRat (3595882212405643) 9007199254740992, mkRat (5829422785761925) 9007199254740992, mkRat (-2176078371561929) 4503599627370496, mkRat (7088606200639085) 4503599627370496,
  mkRat (-5520357783140893) 4503599627370496, mkRat (-6594958164843661) 4503599627370496, mkRat (4043364505717281) 18014398509481984, mkRat (2357855762732189) 2251799813685248,
  mkRat (7583736123768517) 4503599627370496, mkRat (-2066630995262743) 4503599627370496, mkRat (4857946599492879) 4503599627370496, mkRat (-5549655324607779) 144115188075855872,
  mkRat (-6219553949499601) 36028797018963968, mkRat (7959301130374427) 9007199254740992, mkRat (1468900536073963) 2251799813685248, mkRat (-3549719565392019) 2251799813685248,
  mkRat (3324873284411523) 2251799813685248, mkRat (3107689454137853) 2251799813685248, mkRat (-5634567898830395) 9007199254740992, mkRat (1782540645700641) 4503599627370496,
  mkRat (8899656651410877) 18014398509481984, mkRat (293492568657453) 1125899906842624, mkRat (-4956708171596595) 9007199254740992, mkRat (-6049445499158253) 9007199254740992,
  mkRat (-3682729747035909) 144115188075855872, mkRat (2640750987071521) 2251799813685248, mkRat (4896314907340059) 9007199254740992, mkRat (-26079665123143) 70368744177664,
  mkRat (6950844051436355) 9007199254740992, mkRat (-1603586935602323) 562949953421312, mkRat (1293395195032953) 1125899906842624, mkRat (-7834974325836367) 4503599627370496,
  mkRat (-6529155554587831) 18014398509481984, mkRat (-630318115027033) 562949953421312, mkRat (-5830727011620155) 4503599627370496, mkRat (2613949543539795) 2251799813685248,
  mkRat (-8425355823795869) 18014398509481984, mkRat (780257376322441) 2251799813685248, mkRat (-6761968049801643) 144115188075855872, mkRat (2148400891722563) 4503599627370496,
  mkRat (2767800319622903) 36028797018963968, mkRat (-2889041651387443) 2251799813685248, mkRat (4486786876823729) 4503599627370496, mkRat (-8894727855748065) 18014398509481984,
  mkRat (-3505110829387857) 2251799813685248, mkRat (-3856118558795487) 9007199254740992, mkRat (3379410616936653) 2251799813685248, mkRat (7658116641929241) 9007199254740992,
  mkRat (-6280758490404651) 18014398509481984, mkRat (-6291667468099003) 18014398509481984, mkRat (-5794061987247579) 18014398509481984, mkRat (1169105180613379) 562949953421312,
  mkRat (3440168720699211) 9007199254740992, mkRat (3873470804086991) 9007199254740992, mkRat (289999011228987) 281474976710656, mkRat (8603286140895363) 36028797018963968,
  mkRat (-4666488445565489) 18014398509481984, mkRat (-3537124428693445) 18014398509481984, mkRat (-2579707241731493) 36028797018963968, mkRat (-2682144807609905) 72057594037927936,
  mkRat (6553904283174533) 9007199254740992, mkRat (3743095551442945) 72057594037927936, mkRat (1649758789372387) 2251799813685248, mkRat (-2908121280797057) 36028797018963968,
  mkRat (2833131310446029) 36028797018963968, mkRat (-4499547929135135) 2251799813685248, mkRat (8253545948678737) 9007199254740992, mkRat (1560445370942371) 4503599627370496,
  mkRat (8989275917751835) 9007199254740992, mkRat (-6521787321001447) 2251799813685248, mkRat (4702601771130227) 2251799813685248, mkRat (-5029246378755413) 36028797018963968,
  mkRat (2495405860258733) 2251799813685248, mkRat (-4683319945902911) 4503599627370496, mkRat (5519376661004305) 9007199254740992, mkRat (-4744161937775159) 4503599627370496,
  mkRat (-5618411317909819) 9007199254740992, mkRat (538751930753119) 281474976710656, mkRat (-3435028756095677) 18014398509481984, mkRat (3916922426521185) 18014398509481984,
  mkRat (7836873415433933) 9007199254740992, mkRat (8929411063870905) 18014398509481984, mkRat (2709706100616355) 18014398509481984, mkRat (3287276469423311) 9007199254740992,
  mkRat (5412010767047769) 2251799813685248, mkRat (-8303743771199725) 144115188075855872, mkRat (7245356734800717) 36028797018963968, mkRat (4731726746355055) 4503599627370496,
  mkRat (1244711544929499) 1125899906842624, mkRat (2672954620899607) 2251799813685248, mkRat (1438292594960455) 2251799813685248, mkRat (-1286909124763913) 1125899906842624,
  mkRat (3678160820103217) 2251799813685248, mkRat (-322667542802303) 281474976710656, mkRat (5451795873918427) 18014398509481984, mkRat (-6793912874163489) 9007199254740992,
  mkRat (-4621654941061775) 72057594037927936, mkRat (2961228537072361) 9007199254740992, mkRat (723632117877335) 2251799813685248, mkRat (1900162151553907) 4503599627370496,
  mkRat (7267509470016093) 4503599627370496, mkRat (8170147645192391) 18014398509481984, mkRat (-2199167463429999) 9007199254740992, mkRat (8683725223712245) 9007199254740992,
  mkRat (5356898850689213) 4503599627370496, mkRat (-1382163524702017) 1125899906842624, mkRat (2690450731966929) 4503599627370496, mkRat (6315602601987421) 9007199254740992,
  mkRat (-1340106882851119) 4503599627370496, mkRat (3097816345900631) 2251799813685248, mkRat (-5406322286756387) 36028797018963968, mkRat (4524368552487569) 36028797018963968,
  mkRat (-6235569626825337) 36028797018963968, mkRat (8980709488983605) 576460752303423488, mkRat (-4937184072836789) 4503599627370496, mkRat (-3242706309123109) 2251799813685248,
  mkRat (3590506204290177) 2251799813685248, mkRat (-1907187406341817) 2251799813685248, mkRat (-8929668431178771) 9007199254740992, mkRat (-1212250864151125) 562949953421312,
  mkRat (-2877627888798443) 4503599627370496, mkRat (-1489666675141929) 1125899906842624, mkRat (7394978863326857) 4503599627370496, mkRat (2273905933637923) 2251799813685248,
  mkRat (-3099153638117275) 4503599627370496, mkRat (634004315851537) 281474976710656, mkRat (8842957362761115) 9007199254740992, mkRat (-5851641990910699) 18014398509481984,
  mkRat (-1407040330769039) 562949953421312, mkRat (5158744058123435) 2251799813685248, mkRat (-97782469430013) 70368744177664, mkRat (-7410217183670939) 4503599627370496,
  mkRat (4605247816558703) 4503599627370496, mkRat (2746917007016455) 1125899906842624, mkRat (1558552637405769) 1125899906842624, mkRat (2539620902938631) 4503599627370496,
  mkRat (5357070863001533) 9007199254740992, mkRat (7686883985030355) 9007199254740992, mkRat (6835821028328983) 9007199254740992, mkRat (316593398052065) 1125899906842624,
  mkRat (3754240423434107) 36028797018963968, mkRat (-4510310199747887) 72057594037927936, mkRat (-6791109282941025) 9007199254740992, mkRat (-1264048171589389) 4503599627370496,
  mkRat (-953049959695585) 562949953421312, mkRat (-1771529226354357) 18014398509481984, mkRat (-2226109270893329) 2251799813685248, mkRat (-2485062218891503) 2251799813685248,
  mkRat (3240684928403749) 18014398509481984, mkRat (195906905565013) 140737488355328, mkRat (8271460649200311) 9007199254740992, mkRat (-7072905933262479) 4503599627370496,
  mkRat (-8913777814187061) 9007199254740992, mkRat (1059214192916157) 1125899906842624, mkRat (-4424729859435341) 4503599627370496, mkRat (-4046631082486643) 18014398509481984,
  mkRat (2477214428201331) 4503599627370496, mkRat (-2180517863045077) 2251799813685248, mkRat (7593105443406759) 72057594037927936, mkRat (-6007916721816367) 4503599627370496,
  mkRat (-2708319097211359) 4503599627370496, mkRat (720084899722073) 2251799813685248, mkRat (-7174205984736761) 4503599627370496, mkRat (7934887462978279) 18014398509481984,
  mkRat (-353763135714313) 18014398509481984, mkRat (2488193552839009) 4503599627370496, mkRat (2016839221473193) 9007199254740992, mkRat (6143542332111233) 4503599627370496,
  mkRat (4511688187702167) 36028797018963968, mkRat (-3867741270005031) 9007199254740992, mkRat (8812463825352565) 72057594037927936, mkRat (4893593602238803) 9007199254740992,
  mkRat (880184778048553) 18014398509481984, mkRat (2924939606082287) 72057594037927936, mkRat (-3161489503623689) 4503599627370496, mkRat (-1492720162633005) 2251799813685248,
  mkRat (-6316772579424993) 4503599627370496, mkRat (3939696584336393) 2251799813685248, mkRat (-5601862003408051) 4503599627370496, mkRat (-390070948824591) 562949953421312,
  mkRat (-6470837387035389) 9007199254740992, mkRat (4030381090531759) 4503599627370496, mkRat (-2594404807127) 8796093022208, mkRat (2809665366773959) 2251799813685248,
  mkRat (-3033132124382209) 4503599627370496, mkRat (5025912020118633) 18014398509481984, mkRat (-3762068677785685) 4503599627370496, mkRat (1207611601561797) 562949953421312,
  mkRat (-41784904667243) 35184372088832, mkRat (2790616870260207) 9007199254740992, mkRat (1427138662400917) 2251799813685248, mkRat (1863585461088815) 4503599627370496,
  mkRat (-6675691451823989) 36028797018963968, mkRat (-4677283639555481) 36028797018963968, mkRat (6313898524149469) 144115188075855872, mkRat (-5296305278054227) 36028797018963968,
  mkRat (2170462815613879) 2251799813685248, mkRat (622206910391295) 281474976710656, mkRat (-78459993600731) 140737488355328, mkRat (-3084522094201665) 2251799813685248,
  mkRat (-6361392000931445) 72057594037927936, mkRat (5808989005892089) 2251799813685248, mkRat (-452428560604453) 562949953421312, mkRat (1845481458553655) 1125899906842624,
  mkRat (1888923190278459) 1125899906842624, mkRat (-4986279598145625) 9007199254740992, mkRat (5124943966797847) 9007199254740992, mkRat (3666823212566529) 2251799813685248,
  mkRat (-6829758212148259) 18014398509481984, mkRat (-7334755471175583) 36028797018963968, mkRat (-5239315894615283) 9007199254740992, mkRat (-2285029017110049) 2251799813685248,
  mkRat (-731021527504825) 1125899906842624, mkRat (-1378034232328561) 1125899906842624, mkRat (4911945438455829) 144115188075855872, mkRat (-866912789120239) 1125899906842624,
  mkRat (1052878145225283) 4503599627370496, mkRat (-7007131052470033) 4503599627370496, mkRat (372538022626323) 1125899906842624, mkRat (7507761441808939) 9007199254740992,
  mkRat (-8978987096960083) 4503599627370496, mkRat (6738404114324047) 18014398509481984, mkRat (5528929617037031) 4503599627370496, mkRat (-1361934710257445) 1125899906842624,
  mkRat (3766298189056231) 2251799813685248, mkRat (3774187708884151) 9007199254740992, mkRat (-396886391360669) 562949953421312, mkRat (-8037171115457313) 144115188075855872,
  mkRat (5028961750367497) 9007199254740992, mkRat (2738382819544681) 36028797018963968, mkRat (1213170643412545) 2251799813685248, mkRat (-8292690501444179) 9007199254740992,
  mkRat (762733344020041) 4503599627370496, mkRat (-6366804081469537) 4503599627370496, mkRat (-8014682375102315) 72057594037927936, mkRat (-4070838117278171) 4503599627370496,
  mkRat (-3312532375367115) 4503599627370496, mkRat (5566868763272939) 4503599627370496, mkRat (4914823852454001) 4503599627370496, mkRat (5486628428669453) 9007199254740992,
  mkRat (-4919339359951463) 4503599627370496, mkRat (-5699907904569545) 18014398509481984, mkRat (341456646849391) 281474976710656, mkRat (2552944957843087) 18014398509481984,
  mkRat (5222665826005471) 2251799813685248, mkRat (7085384299738647) 18014398509481984, mkRat (3459649317845357) 18014398509481984, mkRat (-2784273585992941) 9007199254740992]

/-- Gaussian draws 1281 to 3328 of the same seed-42 stream, consumed
row-major by `w2 = np.random.randn(32, 64) * 0.5 + 0.2`. -/
def gaussDraws2 : List ℚ := [
  mkRat (1202829538032411) 9007199254740992, mkRat (-343331549154329) 2251799813685248, mkRat (3189037972472551) 4503599627370496, mkRat (4308604197420579) 4503599627370496,
  mkRat (-7079563682921477) 9007199254740992, mkRat (-2997670116793067) 2251799813685248, mkRat (-8269533834083709) 4503599627370496, mkRat (4575579101181551) 9007199254740992,
  mkRat (-2484560718208853) 2251799813685248, mkRat (-1211969659023781) 562949953421312, mkRat (7000009834279189) 18014398509481984, mkRat (5613735848872571) 2251799813685248,
  mkRat (-6999284466908881) 1152921504606846976, mkRat (3776226739374013) 4503599627370496, mkRat (737053337325561) 9007199254740992, mkRat (-7125750484198843) 72057594037927936,
  mkRat (8278305012617401) 9007199254740992, mkRat (-5229121316172603) 18014398509481984, mkRat (4816911704063827) 18014398509481984, mkRat (1448798120110273) 4503599627370496,
  mkRat (-752202979519155) 1125899906842624, mkRat (8935523111416871) 9007199254740992, mkRat (-787948695058275) 4503599627370496, mkRat (-6807147237358063) 9007199254740992,
  mkRat (4832451063168545) 9007199254740992, mkRat (-4046340067998437) 4503599627370496, mkRat (4061332794447209) 144115188075855872, mkRat (-5256743665769969) 576460752303423488,
  mkRat (4890438865642369) 4503599627370496, mkRat (8551403138846353) 18014398509481984, mkRat (-7213529733046203) 288230376151711744, mkRat (7365784000709125) 9007199254740992,
  mkRat (6260938199722023) 4503599627370496, mkRat (2512154287829669) 4503599627370496, mkRat (5967879023226535) 576460752303423488, mkRat (-2953992583591647) 2251799813685248,
  mkRat (-149901421754171) 140737488355328, mkRat (-1374609864795951) 4503599627370496, mkRat (-1372499463261159) 2251799813685248, mkRat (-3368175561816923) 18014398509481984,
  mkRat (8164114581029709) 144115188075855872, mkRat (4771048182283649) 9007199254740992, mkRat (-634996541193997) 9007199254740992, mkRat (8764034487403267) 18014398509481984,
  mkRat (4645871208220613) 72057594037927936, mkRat (-1112088811514271) 562949953421312, mkRat (-1057597632394515) 1125899906842624, mkRat (-648912662256593) 4503599627370496,
  mkRat (-1361995198272815) 1125899906842624, mkRat (5403677609719523) 9007199254740992, mkRat (861736109767519) 562949953421312, mkRat (5488815421157411) 4503599627370496,
  mkRat (-7690089871889389) 36028797018963968, mkRat (6713633674428903) 4503599627370496, mkRat (2678154819430195) 18014398509481984, mkRat (-6072401015676095) 18014398509481984,
  mkRat (-1381260003475523) 2251799813685248, mkRat (-2724404734717611) 9007199254740992, mkRat (-3496385950672285) 9007199254740992, mkRat (383743217794067) 2251799813685248,
  mkRat (2892643684886269) 18014398509481984, mkRat (3511822138337389) 1152921504606846976, mkRat (7871178313814431) 18014398509481984, mkRat (1340548529864459) 1125899906842624,
  mkRat (4276411650541659) 4503599627370496, mkRat (-417961621087137) 281474976710656, mkRat (-5750919135739039) 2251799813685248, mkRat (1051950701025507) 1125899906842624,
  mkRat (-6155874396844359) 4503599627370496, mkRat (-8098027041677355) 36028797018963968, mkRat (-5269720588142295) 4503599627370496, mkRat (-2028849606803575) 1125899906842624,
  mkRat (4877062681956191) 9007199254740992, mkRat (6837861794110779) 9007199254740992, mkRat (-2596372025888069) 4503599627370496, mkRat (-2917254275351253) 1125899906842624,
  mkRat (-4920132587206167) 9007199254740992, mkRat (7058113490932705) 18014398509481984, mkRat (-3330212795022541) 2251799813685248, mkRat (6606237331136715) 36028797018963968,
  mkRat (-8825527171916965) 576460752303423488, mkRat (5217793963484715) 9007199254740992, mkRat (2154168410523229) 18014398509481984, mkRat (-8764625839119953) 9007199254740992,
  mkRat (2694439484509179) 2251799813685248, mkRat (-356976863005733) 2251799813685248, mkRat (-7869997693596935) 288230376151711744, mkRat (-4203065232718869) 4503599627370496,
  mkRat (-3992731562572081) 9007199254740992, mkRat (-7969594346375909) 9007199254740992, mkRat (-3115519244105293) 18014398509481984, mkRat (963606209166997) 562949953421312,
  mkRat (-3089246738047407) 2251799813685248, mkRat (-1816708627554277) 1125899906842624, mkRat (3312781069349373) 2251799813685248, mkRat (-3770840137683865) 18014398509481984,
  mkRat (-6026471473025115) 9007199254740992, mkRat (2341657181328901) 2251799813685248, mkRat (-2727449919088723) 4503599627370496, mkRat (1027952083188111) 562949953421312,
  mkRat (3053106701548351) 4503599627370496, mkRat (-4394715271829601) 9007199254740992, mkRat (1214456558173229) 562949953421312, mkRat (-5455795003061167) 9007199254740992,
  mkRat (6684200881708969) 9007199254740992, mkRat (5391575814373725) 18014398509481984, mkRat (183203799558413) 140737488355328, mkRat (7032421243713911) 4503599627370496,
  mkRat (1153070990455171) 36028797018963968, mkRat (-6786184880290689) 9007199254740992, mkRat (8286121486165653) 18014398509481984, mkRat (-3052158686678843) 4503599627370496,
  mkRat (35419883037943) 17592186044416, mkRat (4919203729496989) 36028797018963968, mkRat (-6581048009438497) 18014398509481984, mkRat (3326904626703483) 18014398509481984,
  mkRat (-1516729363886735) 1125899906842624, mkRat (-4375760621784513) 4503599627370496, mkRat (5406183628508875) 4503599627370496, mkRat (-5916777659994777) 9007199254740992,
  mkRat (-4714867911496463) 4503599627370496, mkRat (2416869136309237) 4503599627370496, mkRat (2669968394555961) 2251799813685248, mkRat (3237877862007979) 4503599627370496,
  mkRat (8971599973276639) 9007199254740992, mkRat (-3408302078877245) 4503599627370496, mkRat (-1600816497232491) 1125899906842624, mkRat (1690351418876379) 1125899906842624,
  mkRat (-5812883207877657) 18014398509481984, mkRat (-4518605917756675) 18014398509481984, mkRat (5981654642307093) 4503599627370496, mkRat (5010074526138199) 9007199254740992,
  mkRat (8212544001877975) 18014398509481984, mkRat (2437575938438193) 1125899906842624, mkRat (-2898148462546133) 4503599627370496, mkRat (4178620455086053) 4503599627370496,
  mkRat (4108228608667797) 72057594037927936, mkRat (4838528348012625) 18014398509481984, mkRat (3441804917819523) 2251799813685248, mkRat (4574177845582727) 9007199254740992,
  mkRat (1212135010511463) 2251799813685248, mkRat (1207535911165137) 1125899906842624, mkRat (-6574403907108735) 18014398509481984, mkRat (-3779464345113667) 4503599627370496,
  mkRat (-4705402296866395) 4503599627370496, mkRat (-8855682803191281) 4503599627370496, mkRat (578770854012237) 281474976710656, mkRat (-2484204392388093) 2251799813685248,
  mkRat (-3985750946941019) 18014398509481984, mkRat (-2493312548461881) 9007199254740992, mkRat (5537746758817043) 18014398509481984, mkRat (114804806450757) 140737488355328,
  mkRat (968807020384785) 1125899906842624, mkRat (-5251894670134429) 9007199254740992, mkRat (-1505298575868003) 9007199254740992, mkRat (2545253919442959) 9007199254740992,
  mkRat (-8960042105684573) 36028797018963968, mkRat (3619420468609627) 2251799813685248, mkRat (552788652311569) 1125899906842624, mkRat (3309595323416813) 4503599627370496,
  mkRat (5970703669122883) 9007199254740992, mkRat (660607053412491) 562949953421312, mkRat (815248624324041) 4503599627370496, mkRat (-5840411877576105) 4503599627370496,
  mkRat (3600069021155347) 9007199254740992, mkRat (-2933450664166085) 4503599627370496, mkRat (-2380677890950033) 4503599627370496, mkRat (5281497552737809) 9007199254740992,
  mkRat (5576731179087715) 4503599627370496, mkRat (3065557281987525) 144115188075855872, mkRat (1390860240460401) 4503599627370496, mkRat (7666094590363747) 4503599627370496,
  mkRat (4337023717731913) 18014398509481984, mkRat (5858469551779469) 2251799813685248, mkRat (5093658058681287) 9007199254740992, mkRat (-7929770506021987) 4503599627370496,
  mkRat (1696374522044529) 2251799813685248, mkRat (858292380063609) 2251799813685248, mkRat (1452132505671781) 1125899906842624, mkRat (6063478565464303) 9007199254740992,
  mkRat (-4988402543012313) 36028797018963968, mkRat (-5513749080743143) 4503599627370496, mkRat (-3765428254500443) 18014398509481984, mkRat (-3830403600647989) 4503599627370496,
  mkRat (-81701412256887) 140737488355328, mkRat (5301442965653957) 9007199254740992, mkRat (3760290651770653) 2251799813685248, mkRat (7109770218578085) 18014398509481984,
  mkRat (-673222314070043) 562949953421312, mkRat (1001156205462077) 2251799813685248, mkRat (5389149117357157) 4503599627370496, mkRat (-5492436121339337) 9007199254740992,
  mkRat (-2414238647557607) 18014398509481984, mkRat (1058395972946517) 72057594037927936, mkRat (-3534867750320907) 4503599627370496, mkRat (2919595520290787) 4503599627370496,
  mkRat (-8715232592018503) 72057594037927936, mkRat (7557624632198095) 18014398509481984, mkRat (-499613680155471) 562949953421312, mkRat (-7880548153306567) 18014398509481984,
  mkRat (3177066810481) 4398046511104, mkRat (-6716364979327397) 18014398509481984, mkRat (972194219612135) 562949953421312, mkRat (-3599602753235379) 9007199254740992,
  mkRat (2023780094344071) 9007199254740992, mkRat (8400031445825577) 9007199254740992, mkRat (-3193875693156141) 2251799813685248, mkRat (-1982494477376827) 1125899906842624,
  mkRat (-6870945209793323) 4503599627370496, mkRat (5686173297718569) 4503599627370496, mkRat (-621337035050649) 1125899906842624, mkRat (5760552674837505) 2251799813685248,
  mkRat (-5082290550116225) 9007199254740992, mkRat (6649161442471321) 36028797018963968, mkRat (3472522903874509) 2251799813685248, mkRat (2258659795896007) 1125899906842624,
  mkRat (4642093369781313) 2251799813685248, mkRat (5441997705826367) 4503599627370496, mkRat (4611967609648591) 4503599627370496, mkRat (2668504147629425) 4503599627370496,
  mkRat (438178331572971) 562949953421312, mkRat (-2482319786669123) 4503599627370496, mkRat (-7369680372991317) 9007199254740992, mkRat (-7780969030933129) 2305843009213693952,
  mkRat (-3065773610349825) 18014398509481984, mkRat (-8164630696256693) 18014398509481984, mkRat (1568125124435777) 2251799813685248, mkRat (2151156090671623) 2251799813685248,
  mkRat (6370387522575193) 72057594037927936, mkRat (831775490308647) 562949953421312, mkRat (-5141710668984605) 4503599627370496, mkRat (-3488658674595641) 18014398509481984,
  mkRat (-6456561471915293) 9007199254740992, mkRat (-8406133613123619) 4503599627370496, mkRat (-2978885647615339) 36028797018963968, mkRat (-8772832534211873) 72057594037927936,
  mkRat (3407985849854617) 2251799813685248, mkRat (2840923267501851) 4503599627370496, mkRat (-4612527400406779) 4503599627370496, mkRat (8350090590853057) 4503599627370496,
  mkRat (5499046896174799) 4503599627370496, mkRat (5243070000868959) 9007199254740992, mkRat (-8159949625483565) 36028797018963968, mkRat (-8641860377984993) 9007199254740992,
  mkRat (-26191723406537) 70368744177664, mkRat (2451643938999957) 2251799813685248, mkRat (8487422185154645) 4503599627370496, mkRat (434384436179285) 281474976710656,
  mkRat (-4403164147593893) 9007199254740992, mkRat (-2521154327678951) 2251799813685248, mkRat (2537980996363703) 18014398509481984, mkRat (-7964342867776175) 4503599627370496,
  mkRat (5821671988723027) 18014398509481984, mkRat (-2658971810614423) 18014398509481984, mkRat (-8395367264619461) 18014398509481984, mkRat (-7181904139509327) 4503599627370496,
  mkRat (4626098497129645) 9007199254740992, mkRat (-4798142606002669) 9007199254740992, mkRat (-5268837025359323) 4503599627370496, mkRat (-1616939879180699) 562949953421312,
  mkRat (-7930631432523521) 288230376151711744, mkRat (3990755815184313) 2251799813685248, mkRat (3740823189801795) 2251799813685248, mkRat (-4117157061668765) 9007199254740992,
  mkRat (-5424244021286667) 9007199254740992, mkRat (4222343129960717) 9007199254740992, mkRat (-8992656583801037) 9007199254740992, mkRat (1359149887570381) 4503599627370496,
  mkRat (3450118856269177) 4503599627370496, mkRat (5525616009893849) 4503599627370496, mkRat (-902107723029503) 9007199254740992, mkRat (-917265025402135) 4503599627370496,
  mkRat (-7908164101109265) 9007199254740992, mkRat (-7447876108667795) 9007199254740992, mkRat (-4079881012699995) 18014398509481984, mkRat (1654467159606113) 4503599627370496,
  mkRat (1028604845568869) 1125899906842624, mkRat (-3617196422995827) 4503599627370496, mkRat (6722471682946301) 4503599627370496, mkRat (-4884128594506639) 18014398509481984,
  mkRat (-3079351643697049) 144115188075855872, mkRat (-841285559944255) 1125899906842624, mkRat (-5458903766410887) 2251799813685248, mkRat (1990693258815113) 2251799813685248,
  mkRat (3318449900375707) 4503599627370496, mkRat (-5067946725626551) 18014398509481984, mkRat (4827189906099447) 72057594037927936, mkRat (4647167337196015) 9007199254740992,
  mkRat (-3518540469411773) 2251799813685248, mkRat (-4765282881112273) 9007199254740992, mkRat (3577050115178407) 4503599627370496, mkRat (-2824408689399893) 2251799813685248,
  mkRat (1322067393917285) 4503599627370496, mkRat (-3054750654899781) 2251799813685248, mkRat (8402455580328225) 18014398509481984, mkRat (-1284119731151033) 36028797018963968,
  mkRat (-7273907044266285) 4503599627370496, mkRat (5245519722717069) 4503599627370496, mkRat (-6616612703074399) 9007199254740992, mkRat (-7298105146828005) 9007199254740992,
  mkRat (3613133447645095) 18014398509481984, mkRat (1293250684717749) 1125899906842624, mkRat (-571856845678241) 562949953421312, mkRat (8889003161330985) 144115188075855872,
  mkRat (3862435662198177) 9007199254740992, mkRat (3121470154598697) 4503599627370496, mkRat (6356976980793457) 36028797018963968, mkRat (-6611785757320995) 18014398509481984,
  mkRat (-7454270018658081) 9007199254740992, mkRat (6207320953406415) 72057594037927936, mkRat (-4828484854867751) 4503599627370496, mkRat (-3289148237221233) 1125899906842624,
  mkRat (3932181142658819) 9007199254740992, mkRat (8141921226965995) 9007199254740992, mkRat (-5320850818103941) 2251799813685248, mkRat (-4547422825476223) 4503599627370496,
  mkRat (5576845798295727) 9007199254740992, mkRat (4633067915355045) 2251799813685248, mkRat (5993378184871553) 288230376151711744, mkRat (-3278633774844155) 4503599627370496,
  mkRat (-205923086001787) 1125899906842624, mkRat (6191892928956247) 4503599627370496, mkRat (-5818328072799891) 9007199254740992, mkRat (-3599240823347561) 4503599627370496,
  mkRat (-1087041773307261) 2251799813685248, mkRat (-8586820729831141) 9007199254740992, mkRat (4419663915228657) 36028797018963968, mkRat (7316901300160385) 4503599627370496,
  mkRat (5820078776065917) 18014398509481984, mkRat (-2272998276283177) 9007199254740992, mkRat (-328550280487639) 1125899906842624, mkRat (-7039985543555249) 4503599627370496,
  mkRat (3977172863287187) 4503599627370496, mkRat (-2804380571699353) 36028797018963968, mkRat (-812809271594601) 4503599627370496, mkRat (7190239026350013) 2251799813685248,
  mkRat (2690926973583113) 9007199254740992, mkRat (-1692882946534573) 2251799813685248, mkRat (-7680575645591461) 18014398509481984, mkRat (2586069833996875) 2251799813685248,
  mkRat (4080996629519833) 36028797018963968, mkRat (-6477428167205283) 4503599627370496, mkRat (8279678174442129) 9007199254740992, mkRat (-1504526727331607) 2251799813685248,
  mkRat (8436583166927317) 4503599627370496, mkRat (1216026016573679) 1125899906842624, mkRat (-8058234890413663) 18014398509481984, mkRat (5769184809365763) 4503599627370496,
  mkRat (1222376207704993) 18014398509481984, mkRat (960137801377949) 1125899906842624, mkRat (8732170141366589) 18014398509481984, mkRat (-7623303032078875) 9007199254740992,
  mkRat (-2898290785019267) 4503599627370496, mkRat (4638531154264729) 4503599627370496, mkRat (-3015388121855703) 9007199254740992, mkRat (-7271484274581319) 18014398509481984,
  mkRat (-4301489692450893) 4503599627370496, mkRat (3815441187922403) 9007199254740992, mkRat (4644393228872895) 2251799813685248, mkRat (-4807740834841283) 4503599627370496,
  mkRat (6980783106979143) 288230376151711744, mkRat (3180037983566941) 2251799813685248, mkRat (-2869383519499765) 36028797018963968, mkRat (4074602906046447) 9007199254740992,
  mkRat (-2392297548741557) 2251799813685248, mkRat (1928923683384505) 4503599627370496, mkRat (-3371291368556045) 18014398509481984, mkRat (8878666482463503) 9007199254740992,
  mkRat (2673755689685969) 2251799813685248, mkRat (5831178926623607) 2251799813685248, mkRat (5220871485792475) 9007199254740992, mkRat (1467256169958125) 4503599627370496,
  mkRat (7003432545202917) 36028797018963968, mkRat (-3181039169404071) 9007199254740992, mkRat (3048791422570011) 9007199254740992, mkRat (-332592420156713) 1125899906842624,
  mkRat (6069446319634439) 36028797018963968, mkRat (5933931770388291) 4503599627370496, mkRat (-4533064721925935) 4503599627370496, mkRat (2566778331574193) 2251799813685248,
  mkRat (5931758926475883) 4503599627370496, mkRat (-8507733986579289) 72057594037927936, mkRat (-1194498116563671) 562949953421312, mkRat (-5474773749172161) 9007199254740992,
  mkRat (5841144156594177) 4503599627370496, mkRat (-1647817549566893) 72057594037927936, mkRat (-4500457160993865) 4503599627370496, mkRat (-4546608294298743) 9007199254740992,
  mkRat (7571632076252163) 9007199254740992, mkRat (4924538188045347) 9007199254740992, mkRat (-4304218051149943) 18014398509481984, mkRat (-6608121137436113) 18014398509481984,
  mkRat (-3528643708106223) 9007199254740992, mkRat (-8308332326380413) 9007199254740992, mkRat (454687834572371) 281474976710656, mkRat (-5806409380136295) 18014398509481984,
  mkRat (2740797330420265) 2251799813685248, mkRat (3425699202275353) 2251799813685248, mkRat (8991985177798119) 9007199254740992, mkRat (-7775380318090159) 18014398509481984,
  mkRat (1818238684398211) 4503599627370496, mkRat (-6973908731272527) 288230376151711744, mkRat (-4069911363238229) 4503599627370496, mkRat (1460784340295573) 4503599627370496,
  mkRat (-2654961582061137) 2251799813685248, mkRat (5348832451311117) 4503599627370496, mkRat (-1046225143491465) 2251799813685248, mkRat (3623770204923585) 18014398509481984,
  mkRat (5103260610935147) 18014398509481984, mkRat (-4664017372392203) 18014398509481984, mkRat (2642233985704627) 4503599627370496, mkRat (-2138775931002087) 4503599627370496,
  mkRat (3923974184157365) 4503599627370496, mkRat (-1515438396601879) 1125899906842624, mkRat (2276652109409841) 18014398509481984, mkRat (2183039979414185) 1125899906842624,
  mkRat (-4505091780740701) 4503599627370496, mkRat (-3052291996707949) 4503599627370496, mkRat (4628870400453325) 9007199254740992, mkRat (808764446225703) 4503599627370496,
  mkRat (6316390337733125) 18014398509481984, mkRat (8812411908189839) 18014398509481984, mkRat (2858531369298841) 4503599627370496, mkRat (4997643794727145) 4503599627370496,
  mkRat (7382636602530905) 18014398509481984, mkRat (-8692223067522781) 36028797018963968, mkRat (378625333764477) 562949953421312, mkRat (4278153787021015) 2251799813685248,
  mkRat (-4778634326282489) 36028797018963968, mkRat (-8777779626752659) 9007199254740992, mkRat (2492924044834945) 2251799813685248, mkRat (-4337188520990813) 36028797018963968,
  mkRat (-4892416878914019) 2251799813685248, mkRat (7632895898880639) 9007199254740992, mkRat (-1205451909391505) 2251799813685248, mkRat (-3261805251597171) 36028797018963968,
  mkRat (373776623261237) 1125899906842624, mkRat (3431737147468809) 18014398509481984, mkRat (6390173878609399) 9007199254740992, mkRat (-7845025024893105) 18014398509481984,
  mkRat (2310823081467447) 4503599627370496, mkRat (-4675577281808719) 18014398509481984, mkRat (6654613212844751) 9007199254740992, mkRat (2771368771697107) 4503599627370496,
  mkRat (-1053210347488995) 1125899906842624, mkRat (2445414326868449) 2251799813685248, mkRat (-1206882385849917) 2251799813685248, mkRat (7278337598465577) 9007199254740992,
  mkRat (6616460031088753) 18014398509481984, mkRat (4139221660926521) 2251799813685248, mkRat (-8051210519518841) 36028797018963968, mkRat (-6292731971328679) 18014398509481984,
  mkRat (-2798660154869583) 144115188075855872, mkRat (-5461601427994843) 18014398509481984, mkRat (7205236103008525) 9007199254740992, mkRat (-7279215853869997) 4503599627370496,
  mkRat (-4745363750234363) 4503599627370496, mkRat (-4808956839729181) 4503599627370496, mkRat (4279804917099549) 4503599627370496, mkRat (3851958873667473) 2251799813685248,
  mkRat (-3763179693475969) 36028797018963968, mkRat (-6082443597204615) 36028797018963968, mkRat (2523895165544167) 36028797018963968, mkRat (5232634690676111) 4503599627370496,
  mkRat (-4176427229581531) 4503599627370496, mkRat (2147036923642125) 9007199254740992, mkRat (8783799364201483) 9007199254740992, mkRat (2256727517018615) 4503599627370496,
  mkRat (853799697870397) 4503599627370496, mkRat (1127077702366517) 1125899906842624, mkRat (-1521784493430907) 562949953421312, mkRat (6105758072886103) 9007199254740992,
  mkRat (-5891390005609537) 9007199254740992, mkRat (-8244437632134911) 4503599627370496, mkRat (575562959182883) 1125899906842624, mkRat (3093204056065097) 2251799813685248,
  mkRat (-2476052317039605) 18014398509481984, mkRat (8582730911427971) 9007199254740992, mkRat (453815985118451) 281474976710656, mkRat (5921848243185195) 4503599627370496,
  mkRat (1846435910844459) 1125899906842624, mkRat (3342245092252775) 4503599627370496, mkRat (2717783264387311) 36028797018963968, mkRat (-3607306316760181) 2251799813685248,
  mkRat (-2216333859703787) 9007199254740992, mkRat (-7595290104894881) 9007199254740992, mkRat (4888528406782923) 2251799813685248, mkRat (-6336954234640225) 36028797018963968,
  mkRat (4438920975398909) 36028797018963968, mkRat (4967338668072255) 9007199254740992, mkRat (1570943689883397) 36028797018963968, mkRat (7633831234057911) 4503599627370496,
  mkRat (-2804163433489755) 4503599627370496, mkRat (3505736251559867) 18014398509481984, mkRat (-835947563270821) 1125899906842624, mkRat (-5944852889654237) 4503599627370496,
  mkRat (-5510326099675661) 9007199254740992, mkRat (-2668782486179601) 72057594037927936, mkRat (-1933405338365257) 4503599627370496, mkRat (-6236773733886823) 9007199254740992,
  mkRat (-1583372701339273) 1125899906842624, mkRat (-5988387614768023) 72057594037927936, mkRat (-6776658115782815) 4503599627370496, mkRat (6845975509706435) 9007199254740992,
  mkRat (1485102562385379) 18014398509481984, mkRat (-6564228389863569) 4503599627370496, mkRat (-348138471045335) 1125899906842624, mkRat (-1693705653971041) 2251799813685248,
  mkRat (2874868412379963) 9007199254740992, mkRat (6036852129218449) 4503599627370496, mkRat (-2111256508887997) 1125899906842624, mkRat (4144251257489577) 36028797018963968,
  mkRat (-1442347996887435) 9007199254740992, mkRat (6046893836282395) 9007199254740992, mkRat (960152255487903) 4503599627370496, mkRat (-6773137604425973) 9007199254740992,
  mkRat (-5747564743117087) 18014398509481984, mkRat (-3584981752077473) 4503599627370496, mkRat (4845905348440641) 4503599627370496, mkRat (3071332256563517) 144115188075855872,
  mkRat (4281100831958751) 2251799813685248, mkRat (-8742144591728549) 144115188075855872, mkRat (-1595190225742349) 2251799813685248, mkRat (-6817163574516485) 4503599627370496,
  mkRat (-8120619174083231) 4503599627370496, mkRat (-7134314042623733) 4503599627370496, mkRat (4812125943824181) 18014398509481984, mkRat (2291093825052377) 4503599627370496,
  mkRat (-7121049856473609) 4503599627370496, mkRat (8061788435511021) 9007199254740992, mkRat (-1087756786179369) 2251799813685248, mkRat (5288775632629703) 36028797018963968,
  mkRat (1815199055162539) 1125899906842624, mkRat (1009751302185805) 1125899906842624, mkRat (-4837418103385057) 18014398509481984, mkRat (-8027145948591543) 9007199254740992,
  mkRat (-605682189974797) 281474976710656, mkRat (-6477557241124837) 9007199254740992, mkRat (-1901692129822097) 9007199254740992, mkRat (-8891722701251709) 9007199254740992,
  mkRat (-591128828086685) 4503599627370496, mkRat (692220222911659) 9007199254740992, mkRat (-8101290527063117) 36028797018963968, mkRat (-1463675690393197) 2251799813685248,
  mkRat (23736034931989) 140737488355328, mkRat (3980647489441331) 9007199254740992, mkRat (-2455360439428367) 2251799813685248, mkRat (6354274539670269) 4503599627370496,
  mkRat (-7104023613096869) 72057594037927936, mkRat (2716516955855689) 144115188075855872, mkRat (6379028425353283) 9007199254740992, mkRat (4201248327420379) 18014398509481984,
  mkRat (8585091578649719) 9007199254740992, mkRat (5172369133648001) 18014398509481984, mkRat (-2758172732218441) 4503599627370496, mkRat (203508392676415) 562949953421312,
  mkRat (-5150884921103203) 4503599627370496, mkRat (7822551207721605) 72057594037927936, mkRat (-4788946351485399) 144115188075855872, mkRat (-1874550001724257) 9007199254740992,
  mkRat (-4631051908955995) 36028797018963968, mkRat (-8475094660070691) 4503599627370496, mkRat (-1206658833023) 2199023255552, mkRat (1672545048729499) 18014398509481984,
  mkRat (2879716749729137) 18014398509481984, mkRat (-4628237381732067) 4503599627370496, mkRat (5700241360478181) 4503599627370496, mkRat (-1950452361828261) 2251799813685248,
  mkRat (272877942940241) 281474976710656, mkRat (7695649475760387) 18014398509481984, mkRat (-5820698143618379) 9007199254740992, mkRat (7995289474422981) 4503599627370496,
  mkRat (-5375662390714183) 4503599627370496, mkRat (4139502393766039) 4503599627370496, mkRat (563277769336483) 562949953421312, mkRat (-1510102461852351) 2251799813685248,
  mkRat (6271106206496057) 4503599627370496, mkRat (-1126109389973135) 4503599627370496, mkRat (5200642084996001) 18014398509481984, mkRat (146548167010809) 562949953421312,
  mkRat (-4838982384314875) 36028797018963968, mkRat (1825777918435655) 2251799813685248, mkRat (1786777753100819) 2251799813685248, mkRat (-7874687943120869) 4503599627370496,
  mkRat (2937113115895195) 2251799813685248, mkRat (-3743599148911949) 2251799813685248, mkRat (1162543675278977) 1125899906842624, mkRat (634278604296641) 562949953421312,
  mkRat (-4913276008590887) 4503599627370496, mkRat (-7400572296602975) 18014398509481984, mkRat (-2489825566487539) 2251799813685248, mkRat (-1935836543844863) 9007199254740992,
  mkRat (-5549052349904967) 18014398509481984, mkRat (7022557765207363) 9007199254740992, mkRat (2950552990382285) 2251799813685248, mkRat (785700136275085) 562949953421312,
  mkRat (-5063559430035297) 9007199254740992, mkRat (-3769006210534449) 18014398509481984, mkRat (-7581531615187533) 4503599627370496, mkRat (-7258632262362545) 9007199254740992,
  mkRat (8690610910571049) 9007199254740992, mkRat (3637969101058995) 2251799813685248, mkRat (-5559013119443609) 4503599627370496, mkRat (-5336443633502623) 9007199254740992,
  mkRat (-3805470630421109) 144115188075855872, mkRat (2523467380927335) 9007199254740992, mkRat (-7292260221273935) 9007199254740992, mkRat (7639204647323271) 18014398509481984,
  mkRat (-2133982706902057) 4503599627370496, mkRat (-8331166942985631) 576460752303423488, mkRat (2460245535747833) 4503599627370496, mkRat (3702186486708779) 576460752303423488,
  mkRat (-3930614667930393) 9007199254740992, mkRat (-3949109376932199) 36028797018963968, mkRat (-795902780301005) 9007199254740992, mkRat (-6665526145200495) 18014398509481984,
  mkRat (-4662055405570055) 18014398509481984, mkRat (7199666801381941) 4503599627370496, mkRat (2526156616733027) 4503599627370496, mkRat (-5322900200685769) 18014398509481984,
  mkRat (3138803596448775) 4503599627370496, mkRat (-3006778659348351) 9007199254740992, mkRat (2641641840347173) 2251799813685248, mkRat (1664720439043749) 4503599627370496,
  mkRat (-966491791507001) 9007199254740992, mkRat (8065351120986521) 18014398509481984, mkRat (-1768649313275223) 1125899906842624, mkRat (-1268627388278849) 1125899906842624,
  mkRat (-5376960213927103) 4503599627370496, mkRat (2575033873252061) 18014398509481984, mkRat (7802553906094855) 4503599627370496, mkRat (1256110313368109) 562949953421312,
  mkRat (5747053405383857) 9007199254740992, mkRat (563900747682607) 1125899906842624, mkRat (-8111242940403025) 4503599627370496, mkRat (-4887971044531743) 9007199254740992,
  mkRat (-886965652885619) 1125899906842624, mkRat (-5592098024275187) 9007199254740992, mkRat (-3029009754892443) 18014398509481984, mkRat (-2126106949801905) 4503599627370496,
  mkRat (-8913973888462891) 4503599627370496, mkRat (6736576701514995) 9007199254740992, mkRat (-4831205090986091) 4503599627370496, mkRat (4309888352242131) 18014398509481984,
  mkRat (583802371163849) 281474976710656, mkRat (-517567513009849) 562949953421312, mkRat (-5697700972290293) 2251799813685248, mkRat (-5152194028342623) 18014398509481984,
  mkRat (2479140700964761) 2251799813685248, mkRat (4409806432544913) 2251799813685248, mkRat (-5537399095409449) 4503599627370496, mkRat (1118467218341607) 2251799813685248,
  mkRat (-4191143999532487) 9007199254740992, mkRat (-3817191751716981) 36028797018963968, mkRat (372158241008299) 140737488355328, mkRat (-1692194152727331) 1125899906842624,
  mkRat (4570967379824307) 18014398509481984, mkRat (8425211176346121) 18014398509481984, mkRat (611243361050103) 562949953421312, mkRat (7060430295361773) 72057594037927936,
  mkRat (2774672589843911) 9007199254740992, mkRat (-1763828342300967) 4503599627370496, mkRat (4848159969227307) 18014398509481984, mkRat (-3091201208093141) 9007199254740992,
  mkRat (5598621863079371) 9007199254740992, mkRat (-6658307886713575) 18014398509481984, mkRat (6793236773836617) 18014398509481984, mkRat (-8434431795678769) 288230376151711744,
  mkRat (2535639744888995) 2251799813685248, mkRat (-7406616140873245) 144115188075855872, mkRat (-3992514181566151) 2251799813685248, mkRat (2841594600193175) 2251799813685248,
  mkRat (-8158111305324625) 9007199254740992, mkRat (-5888603678252397) 9007199254740992, mkRat (-5365239963786597) 9007199254740992, mkRat (1547479721061977) 1125899906842624,
  mkRat (-4809110797129615) 2251799813685248, mkRat (3532790781743367) 1125899906842624, mkRat (2378028525895973) 2251799813685248, mkRat (8043029523893421) 36028797018963968,
  mkRat (-7911059223052261) 144115188075855872, mkRat (2572042450246141) 9007199254740992, mkRat (586731693565899) 1125899906842624, mkRat (2905792672458313) 4503599627370496,
  mkRat (1251110033029257) 2251799813685248, mkRat (1613742090882935) 18014398509481984, mkRat (-7109865889295649) 36028797018963968, mkRat (-5450194431144533) 36028797018963968,
  mkRat (-7022310870142067) 36028797018963968, mkRat (5106046585774323) 4503599627370496, mkRat (5346283666574685) 9007199254740992, mkRat (-6621166579699247) 2251799813685248,
  mkRat (5907828985542901) 9007199254740992, mkRat (3508055415884091) 18014398509481984, mkRat (-2696215953865887) 144115188075855872, mkRat (-6998926242230671) 18014398509481984,
  mkRat (5062553626851445) 4503599627370496, mkRat (4267279821740187) 4503599627370496, mkRat (-435091447101673) 562949953421312, mkRat (3666401057228729) 9007199254740992,
  mkRat (-8751905815224337) 9007199254740992, mkRat (-6213247852856995) 4503599627370496, mkRat (-5644966918260077) 9007199254740992, mkRat (7767749841739481) 9007199254740992,
  mkRat (4292493599193231) 4503599627370496, mkRat (2310731306759403) 4503599627370496, mkRat (6531082230913113) 9007199254740992, mkRat (4649320683015335) 9007199254740992,
  mkRat (-2888976273211119) 4503599627370496, mkRat (3890412422492951) 9007199254740992, mkRat (7209448079118371) 9007199254740992, mkRat (3397026151877209) 4503599627370496,
  mkRat (2677194908374501) 2251799813685248, mkRat (6379833884639599) 9007199254740992, mkRat (3165564033048603) 9007199254740992, mkRat (2409764107256155) 2251799813685248,
  mkRat (-3822116264686823) 144115188075855872, mkRat (-992902587664159) 1125899906842624, mkRat (-5875106544428585) 36028797018963968, mkRat (-3354743273577621) 4503599627370496,
  mkRat (-3040732627583279) 4503599627370496, mkRat (-1301708463164971) 9007199254740992, mkRat (-7137484121872767) 9007199254740992, mkRat (-5547741720507319) 18014398509481984,
  mkRat (-8528082308476375) 4503599627370496, mkRat (3842357844180951) 18014398509481984, mkRat (1389818468382051) 1152921504606846976, mkRat (-919960013601843) 1125899906842624,
  mkRat (2968978546697793) 4503599627370496, mkRat (4222440522448673) 4503599627370496, mkRat (-7239806006147877) 4503599627370496, mkRat (-6870014057074093) 9007199254740992,
  mkRat (-216494324993559) 281474976710656, mkRat (-8465894511836513) 9007199254740992, mkRat (7471245178074047) 9007199254740992, mkRat (-218228831587965) 1125899906842624,
  mkRat (-2382537881520865) 9007199254740992, mkRat (-564037112352751) 281474976710656, mkRat (5723336808149533) 9007199254740992, mkRat (-2790561822638929) 2251799813685248,
  mkRat (2159300570678157) 36028797018963968, mkRat (4996778697718725) 18014398509481984, mkRat (6127861545197411) 4503599627370496, mkRat (-5894403061767737) 4503599627370496,
  mkRat (-1699834227474419) 562949953421312, mkRat (1655969482489951) 9007199254740992, mkRat (2027195371532173) 1125899906842624, mkRat (5579718333430085) 4503599627370496,
  mkRat (3776888258022083) 18014398509481984, mkRat (-4428265084828681) 9007199254740992, mkRat (1817478512729049) 2251799813685248, mkRat (-8768924604434015) 9007199254740992,
  mkRat (8581298690270839) 18014398509481984, mkRat (1138217610234863) 2251799813685248, mkRat (4774760944346463) 4503599627370496, mkRat (6214201961454589) 2251799813685248,
  mkRat (110455275222533) 281474976710656, mkRat (-573042098770357) 1125899906842624, mkRat (-921411702864983) 36028797018963968, mkRat (-1991802396512189) 1125899906842624,
  mkRat (-3128709798302073) 4503599627370496, mkRat (-7372976943101853) 18014398509481984, mkRat (-2360284313647431) 4503599627370496, mkRat (343072672459575) 2251799813685248,
  mkRat (-3703850101018547) 4503599627370496, mkRat (1262168323908347) 1125899906842624, mkRat (1909836776312697) 9223372036854775808, mkRat (-5361270120229099) 576460752303423488,
  mkRat (-5906826092417325) 18014398509481984, mkRat (5591333647989367) 36028797018963968, mkRat (7431824474602405) 9007199254740992, mkRat (-7810414632714617) 9007199254740992,
  mkRat (-2963893174965705) 4503599627370496, mkRat (-2735720860042615) 9007199254740992, mkRat (-1515315947360689) 1125899906842624, mkRat (-7379218783524175) 9007199254740992,
  mkRat (-4289416297283557) 9007199254740992, mkRat (3937898788434633) 4503599627370496, mkRat (2364942206909943) 9007199254740992, mkRat (6974811621580481) 36028797018963968,
  mkRat (1916051872674997) 2251799813685248, mkRat (-4949340280373931) 36028797018963968, mkRat (7033989410564095) 18014398509481984, mkRat (-7437911168693111) 72057594037927936,
  mkRat (597542888937163) 2251799813685248, mkRat (-5249023346532903) 9007199254740992, mkRat (-5491728022619249) 2251799813685248, mkRat (-2418958339143447) 18014398509481984,
  mkRat (3203743987790879) 2251799813685248, mkRat (8342606680800099) 9007199254740992, mkRat (8695527503738421) 9007199254740992, mkRat (5567037858107705) 4503599627370496,
  mkRat (798556587234991) 9007199254740992, mkRat (7109047570769489) 36028797018963968, mkRat (-695414211530705) 1125899906842624, mkRat (-5693862386501399) 18014398509481984,
  mkRat (2773186720654815) 4503599627370496, mkRat (1355453375657655) 1125899906842624, mkRat (-628010195195153) 4503599627370496, mkRat (-8109888821724059) 18014398509481984,
  mkRat (4869560954549291) 9223372036854775808, mkRat (2707594490449789) 4503599627370496, mkRat (-6502544011916115) 4503599627370496, mkRat (-161579370076939) 70368744177664,
  mkRat (-4958795100448045) 9007199254740992, mkRat (-5497600026473539) 4503599627370496, mkRat (-4576920009552799) 9007199254740992, mkRat (-5324347110072463) 36028797018963968,
  mkRat (-8164997463929253) 18014398509481984, mkRat (408833265438137) 281474976710656, mkRat (1471527600108269) 4503599627370496, mkRat (1353216213977715) 4503599627370496,
  mkRat (5604343724122251) 9007199254740992, mkRat (-1282212101218663) 1125899906842624, mkRat (1169935864655553) 1125899906842624, mkRat (-2729696100872709) 36028797018963968,
  mkRat (3019576257966665) 4503599627370496, mkRat (-4827215835314015) 4503599627370496, mkRat (-6997507399653589) 4503599627370496, mkRat (7366895118223403) 9007199254740992,
  mkRat (6780791205885923) 18014398509481984, mkRat (-8124958088146921) 9007199254740992, mkRat (-3916614328766591) 4503599627370496, mkRat (2534253837860075) 2251799813685248,
  mkRat (-2678317478753667) 2251799813685248, mkRat (7397941300175149) 4503599627370496, mkRat (-1014008801240571) 1125899906842624, mkRat (2875061638286247) 4503599627370496,
  mkRat (-2959932089860375) 9007199254740992, mkRat (2716514689857007) 4503599627370496, mkRat (-2450471617168547) 4503599627370496, mkRat (-5865232569005955) 36028797018963968,
  mkRat (5897074658063285) 144115188075855872, mkRat (-2256725526206413) 2251799813685248, mkRat (6672752491962141) 9007199254740992, mkRat (-4622616853445829) 9007199254740992,
  mkRat (-8236179948337877) 36028797018963968, mkRat (-8956302945925963) 9007199254740992, mkRat (-180308201733585) 70368744177664, mkRat (-3441250241854163) 18014398509481984,
  mkRat (679090869610265) 281474976710656, mkRat (7067087157221667) 9007199254740992, mkRat (-5551426495669373) 288230376151711744, mkRat (-1183955040461475) 4503599627370496,
  mkRat (6475352735800165) 288230376151711744, mkRat (2464005443230351) 4503599627370496, mkRat (-1329477038754805) 1125899906842624, mkRat (627307346110199) 562949953421312,
  mkRat (1610895512824501) 2251799813685248, mkRat (3234420966681063) 4503599627370496, mkRat (7898876695657963) 18014398509481984, mkRat (176691144561815) 9007199254740992,
  mkRat (6060595223144443) 9007199254740992, mkRat (2665293912190263) 4503599627370496, mkRat (-6377830455471921) 18014398509481984, mkRat (-2583272730677539) 4503599627370496,
  mkRat (917439946774445) 9007199254740992, mkRat (6976166577063115) 4503599627370496, mkRat (-5580442164187053) 4503599627370496, mkRat (-6609146239999477) 4503599627370496,
  mkRat (2968067452792105) 18014398509481984, mkRat (7333690723728123) 144115188075855872, mkRat (48791340941647) 281474976710656, mkRat (8789340249572501) 36028797018963968,
  mkRat (-8041708726412503) 36028797018963968, mkRat (6709748426921263) 4503599627370496, mkRat (-1802457640230695) 1125899906842624, mkRat (-7462437784155761) 9007199254740992,
  mkRat (-1860072397325919) 18014398509481984, mkRat (-1850066129403319) 1125899906842624, mkRat (-3167911321086945) 18014398509481984, mkRat (7482596419259899) 4503599627370496,
  mkRat (6020120378033391) 288230376151711744, mkRat (8311876104229591) 36028797018963968, mkRat (-5675277566856661) 4503599627370496, mkRat (-2775845007572145) 4503599627370496,
  mkRat (-3379468557235283) 9007199254740992, mkRat (-5723446365445427) 18014398509481984, mkRat (5772010517600681) 4503599627370496, mkRat (5023234506539055) 9007199254740992,
  mkRat (-2502780820349795) 2251799813685248, mkRat (8881270626331391) 36028797018963968, mkRat (4487582561755997) 9007199254740992, mkRat (5134774785031205) 4503599627370496,
  mkRat (7118122447073235) 4503599627370496, mkRat (-571447228007743) 562949953421312, mkRat (-3651777585337447) 4503599627370496, mkRat (-1415906794199313) 1125899906842624,
  mkRat (-4215727001085989) 18014398509481984, mkRat (8401165605510489) 18014398509481984, mkRat (1111639840250177) 1125899906842624, mkRat (-1368212007099493) 18014398509481984,
  mkRat (-5761860746183565) 18014398509481984, mkRat (2733828949367687) 18014398509481984, mkRat (-7522298521164173) 9007199254740992, mkRat (2352611452100201) 1125899906842624,
  mkRat (-3620130801333479) 2251799813685248, mkRat (6655980818199955) 36028797018963968, mkRat (4556756107433611) 2251799813685248, mkRat (7839687021205311) 1152921504606846976,
  mkRat (-6846877817748633) 36028797018963968, mkRat (-6439164291897317) 18014398509481984, mkRat (-812411910765917) 4503599627370496, mkRat (6182759878989375) 4503599627370496,
  mkRat (-155645944994665) 70368744177664, mkRat (1726492861438873) 1125899906842624, mkRat (-3206466450583013) 2251799813685248, mkRat (-4803581322310341) 18014398509481984,
  mkRat (-966572505653959) 2251799813685248, mkRat (5301216572854201) 9007199254740992, mkRat (-7197312235635361) 4503599627370496, mkRat (4162881293494933) 9007199254740992,
  mkRat (4558340032558589) 2251799813685248, mkRat (-383699371195333) 281474976710656, mkRat (3417442503040251) 18014398509481984, mkRat (-1490651344625359) 2251799813685248,
  mkRat (3836050926225635) 9007199254740992, mkRat (5518971087011467) 288230376151711744, mkRat (-722250051133751) 1125899906842624, mkRat (8788725761399045) 18014398509481984,
  mkRat (8126061474882235) 4503599627370496, mkRat (-6878033962293417) 36028797018963968, mkRat (3241501600055507) 4503599627370496, mkRat (-364023975697307) 281474976710656,
  mkRat (-8614813020482343) 9007199254740992, mkRat (4255057474059101) 9007199254740992, mkRat (52217690571009) 35184372088832, mkRat (3203080290158145) 9007199254740992,
  mkRat (-5639552118437677) 18014398509481984, mkRat (-6535631403702901) 9223372036854775808, mkRat (-2815667902383603) 2251799813685248, mkRat (5444989997027567) 9007199254740992,
  mkRat (1986837425348187) 2251799813685248, mkRat (-8144135417939457) 18014398509481984, mkRat (-4233763282996237) 9007199254740992, mkRat (4789636383947571) 18014398509481984,
  mkRat (-7867243361991069) 18014398509481984, mkRat (-2382678548687125) 36028797018963968, mkRat (4728153133636015) 2251799813685248, mkRat (-4450019415322425) 18014398509481984,
  mkRat (-6455282300458653) 18014398509481984, mkRat (-2916269034565321) 4503599627370496, mkRat (1675771342769615) 2251799813685248, mkRat (-6529288951804599) 36028797018963968,
  mkRat (-2924516173408821) 4503599627370496, mkRat (5950624347387871) 4503599627370496, mkRat (6393323562141653) 4503599627370496, mkRat (-2704067346925297) 4503599627370496,
  mkRat (-8406148629419815) 4503599627370496, mkRat (1134359569530059) 1125899906842624, mkRat (-6166597256358963) 9007199254740992, mkRat (890165288444755) 1125899906842624,
  mkRat (-4436279409664107) 2251799813685248, mkRat (8039802080313331) 9007199254740992, mkRat (-5454633449390531) 4503599627370496, mkRat (6582138028647457) 9007199254740992,
  mkRat (4113931711334301) 288230376151711744, mkRat (-4296161213728757) 4503599627370496, mkRat (-7332514348893237) 18014398509481984, mkRat (6181807094015383) 9007199254740992,
  mkRat (3815249756722971) 36028797018963968, mkRat (2631962081086361) 4503599627370496, mkRat (4450548539971933) 2251799813685248, mkRat (-7044717939619315) 4503599627370496,
  mkRat (7283277950007575) 4503599627370496, mkRat (939954722686881) 9007199254740992, mkRat (-2023881752557293) 2251799813685248, mkRat (-748899993645501) 562949953421312,
  mkRat (-6813780171452885) 36028797018963968, mkRat (4150743100628971) 4503599627370496, mkRat (-4595441368029581) 36028797018963968, mkRat (3402818390380521) 2251799813685248,
  mkRat (-6535514296965323) 4503599627370496, mkRat (-6968803969893463) 576460752303423488, mkRat (-5640278649580175) 4503599627370496, mkRat (6550609644359349) 18014398509481984,
  mkRat (7988371439123587) 9007199254740992, mkRat (-1894942657233733) 4503599627370496, mkRat (-2932084138574761) 1125899906842624, mkRat (1791965599557487) 9007199254740992,
  mkRat (3933791157690727) 9007199254740992, mkRat (3641563415586695) 9007199254740992, mkRat (1391367054650337) 1125899906842624, mkRat (-4823596952561255) 4503599627370496,
  mkRat (1531710499519027) 2251799813685248, mkRat (5370576388832325) 4503599627370496, mkRat (-2002511595144385) 1125899906842624, mkRat (2879167688194009) 9007199254740992,
  mkRat (-2270624099053869) 4503599627370496, mkRat (-5874327683245107) 72057594037927936, mkRat (24465557526699) 70368744177664, mkRat (-274285297473257) 562949953421312,
  mkRat (-6086237307046937) 9007199254740992, mkRat (2460941034765907) 72057594037927936, mkRat (-4896520405122603) 4503599627370496, mkRat (-2445060822918421) 2251799813685248,
  mkRat (3059625263968379) 4503599627370496, mkRat (-1293427097166493) 1125899906842624, mkRat (1500402365403515) 2251799813685248, mkRat (4166651948243781) 9007199254740992,
  mkRat (-3886171270347413) 2251799813685248, mkRat (-762869978944569) 1125899906842624, mkRat (672223832825469) 562949953421312, mkRat (-4418776720429445) 4503599627370496,
  mkRat (-8365963450743313) 18014398509481984, mkRat (4161874533343439) 9007199254740992, mkRat (441009650711335) 562949953421312, mkRat (-2265660866918361) 9007199254740992,
  mkRat (-5381893380326699) 9007199254740992, mkRat (6405784379128423) 4503599627370496, mkRat (7831307877913457) 4503599627370496, mkRat (68881011761711) 70368744177664,
  mkRat (6147820081020563) 72057594037927936, mkRat (-3640105202798421) 4503599627370496, mkRat (-934997279980015) 1125899906842624, mkRat (4706388659541387) 9007199254740992,
  mkRat (3768596143373509) 9007199254740992, mkRat (6312238900916551) 4503599627370496, mkRat (2929366794368861) 4503599627370496, mkRat (-6769271886913449) 4503599627370496,
  mkRat (4737550899190217) 4503599627370496, mkRat (-8989730938532707) 9007199254740992, mkRat (-864626438642793) 2251799813685248, mkRat (2253603111286305) 9007199254740992,
  mkRat (8987687363346475) 4503599627370496, mkRat (7002914024989167) 2251799813685248, mkRat (170777358940175) 281474976710656, mkRat (-6600353790437389) 36028797018963968,
  mkRat (4814398878648863) 9007199254740992, mkRat (3997644645198807) 4503599627370496, mkRat (-5776634395876601) 18014398509481984, mkRat (8084913193538017) 4503599627370496,
  mkRat (2072293170726491) 9007199254740992, mkRat (8966542362232971) 18014398509481984, mkRat (5998112426818897) 9007199254740992, mkRat (1898657302467653) 4503599627370496,
  mkRat (3778252125300963) 4503599627370496, mkRat (-5559722441851949) 9007199254740992, mkRat (-5028735142063275) 9007199254740992, mkRat (-4954654193661399) 4503599627370496,
  mkRat (989668789225063) 2251799813685248, mkRat (1754009073481217) 2251799813685248, mkRat (8246502837687827) 18014398509481984, mkRat (1885310874714671) 1125899906842624,
  mkRat (-806471306024075) 144115188075855872, mkRat (6023489341867137) 9007199254740992, mkRat (-1229145914745265) 1125899906842624, mkRat (-6973368303275769) 18014398509481984,
  mkRat (1566211792897673) 2251799813685248, mkRat (3824015949542325) 4503599627370496, mkRat (-5295637743838613) 18014398509481984, mkRat (-5159269823807937) 72057594037927936,
  mkRat (-427243477496697) 281474976710656, mkRat (-200989571964129) 562949953421312, mkRat (8019858566889345) 9007199254740992, mkRat (647623274049793) 1125899906842624,
  mkRat (4509595912499193) 9007199254740992, mkRat (3586572144656439) 72057594037927936, mkRat (2035816868218507) 288230376151711744, mkRat (-5947644075354955) 9007199254740992,
  mkRat (196702713301253) 281474976710656, mkRat (3791787190970233) 9007199254740992, mkRat (4431711800959263) 9007199254740992, mkRat (-4738100642843225) 9007199254740992,
  mkRat (-1212224296441629) 562949953421312, mkRat (4941136543822473) 4503599627370496, mkRat (-8625968753801941) 18014398509481984, mkRat (-3885596609448893) 4503599627370496,
  mkRat (3123151369285159) 4503599627370496, mkRat (-3530935958128633) 9007199254740992, mkRat (4773529104228797) 4503599627370496, mkRat (1389373882299497) 2251799813685248,
  mkRat (3078522549247573) 4503599627370496, mkRat (-6151717631967327) 4503599627370496, mkRat (5458110480980107) 4503599627370496, mkRat (4706271180460553) 18014398509481984,
  mkRat (-6652305546822573) 18014398509481984, mkRat (1291528496183577) 9007199254740992, mkRat (-1999863083250805) 1125899906842624, mkRat (7361634598033019) 18014398509481984,
  mkRat (-4635877140674583) 4503599627370496, mkRat (-1522971348820021) 1125899906842624, mkRat (-3428048131887473) 2251799813685248, mkRat (2505551475492055) 2251799813685248,
  mkRat (-2833950385352737) 4503599627370496, mkRat (3453647771433875) 2251799813685248, mkRat (-2413035269346895) 4503599627370496, mkRat (-3844628330801823) 2251799813685248,
  mkRat (-5028379051702833) 4503599627370496, mkRat (2782800375681689) 2251799813685248, mkRat (-5616823808506521) 36028797018963968, mkRat (-2469266464167047) 4503599627370496,
  mkRat (1441316044646205) 9007199254740992, mkRat (4519657087250207) 9007199254740992, mkRat (1258079222730639) 1125899906842624, mkRat (6523460591992233) 4503599627370496,
  mkRat (-3240507878230629) 9007199254740992, mkRat (-373249241557161) 281474976710656, mkRat (-465520386391367) 1125899906842624, mkRat (586099596229245) 2251799813685248,
  mkRat (-8680768681914193) 9007199254740992, mkRat (-8621249007317289) 9007199254740992, mkRat (6193131900970225) 18014398509481984, mkRat (-7011542796908229) 144115188075855872,
  mkRat (1181636290515943) 36028797018963968, mkRat (-6831918613434985) 9007199254740992, mkRat (-8301060565143919) 36028797018963968, mkRat (-8324752088260395) 9007199254740992,
  mkRat (8018194465254795) 9007199254740992, mkRat (2331174259048723) 2251799813685248, mkRat (-2078622742107853) 1125899906842624, mkRat (-4186144763599367) 4503599627370496,
  mkRat (-3369884297786363) 2251799813685248, mkRat (-5854895097553621) 9007199254740992, mkRat (-3006169677251359) 36028797018963968, mkRat (-6528621671253721) 4503599627370496,
  mkRat (-8303375021757991) 9007199254740992, mkRat (-4521422046802099) 4503599627370496, mkRat (7467592539577295) 36028797018963968, mkRat (624598260873423) 9007199254740992,
  mkRat (-6500833952537895) 9007199254740992, mkRat (6370643311026551) 36028797018963968, mkRat (-4924056450476159) 9007199254740992, mkRat (-2446851707275409) 9007199254740992,
  mkRat (7536558210290869) 4503599627370496, mkRat (3018449946673837) 2251799813685248, mkRat (-5852793574364817) 4503599627370496, mkRat (3736782607977871) 4503599627370496,
  mkRat (7308410440916077) 9007199254740992, mkRat (-646414764918689) 562949953421312, mkRat (3687446691313683) 4503599627370496, mkRat (6926229614683965) 4503599627370496,
  mkRat (-1263873092777257) 1125899906842624, mkRat (-8264130725662433) 9007199254740992, mkRat (2291569901432855) 2251799813685248, mkRat (4890824722668901) 18014398509481984,
  mkRat (1241814173836193) 2251799813685248, mkRat (3067754936135373) 9007199254740992, mkRat (7038152015628651) 18014398509481984, mkRat (-2986949691389571) 2251799813685248,
  mkRat (4716699633278877) 4503599627370496, mkRat (2633682527036991) 2251799813685248, mkRat (-8264672556056085) 36028797018963968, mkRat (-6265688799389331) 144115188075855872,
  mkRat (-6895495177974121) 4503599627370496, mkRat (4631995055150853) 9007199254740992, mkRat (5152635362676677) 9007199254740992, mkRat (-8962670111484455) 144115188075855872,
  mkRat (5063637372545561) 4503599627370496, mkRat (-6018200371816909) 18014398509481984, mkRat (317844879683199) 562949953421312, mkRat (-4592159935776795) 4503599627370496,
  mkRat (-212138915801985) 9007199254740992, mkRat (-6281774167373367) 36028797018963968, mkRat (4058786694988821) 18014398509481984, mkRat (-3328402677994555) 9007199254740992,
  mkRat (-592099932876355) 4503599627370496, mkRat (930046433373605) 1125899906842624, mkRat (-1967011256074795) 4503599627370496, mkRat (-452211252014293) 281474976710656,
  mkRat (3939712709516475) 2251799813685248, mkRat (6221516074019927) 4503599627370496, mkRat (-5819833792142457) 4503599627370496, mkRat (776541953674195) 1125899906842624,
  mkRat (-4530393978463579) 9007199254740992, mkRat (2373281849563699) 9007199254740992, mkRat (1325067677788579) 4503599627370496, mkRat (-8445431057258603) 36028797018963968,
  mkRat (-882441689870171) 1125899906842624, mkRat (-194370026618471) 281474976710656, mkRat (-8252323138322369) 9007199254740992, mkRat (-1873097093512567) 2251799813685248,
  mkRat (-4840705952538615) 72057594037927936, mkRat (-805874105061473) 1125899906842624, mkRat (383961178623829) 562949953421312, mkRat (6697961230979085) 4503599627370496,
  mkRat (-1306163780844587) 2251799813685248, mkRat (8625456155215551) 36028797018963968, mkRat (1125190838281439) 2251799813685248, mkRat (265713656428759) 562949953421312,
  mkRat (5473153860539479) 72057594037927936, mkRat (6689488525158929) 9007199254740992, mkRat (8687424814369679) 18014398509481984, mkRat (-1393484006000921) 1125899906842624,
  mkRat (7828661855420675) 9007199254740992, mkRat (3996002684083755) 4503599627370496, mkRat (-6875070028711475) 9007199254740992, mkRat (2733709145361019) 72057594037927936,
  mkRat (6154880394790777) 9007199254740992, mkRat (-235666409965277) 1125899906842624, mkRat (4832263536095733) 4503599627370496, mkRat (5322967642959559) 2251799813685248,
  mkRat (-3539766403693321) 4503599627370496, mkRat (-6219671960145375) 4503599627370496, mkRat (5473109255817383) 18014398509481984, mkRat (6499257258421243) 9007199254740992,
  mkRat (-8317837721757433) 36028797018963968, mkRat (3272452090902405) 2251799813685248, mkRat (-753568072603701) 562949953421312, mkRat (3120628052483241) 4503599627370496,
  mkRat (-2728554566608135) 4503599627370496, mkRat (7743389697704245) 4503599627370496, mkRat (4486745701028965) 2251799813685248, mkRat (-6905428646124443) 9007199254740992,
  mkRat (-4949970624993357) 9007199254740992, mkRat (967809921873607) 1125899906842624, mkRat (-435870362533939) 1125899906842624, mkRat (-3272223106529095) 72057594037927936,
  mkRat (1829428500709183) 72057594037927936, mkRat (-8645439310924909) 4503599627370496, mkRat (-7976917523667765) 576460752303423488, mkRat (-3106257746262495) 4503599627370496,
  mkRat (-4441655518415001) 9007199254740992, mkRat (3250770276441137) 2251799813685248, mkRat (-2829401990432259) 2251799813685248, mkRat (3662350576013945) 4503599627370496,
  mkRat (-2512674698185029) 9007199254740992, mkRat (-1259927790590947) 4503599627370496, mkRat (7119037153085199) 9007199254740992, mkRat (6125819534029239) 18014398509481984,
  mkRat (5139624963301283) 9007199254740992, mkRat (8720632152803247) 9007199254740992, mkRat (-5968321244196535) 18014398509481984, mkRat (-5514538258783267) 9007199254740992,
  mkRat (-4887083507046597) 4503599627370496, mkRat (-1858659277620453) 2251799813685248, mkRat (6640770277450391) 2251799813685248, mkRat (2802769248000929) 2251799813685248,
  mkRat (-3042349006102137) 2251799813685248, mkRat (-2977910580601745) 2251799813685248, mkRat (8680527263991547) 18014398509481984, mkRat (1232330768772201) 2251799813685248,
  mkRat (2471953036204971) 4503599627370496, mkRat (-4592875267377531) 18014398509481984, mkRat (-2259983034404411) 18014398509481984, mkRat (2953276205652995) 9007199254740992,
  mkRat (773655422272749) 9007199254740992, mkRat (-4997420165864501) 2251799813685248, mkRat (-2069851061256641) 9007199254740992, mkRat (-3834393700075591) 4503599627370496,
  mkRat (3156328323629723) 18014398509481984, mkRat (840275708233071) 281474976710656, mkRat (3309980583391133) 9007199254740992, mkRat (-5648048711262399) 18014398509481984,
  mkRat (8302849801628633) 9007199254740992, mkRat (8695331955886649) 18014398509481984, mkRat (7567749562637243) 18014398509481984, mkRat (5466024210951321) 9007199254740992,
  mkRat (4630924416118757) 2251799813685248, mkRat (-5093068735931397) 4503599627370496, mkRat (4266098489277561) 9007199254740992, mkRat (-8344099423575831) 9007199254740992,
  mkRat (5003613094133095) 9007199254740992, mkRat (-8274792461598151) 9007199254740992, mkRat (-7518612104914677) 18014398509481984, mkRat (-2657933655605253) 9007199254740992,
  mkRat (8789375627245463) 9007199254740992, mkRat (4136351091495831) 4503599627370496, mkRat (-5610212312372889) 4503599627370496, mkRat (3958419869261571) 72057594037927936,
  mkRat (-6391327138875969) 9007199254740992, mkRat (-177118820211293) 140737488355328, mkRat (-3909431629696955) 18014398509481984, mkRat (-5557131884559365) 18014398509481984,
  mkRat (5464479731819767) 2251799813685248, mkRat (7799510832643305) 18014398509481984, mkRat (-6204237663055857) 4503599627370496, mkRat (-5087031989465597) 9007199254740992,
  mkRat (287493839293643) 281474976710656, mkRat (146961095213775) 70368744177664, mkRat (-3571316927005347) 2251799813685248, mkRat (-529151672524807) 281474976710656,
  mkRat (8426078066627533) 4503599627370496, mkRat (1754666264025865) 4503599627370496, mkRat (-1955221411863457) 2251799813685248, mkRat (4815510706084857) 9007199254740992,
  mkRat (-5935176267639519) 2251799813685248, mkRat (3891694144809197) 1152921504606846976, mkRat (5905501247441111) 18014398509481984, mkRat (8325085312024493) 9007199254740992,
  mkRat (-4566181432937127) 4503599627370496, mkRat (6174410690665653) 72057594037927936, mkRat (-2083871000540719) 2251799813685248, mkRat (4600584747565329) 18014398509481984,
  mkRat (-8064562727523319) 9007199254740992, mkRat (-7351691148686225) 18014398509481984, mkRat (-4484753840907079) 4503599627370496, mkRat (2932456936044447) 4503599627370496,
  mkRat (483265016136343) 562949953421312, mkRat (-8453096891469297) 36028797018963968, mkRat (5510675835308113) 144115188075855872, mkRat (-6523875755155729) 4503599627370496,
  mkRat (-2699247280590011) 9007199254740992, mkRat (-904405978405921) 18014398509481984, mkRat (5901501394088883) 2251799813685248, mkRat (-2503927141462401) 2251799813685248,
  mkRat (6594068066849839) 4503599627370496, mkRat (8978905601443245) 9007199254740992, mkRat (631937003344187) 2251799813685248, mkRat (1980030639326831) 1125899906842624,
  mkRat (837907033887395) 2251799813685248, mkRat (7010468834391543) 18014398509481984, mkRat (-1913873225083957) 36028797018963968, mkRat (5510464362922665) 4503599627370496,
  mkRat (4938058432813909) 4503599627370496, mkRat (-2817799998822125) 4503599627370496, mkRat (-5941361174004581) 4503599627370496, mkRat (-914143522938507) 4503599627370496,
  mkRat (-3603053380503267) 4503599627370496, mkRat (-572178501133165) 9007199254740992, mkRat (5572925922257531) 4503599627370496, mkRat (-4119007126889557) 9007199254740992,
  mkRat (-6171499651761705) 144115188075855872, mkRat (8361957339587387) 144115188075855872, mkRat (3820993004949341) 4503599627370496, mkRat (-5059544983637905) 2251799813685248,
  mkRat (-5464670442861121) 9007199254740992, mkRat (7612297262554367) 36028797018963968, mkRat (2702337570489593) 2251799813685248, mkRat (-4430663358583161) 9007199254740992,
  mkRat (-528202629229455) 281474976710656, mkRat (5581864474260645) 9007199254740992, mkRat (-5722835635120665) 9007199254740992, mkRat (-2678891161287227) 2251799813685248,
  mkRat (-2811801664462963) 4503599627370496, mkRat (-1662056663958583) 9007199254740992, mkRat (-5447055691737181) 9007199254740992, mkRat (-4966493236446191) 2251799813685248,
  mkRat (8080053980055113) 9007199254740992, mkRat (5741526760846799) 4503599627370496, mkRat (5868388394840563) 9007199254740992, mkRat (-5123680761389957) 4503599627370496,
  mkRat (-7259497577634813) 36028797018963968, mkRat (-3759282283181167) 576460752303423488, mkRat (5393460379405125) 9007199254740992, mkRat (752484493986841) 1125899906842624,
  mkRat (-3306424846604015) 4503599627370496, mkRat (5908402516962355) 72057594037927936, mkRat (4118815719658059) 9007199254740992, mkRat (1639110216884457) 1125899906842624,
  mkRat (6345630780469401) 9007199254740992, mkRat (3553595403238585) 4503599627370496, mkRat (3020172562451161) 36028797018963968, mkRat (6203264922617) 4398046511104,
  mkRat (1845407575193485) 4503599627370496, mkRat (-3877995191390931) 4503599627370496, mkRat (6320216474518753) 4503599627370496, mkRat (6286153836294829) 9007199254740992,
  mkRat (-1995292888462959) 4503599627370496, mkRat (-8637777397224023) 18014398509481984, mkRat (2671315029166273) 9007199254740992, mkRat (1042999435685387) 2251799813685248,
  mkRat (3554101495919129) 18014398509481984, mkRat (5608038502858319) 18014398509481984, mkRat (3827963699343957) 2251799813685248, mkRat (2412900670558219) 2251799813685248,
  mkRat (3434185511138871) 18014398509481984, mkRat (4239285980784343) 4503599627370496, mkRat (-4650074267177757) 4503599627370496, mkRat (3584208227722179) 9007199254740992,
  mkRat (8148391402457107) 4503599627370496, mkRat (-981991413238761) 4503599627370496, mkRat (-954350961268875) 1125899906842624, mkRat (-2936747275680149) 4503599627370496,
  mkRat (-2453635470472881) 2251799813685248, mkRat (-7068506874036969) 9007199254740992, mkRat (-3337240269495611) 9007199254740992, mkRat (-6330111103817191) 4503599627370496,
  mkRat (281354891822321) 18014398509481984, mkRat (8126990287300897) 9007199254740992, mkRat (-8176340789305871) 9007199254740992, mkRat (6842246512383055) 4503599627370496,
  mkRat (2300403059556673) 4503599627370496, mkRat (1160330585347943) 1125899906842624, mkRat (-2962623451599921) 4503599627370496, mkRat (3848439494195899) 4503599627370496,
  mkRat (-614704138366693) 562949953421312, mkRat (62645598641169) 70368744177664, mkRat (3095582346646957) 18014398509481984, mkRat (155726374260359) 281474976710656,
  mkRat (-5294407427830847) 4503599627370496, mkRat (-8062072416294971) 9007199254740992, mkRat (2689676781181089) 4503599627370496, mkRat (-66734058100651) 70368744177664,
  mkRat (8344382737973119) 18014398509481984, mkRat (-384815082233655) 281474976710656, mkRat (7639674136221741) 9007199254740992, mkRat (-2775395770558453) 2251799813685248,
  mkRat (2487337793530249) 4503599627370496, mkRat (2817591239639585) 4503599627370496, mkRat (-6275962603683393) 9007199254740992, mkRat (2621214630642505) 4503599627370496,
  mkRat (4691710720402125) 18014398509481984, mkRat (-4853455965522485) 9007199254740992, mkRat (-4542126499388379) 4503599627370496, mkRat (-8838880333684389) 4503599627370496,
  mkRat (6298735290915907) 18014398509481984, mkRat (-7047245178014471) 4503599627370496, mkRat (3435136808606511) 36028797018963968, mkRat (-1186465287779439) 4503599627370496,
  mkRat (6117174300789643) 9007199254740992, mkRat (-5441167995805951) 18014398509481984, mkRat (-2967401855661591) 9007199254740992, mkRat (6592105262232301) 9007199254740992,
  mkRat (3017934429861449) 9007199254740992, mkRat (5695359403837291) 18014398509481984, mkRat (4226786685197459) 9007199254740992, mkRat (-6915602041876043) 4503599627370496,
  mkRat (6816546434375163) 9007199254740992, mkRat (5516628464991433) 9007199254740992, mkRat (-4578733759010983) 4503599627370496, mkRat (-8793925842300377) 36028797018963968,
  mkRat (-5664777149207831) 144115188075855872, mkRat (-4845757344913387) 36028797018963968, mkRat (1503571621031979) 4503599627370496, mkRat (402893931580339) 281474976710656,
  mkRat (38061283059759) 35184372088832, mkRat (-2954854935283047) 2251799813685248, mkRat (2801554176540689) 4503599627370496, mkRat (5984983602659907) 4503599627370496,
  mkRat (6968122838558503) 18014398509481984, mkRat (2456669518168013) 2251799813685248, mkRat (2265615107356657) 1125899906842624, mkRat (4610377930383021) 4503599627370496,
  mkRat (4491144393729407) 18014398509481984, mkRat (294166253903581) 281474976710656, mkRat (2610067164582711) 18014398509481984, mkRat (6889583157193363) 288230376151711744,
  mkRat (-3165258042026107) 9007199254740992, mkRat (3520493910131169) 2251799813685248, mkRat (-7371750069931459) 9007199254740992, mkRat (3450585356927469) 2251799813685248,
  mkRat (281398485176627) 562949953421312, mkRat (-3150957383707629) 2251799813685248, mkRat (3311490437838385) 9007199254740992, mkRat (-4728839298664009) 2251799813685248,
  mkRat (5634075343035021) 9007199254740992, mkRat (7973456353851703) 9007199254740992, mkRat (-5335468122290565) 9007199254740992, mkRat (8902549719488703) 72057594037927936,
  mkRat (4400371345230537) 2251799813685248, mkRat (-4555361337715829) 9007199254740992, mkRat (-4768895814487897) 4503599627370496, mkRat (6672818747219061) 4503599627370496,
  mkRat (2209676734989149) 1125899906842624, mkRat (4260819547353305) 1152921504606846976, mkRat (569403068670513) 562949953421312, mkRat (6041470433311371) 4503599627370496,
  mkRat (-3343851712988335) 4503599627370496, mkRat (-2185623179323459) 4503599627370496, mkRat (5543365998783505) 4503599627370496, mkRat (948578709713201) 562949953421312,
  mkRat (5069980064270417) 9007199254740992, mkRat (-7924663189174131) 9007199254740992, mkRat (8948927682212007) 4503599627370496, mkRat (-2391280337530541) 4503599627370496,
  mkRat (-1509326386401525) 4503599627370496, mkRat (6167010175369127) 18014398509481984, mkRat (3499658145802515) 2251799813685248, mkRat (1922982944891975) 2251799813685248,
  mkRat (7473552451355097) 18014398509481984, mkRat (32601032056327) 70368744177664, mkRat (3135562327805831) 72057594037927936, mkRat (5027273819212589) 9007199254740992,
  mkRat (-5696062911657673) 2251799813685248, mkRat (-2671602484284107) 9007199254740992, mkRat (543408688083771) 2251799813685248, mkRat (-5183706598087005) 4503599627370496,
  mkRat (6959382200562701) 18014398509481984, mkRat (-3683426058564349) 18014398509481984, mkRat (3952979850395801) 2251799813685248, mkRat (7084251048324067) 4503599627370496,
  mkRat (-524450446876915) 1125899906842624, mkRat (-5434501292841499) 36028797018963968, mkRat (-5328483662702595) 72057594037927936, mkRat (-8136373794123321) 18014398509481984,
  mkRat (1756628890794017) 9007199254740992, mkRat (-426874855360485) 562949953421312, mkRat (-1272959700281003) 1125899906842624, mkRat (2804442035916675) 4503599627370496,
  mkRat (5670298401840101) 9007199254740992, mkRat (-3622316155492959) 4503599627370496, mkRat (8064644768693187) 9007199254740992, mkRat (-5688746451448981) 9007199254740992,
  mkRat (1140154871691015) 4503599627370496, mkRat (7389001979034149) 9007199254740992, mkRat (-4844081083987475) 144115188075855872, mkRat (8191884009875729) 18014398509481984,
  mkRat (-1162896175887573) 2251799813685248, mkRat (-7078454655340263) 36028797018963968, mkRat (-3708433824813613) 18014398509481984, mkRat (-3362289963281501) 4503599627370496,
  mkRat (-1592240110273935) 9007199254740992, mkRat (-6974356793701901) 4503599627370496, mkRat (-4423919665221611) 9007199254740992, mkRat (-5131860663146543) 18014398509481984,
  mkRat (-4614924151512239) 18014398509481984, mkRat (-543803903617283) 2251799813685248, mkRat (-8901159279197231) 144115188075855872, mkRat (8636850568793369) 18014398509481984,
  mkRat (3938474769192365) 4503599627370496, mkRat (-5852564867024323) 9007199254740992, mkRat (-5418734923982413) 4503599627370496, mkRat (-2346475413340773) 2251799813685248,
  mkRat (-2194166894347291) 4503599627370496, mkRat (-6339650863128657) 18014398509481984, mkRat (-6935507993607233) 9007199254740992, mkRat (-5837190526144515) 4503599627370496,
  mkRat (-8216742354594705) 18014398509481984, mkRat (408536429370185) 2251799813685248, mkRat (5359548961223029) 9007199254740992, mkRat (-5020820508532719) 9007199254740992,
  mkRat (-464994209477499) 1125899906842624, mkRat (-8346956316819235) 9007199254740992, mkRat (-1132715487877445) 36028797018963968, mkRat (-7641965761584423) 9007199254740992,
  mkRat (20165142235537) 35184372088832, mkRat (-4021413833803959) 2251799813685248, mkRat (-6478512235393133) 18014398509481984, mkRat (5424267602329805) 18014398509481984,
  mkRat (413958529603933) 2251799813685248, mkRat (6064172702799383) 2251799813685248, mkRat (6301437041192875) 18014398509481984, mkRat (-4521859908197311) 4503599627370496,
  mkRat (-1719730990470217) 18014398509481984, mkRat (-3999751162758861) 2251799813685248, mkRat (-5807824014384763) 72057594037927936, mkRat (-7503501895774703) 9007199254740992,
  mkRat (515318912988915) 562949953421312, mkRat (-2474909375893531) 4503599627370496, mkRat (-8413870957840759) 72057594037927936, mkRat (-715574514430317) 1125899906842624,
  mkRat (3915545150129673) 2251799813685248, mkRat (-2893497603568189) 9007199254740992, mkRat (8253103218148111) 4503599627370496, mkRat (1833306786249429) 2251799813685248,
  mkRat (4342071067190719) 9007199254740992, mkRat (415156616214583) 1125899906842624, mkRat (3547010731012437) 9007199254740992, mkRat (-2170366377508303) 1125899906842624,
  mkRat (-5023916599908665) 18014398509481984, mkRat (3806253124094915) 4503599627370496, mkRat (-440426674546897) 9007199254740992, mkRat (-6328412470449385) 4503599627370496,
  mkRat (-236008664093247) 4503599627370496, mkRat (7674608968008237) 4503599627370496, mkRat (5615501065453521) 4503599627370496, mkRat (-4467859735621397) 72057594037927936,
  mkRat (8569893219241453) 9007199254740992, mkRat (-1650600880358229) 4503599627370496, mkRat (-7673555443519987) 4503599627370496, mkRat (-8326849359313917) 9007199254740992,
  mkRat (7038625275475053) 4503599627370496, mkRat (-4935820564914193) 18014398509481984, mkRat (-8768831990570239) 36028797018963968, mkRat (-5401404756059975) 18014398509481984,
  mkRat (8575468835263521) 4503599627370496, mkRat (1830666991336081) 1125899906842624, mkRat (4996248916287019) 2251799813685248, mkRat (-5730207602341865) 36028797018963968,
  mkRat (5325497349452043) 18014398509481984, mkRat (-3415175410212857) 2251799813685248, mkRat (3325760665558459) 2251799813685248, mkRat (-5259211551941157) 4503599627370496,
  mkRat (7810162785475245) 36028797018963968, mkRat (-1235452813639995) 1125899906842624, mkRat (-1326010210735619) 2251799813685248, mkRat (-1885347386243373) 2251799813685248,
  mkRat (-5475253594934713) 9007199254740992, mkRat (-4855985610017429) 9007199254740992, mkRat (-308647892565431) 562949953421312, mkRat (3753002294568989) 4503599627370496,
  mkRat (-4975859663131891) 4503599627370496, mkRat (3972921154077633) 18014398509481984, mkRat (2742600192237899) 2251799813685248, mkRat (-4622461911980847) 9007199254740992,
  mkRat (-6466438497706279) 9007199254740992, mkRat (-8305524928492007) 36028797018963968, mkRat (5313010008772875) 4503599627370496, mkRat (1748366108862623) 9007199254740992,
  mkRat (-4784752998497323) 9007199254740992, mkRat (8716746823934957) 18014398509481984, mkRat (-4964282515256739) 4503599627370496, mkRat (767142609334051) 1125899906842624,
  mkRat (7360814874826169) 18014398509481984, mkRat (-2772492231845121) 9007199254740992, mkRat (-7553309378810279) 9007199254740992, mkRat (-1996627935596153) 2251799813685248,
  mkRat (4817206313357445) 9007199254740992, mkRat (345927258315959) 281474976710656, mkRat (-5740357864078421) 9007199254740992, mkRat (4128780374612109) 9007199254740992,
  mkRat (-4699567051644217) 2251799813685248, mkRat (-2632884193941949) 4503599627370496, mkRat (-4476063952125417) 144115188075855872, mkRat (-8193699795489011) 9007199254740992,
  mkRat (-8435299521065037) 9007199254740992, mkRat (-3007411761678911) 4503599627370496, mkRat (5263676249644091) 18014398509481984, mkRat (-6749239179925039) 36028797018963968,
  mkRat (-5040048674185675) 2251799813685248, mkRat (-4775392208585919) 2251799813685248, mkRat (-2733077788861705) 4503599627370496, mkRat (4122474276806503) 9007199254740992,
  mkRat (-193338465404625) 70368744177664, mkRat (-562646158775569) 1125899906842624, mkRat (-592502412629095) 1125899906842624, mkRat (1563129375150987) 1125899906842624,
  mkRat (-866992043879783) 2251799813685248, mkRat (862414524483125) 2251799813685248, mkRat (5089324827690571) 36028797018963968, mkRat (-4797609202273889) 2251799813685248,
  mkRat (1729848867283009) 2251799813685248, mkRat (7760476973678763) 36028797018963968, mkRat (4578076912485181) 9007199254740992, mkRat (2210275333959329) 562949953421312,
  mkRat (-293312820553871) 140737488355328, mkRat (7767343189191271) 4503599627370496, mkRat (-5178194165040059) 18014398509481984, mkRat (2588028693604331) 9007199254740992,
  mkRat (-6559005791343003) 144115188075855872, mkRat (-7642362372033817) 18014398509481984, mkRat (-5132598726559025) 9007199254740992, mkRat (5935901674967709) 18014398509481984,
  mkRat (-1708185723746723) 1125899906842624, mkRat (6760616118326161) 9007199254740992, mkRat (-1874372966754915) 4503599627370496, mkRat (-2544689927102489) 2251799813685248,
  mkRat (-4053355479163757) 9007199254740992, mkRat (2830848372305697) 2251799813685248, mkRat (-4821869796809229) 9007199254740992, mkRat (6457326325593807) 18014398509481984,
  mkRat (-3291934410936331) 4503599627370496, mkRat (1706688280445985) 2251799813685248, mkRat (6174504793950309) 9007199254740992, mkRat (4162697026393763) 2251799813685248,
  mkRat (-790669719529961) 4503599627370496, mkRat (47052398899175) 70368744177664, mkRat (7066510952395713) 72057594037927936, mkRat (1459021918479553) 1125899906842624,
  mkRat (-1618666636488261) 2251799813685248, mkRat (3355205649463163) 4503599627370496, mkRat (-3507354680964523) 18014398509481984, mkRat (-2312622804059375) 36028797018963968,
  mkRat (1652865819088037) 18014398509481984, mkRat (2271979510709941) 9007199254740992, mkRat (-4187592602349441) 36028797018963968, mkRat (1933964423436631) 9007199254740992,
  mkRat (7107211895983705) 4503599627370496, mkRat (2219035418464535) 2251799813685248, mkRat (7828648597792757) 9007199254740992, mkRat (-4103135279307273) 9007199254740992,
  mkRat (-8009569325303425) 9007199254740992, mkRat (8604582476212741) 9007199254740992, mkRat (7890728016792599) 9007199254740992, mkRat (6632319106551579) 4503599627370496,
  mkRat (-2720086922054021) 4503599627370496, mkRat (-2067590477488515) 9007199254740992, mkRat (-7383580263429375) 4503599627370496, mkRat (-7070130908037735) 18014398509481984,
  mkRat (8976309160188047) 9007199254740992, mkRat (-4201816832124341) 9007199254740992, mkRat (5768929134009523) 9007199254740992, mkRat (-3431798868738661) 18014398509481984,
  mkRat (5837692446181643) 18014398509481984, mkRat (-2584371257755083) 2251799813685248, mkRat (3069993964957455) 36028797018963968, mkRat (-1683859855495373) 562949953421312,
  mkRat (-3366821873021169) 18014398509481984, mkRat (-7342998692833069) 4503599627370496, mkRat (2715658227665551) 2251799813685248, mkRat (7002262928450673) 9007199254740992,
  mkRat (1050849630243533) 2251799813685248, mkRat (1712500769465797) 1125899906842624, mkRat (-8547080179184889) 9007199254740992, mkRat (3934712123506713) 2251799813685248,
  mkRat (8396435162881977) 9007199254740992, mkRat (-532675151685883) 2251799813685248, mkRat (5114378471687535) 4503599627370496, mkRat (-4982303050259433) 4503599627370496,
  mkRat (-7426563341235455) 9007199254740992, mkRat (-685211112700957) 1125899906842624, mkRat (-1191151904462199) 2251799813685248, mkRat (-1189578151557631) 1125899906842624,
  mkRat (5508276445213669) 4503599627370496, mkRat (-1165776581048787) 4503599627370496, mkRat (6350164976553165) 18014398509481984, mkRat (-2568634201250905) 4503599627370496,
  mkRat (-8199268345939797) 4503599627370496, mkRat (1216230218620269) 4503599627370496, mkRat (-2153007698684471) 1125899906842624, mkRat (-2472802115003567) 36028797018963968,
  mkRat (-6162343099012891) 4503599627370496, mkRat (8949895449618197) 4503599627370496, mkRat (8208825631970875) 9007199254740992, mkRat (7620363759412103) 72057594037927936,
  mkRat (5691228922591173) 4503599627370496, mkRat (-3811468320752385) 4503599627370496, mkRat (4895227054524359) 9007199254740992, mkRat (3599464779361341) 18014398509481984,
  mkRat (4756162959650577) 18014398509481984, mkRat (2865085374482193) 2251799813685248, mkRat (6597702322261897) 9007199254740992, mkRat (2600591560623639) 9007199254740992,
  mkRat (-3726475220568935) 2251799813685248, mkRat (-2161832068839509) 2251799813685248, mkRat (-8842110521867747) 72057594037927936, mkRat (420511789999025) 4503599627370496,
  mkRat (-2544992536647115) 2251799813685248, mkRat (5430613088736547) 2251799813685248, mkRat (3414615851093413) 2251799813685248, mkRat (5423399686705075) 9007199254740992,
  mkRat (324425181634413) 4503599627370496, mkRat (-1911408475543007) 9007199254740992, mkRat (-8574119243686473) 9007199254740992, mkRat (2791529874640177) 36028797018963968,
  mkRat (4643256974962763) 18014398509481984, mkRat (-349524529063901) 281474976710656, mkRat (3009993576360255) 9007199254740992, mkRat (-5593796755464289) 36028797018963968,
  mkRat (-4296000703375617) 2251799813685248, mkRat (-3874829613941725) 4503599627370496, mkRat (-7450854904784369) 18014398509481984, mkRat (4250694715094583) 2251799813685248,
  mkRat (5012984888524237) 9007199254740992, mkRat (-1503618574239609) 1125899906842624, mkRat (4377825703819617) 9007199254740992, mkRat (-6968437668011705) 4503599627370496,
  mkRat (4876007026843193) 4503599627370496, mkRat (-8487027225488211) 18014398509481984, mkRat (-1686799618856493) 18014398509481984, mkRat (1492714321960015) 1125899906842624,
  mkRat (-2898434683920453) 2251799813685248, mkRat (-6292060937867411) 4503599627370496, mkRat (-657074427166385) 1125899906842624, mkRat (2338221303259999) 2251799813685248,
  mkRat (-6842526419364333) 4503599627370496, mkRat (-6377447448153011) 2251799813685248, mkRat (-8127355466462661) 18014398509481984, mkRat (4969639321767841) 9007199254740992,
  mkRat (5405498368870851) 4503599627370496, mkRat (-8343573350800857) 18014398509481984, mkRat (-115806294656121) 281474976710656, mkRat (5196706916816725) 4503599627370496,
  mkRat (-4210284011013687) 2251799813685248, mkRat (-6998968073359587) 18014398509481984, mkRat (6860743677671443) 36028797018963968, mkRat (2023101265787131) 4503599627370496,
  mkRat (-4591930466970887) 9007199254740992, mkRat (77554263742345) 2251799813685248, mkRat (-1400803767700819) 562949953421312, mkRat (-741121826125985) 1125899906842624,
  mkRat (8169686675478291) 18014398509481984, mkRat (-1105964761659409) 1125899906842624, mkRat (531282636743299) 9007199254740992, mkRat (4025069656194305) 9007199254740992,
  mkRat (-3085408906678183) 9007199254740992, mkRat (3070802302161305) 18014398509481984, mkRat (-8671524044546443) 9007199254740992, mkRat (-930494482249657) 4503599627370496,
  mkRat (1374084656988737) 2251799813685248, mkRat (2827773474098735) 18014398509481984, mkRat (-660375501762321) 1125899906842624, mkRat (8078247318514943) 36028797018963968,
  mkRat (3218316386826381) 4503599627370496, mkRat (-36062948352863) 17592186044416, mkRat (5220005527030187) 4503599627370496, mkRat (-6057426863302557) 18014398509481984,
  mkRat (7664945219162393) 18014398509481984, mkRat (5391920799199121) 4503599627370496, mkRat (-6177469151721037) 4503599627370496, mkRat (-1597519117087025) 2251799813685248,
  mkRat (-5198031196896267) 18014398509481984, mkRat (-7059424131372579) 9007199254740992, mkRat (7813459716450095) 4503599627370496, mkRat (-7717116964999567) 9007199254740992,
  mkRat (-5003920538167863) 9007199254740992, mkRat (3681945466263131) 18014398509481984, mkRat (-1353500039419973) 1125899906842624, mkRat (-3563975012046405) 9007199254740992,
  mkRat (2859364778147675) 9007199254740992, mkRat (-5996279972573881) 18014398509481984, mkRat (-6729232367089731) 72057594037927936, mkRat (-4767799808755441) 9007199254740992,
  mkRat (-3410283960045091) 2251799813685248, mkRat (362081766688069) 1125899906842624, mkRat (7903515927530677) 4503599627370496, mkRat (2651954481257645) 144115188075855872,
  mkRat (4057997577984031) 18014398509481984, mkRat (6239491883630703) 9007199254740992, mkRat (-5716556351257721) 4503599627370496, mkRat (7667444379945299) 4503599627370496,
  mkRat (7289663137408417) 36028797018963968, mkRat (1837307530664921) 1125899906842624, mkRat (-3301287125492117) 4503599627370496, mkRat (8187822996967907) 4503599627370496,
  mkRat (1745494997044621) 2251799813685248, mkRat (4981342249131257) 9007199254740992, mkRat (4215809781681683) 18014398509481984, mkRat (-2238546783501989) 9007199254740992,
  mkRat (675839241218677) 562949953421312, mkRat (5056997260363485) 36028797018963968, mkRat (-8858894384086891) 4503599627370496, mkRat (-5031360532647019) 4503599627370496,
  mkRat (-3347899441294585) 18014398509481984, mkRat (2792222610139253) 9007199254740992, mkRat (-8155260720736971) 144115188075855872, mkRat (5489756394690261) 4503599627370496,
  mkRat (-8786981627846231) 4503599627370496, mkRat (5173300618716303) 36028797018963968, mkRat (-8187450562020893) 4503599627370496, mkRat (3421440010851285) 4503599627370496,
  mkRat (-6806467698606395) 72057594037927936, mkRat (7559021254595051) 18014398509481984, mkRat (-7781165958807583) 9007199254740992, mkRat (5762197789447465) 4503599627370496,
  mkRat (2345755404439049) 2251799813685248, mkRat (2628049905598513) 4503599627370496, mkRat (-4666350597697955) 36028797018963968, mkRat (5222890107966449) 9007199254740992,
  mkRat (-6367122211557595) 9007199254740992, mkRat (1926540073580199) 2251799813685248, mkRat (7428601541031963) 4503599627370496, mkRat (4821601318981181) 4503599627370496,
  mkRat (-3285837411153243) 4503599627370496, mkRat (3255357790792781) 9007199254740992, mkRat (-2911895887304377) 2251799813685248, mkRat (5155633584242511) 9007199254740992,
  mkRat (8117349449038415) 18014398509481984, mkRat (-8420904169968319) 4503599627370496, mkRat (-327013080408049) 281474976710656, mkRat (-1275144229869323) 4503599627370496,
  mkRat (-5419807380456827) 18014398509481984, mkRat (-5446999875665341) 4503599627370496, mkRat (7007217842262175) 18014398509481984, mkRat (283134112879501) 1125899906842624,
  mkRat (-3499641561552197) 18014398509481984, mkRat (-6807564636965983) 9007199254740992, mkRat (4722957023750419) 4503599627370496, mkRat (7455290857650915) 4503599627370496,
  mkRat (-4355534636923977) 9007199254740992, mkRat (-689238674996749) 1125899906842624, mkRat (8848810635643991) 18014398509481984, mkRat (-1612420981216217) 4503599627370496,
  mkRat (-5022313447707453) 36028797018963968, mkRat (3331101658490643) 4503599627370496, mkRat (-1074871920526929) 562949953421312, mkRat (1484276464742035) 1125899906842624,
  mkRat (5237183716587423) 72057594037927936, mkRat (-3706400745031497) 9007199254740992, mkRat (-1607499614801755) 18014398509481984, mkRat (-5414500567349153) 144115188075855872,
  mkRat (-7796637545097883) 4503599627370496, mkRat (6732603244100303) 4503599627370496, mkRat (5955651267033839) 144115188075855872, mkRat (7980416918428539) 18014398509481984,
  mkRat (1071349798045435) 1125899906842624, mkRat (-1149726715838327) 1125899906842624, mkRat (133270491754091) 281474976710656, mkRat (-4821393268963359) 18014398509481984,
  mkRat (3813516547733227) 4503599627370496, mkRat (-299380644300853) 140737488355328, mkRat (-3570248429128953) 36028797018963968, mkRat (-5429725761519775) 9007199254740992,
  mkRat (7786957053608215) 18014398509481984, mkRat (8467563308316411) 18014398509481984, mkRat (-6373727432476381) 9007199254740992, mkRat (-801836487331559) 1125899906842624,
  mkRat (-996785025195215) 9007199254740992, mkRat (-4038117600821423) 4503599627370496, mkRat (473994682136279) 562949953421312, mkRat (-3325522820715245) 9007199254740992,
  mkRat (-6545955530653683) 2251799813685248, mkRat (-1688048474532209) 4503599627370496, mkRat (-4677185564560845) 4503599627370496, mkRat (-229581661082763) 140737488355328,
  mkRat (-5572874146797503) 4503599627370496, mkRat (3941855623825115) 36028797018963968, mkRat (5983666339007961) 4503599627370496, mkRat (5641829919186195) 18014398509481984,
  mkRat (-5462896866334697) 9007199254740992, mkRat (4106419926974845) 9007199254740992, mkRat (-8270235800126627) 18014398509481984, mkRat (-3128201963734547) 4503599627370496,
  mkRat (-162462102578265) 140737488355328, mkRat (-7889535561303943) 4503599627370496, mkRat (-3512120519128081) 9007199254740992, mkRat (2847238553235649) 18014398509481984,
  mkRat (-3481234594193817) 36028797018963968, mkRat (-7493394006808697) 18014398509481984, mkRat (-2129630803270569) 2251799813685248, mkRat (5478594644443895) 9007199254740992,
  mkRat (-2965917411934613) 2251799813685248, mkRat (3494919023614579) 4503599627370496, mkRat (-4513584192982767) 4503599627370496, mkRat (-3388667054563559) 4503599627370496,
  mkRat (-6605813237889325) 4503599627370496, mkRat (-282264315234615) 562949953421312, mkRat (1098104206142807) 1125899906842624, mkRat (4644364933955927) 9007199254740992,
  mkRat (8812842918281025) 9007199254740992, mkRat (4703041950604711) 9007199254740992, mkRat (-2485243514254715) 2251799813685248, mkRat (-5958968909679051) 18014398509481984,
  mkRat (-7027409014336381) 9007199254740992, mkRat (5992376642018755) 4503599627370496, mkRat (-5389856902086777) 4503599627370496, mkRat (4024856580914673) 4503599627370496,
  mkRat (8043013433361791) 9007199254740992, mkRat (4119938429339051) 2251799813685248, mkRat (-3690128771809785) 9007199254740992, mkRat (3208013812452965) 4503599627370496,
  mkRat (2568911590206385) 1125899906842624, mkRat (-5563221652174169) 9007199254740992, mkRat (-6913206686785449) 4503599627370496, mkRat (-4233406244079899) 2251799813685248,
  mkRat (1604884813801181) 2251799813685248, mkRat (-4240477287647655) 2251799813685248, mkRat (-6707103792296661) 18014398509481984, mkRat (3938967012385735) 9007199254740992,
  mkRat (1667912957330665) 9007199254740992, mkRat (3832066663613059) 9007199254740992, mkRat (8008836094023741) 36028797018963968, mkRat (719937450036883) 562949953421312,
  mkRat (-8577703394868131) 9007199254740992, mkRat (-3048915053293479) 4503599627370496, mkRat (-3479748789805977) 4503599627370496, mkRat (467356441818811) 562949953421312,
  mkRat (4055034747180929) 4503599627370496, mkRat (4064276359885933) 9007199254740992, mkRat (5329981637200821) 4503599627370496, mkRat (-1326356102835871) 1125899906842624,
  mkRat (7508509887524807) 4503599627370496, mkRat (3430028444569837) 2251799813685248, mkRat (3312946952681485) 4503599627370496, mkRat (4012254450795251) 2251799813685248,
  mkRat (-3730383830395469) 2251799813685248, mkRat (-1180952215523815) 2251799813685248, mkRat (-6623024783062953) 9007199254740992, mkRat (6498508027258177) 9007199254740992,
  mkRat (-295588340222425) 281474976710656, mkRat (1705727436145629) 2251799813685248, mkRat (6172346067401395) 4503599627370496, mkRat (6261831043530375) 9007199254740992,
  mkRat (5111604017711733) 18014398509481984, mkRat (-4448986009969861) 4503599627370496, mkRat (-7627755390961073) 9007199254740992, mkRat (5627783236249195) 4503599627370496,
  mkRat (1754937941789811) 2251799813685248, mkRat (-5623305373724273) 144115188075855872, mkRat (-941048637292919) 2251799813685248, mkRat (-4561713791234307) 2251799813685248,
  mkRat (-4822690553756033) 4503599627370496, mkRat (538016643036957) 281474976710656, mkRat (-5766659232431185) 4503599627370496, mkRat (853341252245487) 4503599627370496,
  mkRat (1134281075569637) 1125899906842624, mkRat (-5651669259993913) 4503599627370496, mkRat (6654896203164113) 36028797018963968, mkRat (8447992130475969) 9007199254740992,
  mkRat (3602684254968095) 288230376151711744, mkRat (6459069466324625) 2251799813685248, mkRat (-3757351500257263) 2251799813685248, mkRat (2384044706335775) 2251799813685248,
  mkRat (-3112919360590765) 18014398509481984, mkRat (6952838643364451) 9007199254740992, mkRat (3974941447897317) 9007199254740992, mkRat (-6603683952217901) 9007199254740992,
  mkRat (8250464541992581) 36028797018963968, mkRat (-4183622142104215) 2251799813685248, mkRat (339598152348189) 562949953421312, mkRat (671393178166145) 2251799813685248,
  mkRat (1438134848758727) 2251799813685248, mkRat (4765341294576383) 4503599627370496, mkRat (6622450301529821) 18014398509481984, mkRat (5335483646568237) 36028797018963968,
  mkRat (-7935958065351477) 9007199254740992, mkRat (-801889291443849) 1125899906842624, mkRat (5344577593218295) 4503599627370496, mkRat (6468679597916495) 4503599627370496,
  mkRat (-8578832577983943) 36028797018963968, mkRat (3314847286205831) 72057594037927936, mkRat (-4074020962135919) 4503599627370496, mkRat (5281627291342663) 4503599627370496,
  mkRat (5993541918448707) 9007199254740992, mkRat (4371233061751625) 2251799813685248, mkRat (-7911230966195159) 9007199254740992, mkRat (-1702396233161547) 4503599627370496,
  mkRat (8338718163540705) 36028797018963968, mkRat (2911530041200705) 4503599627370496, mkRat (-7770245536763137) 36028797018963968, mkRat (-3931467241676227) 4503599627370496,
  mkRat (7939013237643489) 9007199254740992, mkRat (3247704950043969) 4503599627370496, mkRat (-1031632924467007) 1125899906842624, mkRat (1526092923495183) 1125899906842624,
  mkRat (1317526617671815) 1125899906842624, mkRat (4838541239698583) 36028797018963968, mkRat (716953806672411) 9007199254740992, mkRat (2495254371539327) 4503599627370496,
  mkRat (-7761531252220193) 9007199254740992, mkRat (4327992267927849) 144115188075855872, mkRat (-2423368432365073) 1125899906842624, mkRat (986801329623447) 1125899906842624,
  mkRat (-7032340294730713) 4503599627370496, mkRat (6770800979094255) 4503599627370496, mkRat (-5946914928699275) 18014398509481984, mkRat (-3813053363807543) 18014398509481984,
  mkRat (-5654124371060011) 9007199254740992, mkRat (-2594423530527361) 9007199254740992, mkRat (3194248618711033) 2251799813685248, mkRat (-5602047069270239) 2251799813685248,
  mkRat (718867604618973) 562949953421312, mkRat (6089289694128523) 18014398509481984, mkRat (-2717971121758939) 2251799813685248, mkRat (-151336765395107) 140737488355328,
  mkRat (7549803012661361) 4503599627370496, mkRat (-8516368864372649) 9007199254740992, mkRat (-2597114464873767) 2251799813685248, mkRat (5122009349196841) 4503599627370496,
  mkRat (1524706607486453) 4503599627370496, mkRat (-8448082553981167) 9007199254740992, mkRat (975592158511385) 4503599627370496, mkRat (-4619579403816639) 4503599627370496,
  mkRat (4957658839737513) 4503599627370496, mkRat (1194997470476127) 1125899906842624, mkRat (2395942918773297) 4503599627370496, mkRat (814388310333241) 2251799813685248,
  mkRat (7931686182882047) 4503599627370496, mkRat (-5786238392340167) 18446744073709551616, mkRat (-5322687870843951) 4503599627370496, mkRat (126515659146521) 281474976710656,
  mkRat (2348680178743167) 1125899906842624, mkRat (-4570070475382477) 4503599627370496, mkRat (-6511534325565371) 18014398509481984, mkRat (3751012444027243) 9007199254740992,
  mkRat (-7768507452662711) 144115188075855872, mkRat (-2211951019275989) 2251799813685248, mkRat (1263099655820553) 1125899906842624, mkRat (5224267265580653) 2251799813685248,
  mkRat (3533190263102803) 18014398509481984, mkRat (-8143123225545065) 9007199254740992, mkRat (-3487949021721219) 2251799813685248, mkRat (4647282131592993) 18014398509481984,
  mkRat (4971421592021831) 4503599627370496, mkRat (2139965286055079) 4503599627370496, mkRat (-5542879778000959) 2305843009213693952, mkRat (-663460897854579) 1125899906842624]

/-- Gaussian draws 3329 to 3360 of the same seed-42 stream, consumed by
`w3 = np.random.randn(1, 32) * 0.5 + 0.2`. -/
def gaussDraws3 : List ℚ := [
  mkRat (-1229666932334199) 1125899906842624, mkRat (7518771524367533) 9007199254740992, mkRat (8230523067147715) 9007199254740992, mkRat (-3480674045677931) 2251799813685248,
  mkRat (3579999114856809) 2251799813685248, mkRat (1292693468251175) 2251799813685248, mkRat (6303213922348337) 4503599627370496, mkRat (-6044406027961167) 4503599627370496,
  mkRat (-6151125157382593) 4503599627370496, mkRat (-5367185023661107) 36028797018963968, mkRat (2264339757612885) 4503599627370496, mkRat (8090089932756831) 4503599627370496,
  mkRat (3179896733151991) 4503599627370496, mkRat (-2185878615640939) 9007199254740992, mkRat (-4622355981188663) 4503599627370496, mkRat (5539430120963461) 4503599627370496,
  mkRat (-4344646995933215) 4503599627370496, mkRat (3666985188228599) 2251799813685248, mkRat (-2561509203995529) 9007199254740992, mkRat (3581672414771971) 2251799813685248,
  mkRat (191102169057571) 281474976710656, mkRat (-2467891340817975) 18014398509481984, mkRat (-4678306613227463) 9007199254740992, mkRat (-6141250357533887) 18014398509481984,
  mkRat (1928966896177683) 4503599627370496, mkRat (5559711481845155) 72057594037927936, mkRat (-1337144418053285) 2251799813685248, mkRat (-2983750231149353) 18014398509481984,
  mkRat (5662071708208695) 72057594037927936, mkRat (-4793483037188709) 2251799813685248, mkRat (1031702875517713) 2251799813685248, mkRat (-4412272142561577) 4503599627370496]

/-- Affine rescaling `g * 0.5 + 0.2` applied by the source to every raw
gaussian draw when building a weight entry. -/
def affineW (g : ℚ) : ℚ := g * mkRat 1 2 + mkRat 1 5

/-- Cut a flat draw list into consecutive rows of width `n` (the row-major
layout of `np.random.randn(rows, n)`). -/
def chunkRows (n rows : Nat) (xs : List ℚ) : List (List ℚ) :=
  (List.range rows).map (fun i => ((xs.drop (n * i)).take n))

/-- Rational value of the matrix `w1 = np.random.randn(64, 20) * 0.5 + 0.2`
generated after `np.random.seed(42)`, identical in each of the three domain
models because each call re-seeds with the same constant. -/
def w1Q : List (List ℚ) := chunkRows 20 64 (gaussDraws1.map affineW)

/-- Rational value of `w2 = np.random.randn(32, 64) * 0.5 + 0.2` (the second
block of the seed-42 stream). -/
def w2Q : List (List ℚ) := chunkRows 64 32 (gaussDraws2.map affineW)

/-- Rational value of the single row of `w3 = np.random.randn(1, 32) * 0.5 +
0.2` (the third block of the seed-42 stream). -/
def w3Q : List ℚ := gaussDraws3.map affineW

/-- Real-valued `w1` consumed by the forward pass. -/
noncomputable def w1R : List (List ℝ) := w1Q.map QEval.castList

/-- Real-valued `w2` consumed by the forward pass. -/
noncomputable def w2R : List (List ℝ) := w2Q.map QEval.castList

/-- Real-valued `w3` consumed by the forward pass. -/
noncomputable def w3R : List ℝ := QEval.castList w3Q

end NpRandom


namespace NNModel

open NpModel QEval

/-- Executable rational twin of `leakyRelu`. -/
def leakyQ (z : ℚ) : ℚ := if 0 < z then z else mkRat 1 10 * z

/-- Rational evaluation of the two hidden layers of `_neural_forward_pass`
on an already clipped-and-padded rational feature vector (the weight
matrices are the exact seed-42 rationals). -/
def h2Q (imp x : List ℚ) : List ℚ :=
  let weighted := List.zipWith (· * ·) x imp
  let h1 := NpRandom.w1Q.map (fun row => leakyQ (dotQ row weighted))
  NpRandom.w2Q.map (fun row => leakyQ (dotQ row h1))

/-- Rational numerator `w3 · (h2 - mean h2)` of the pre-sigmoid activation
(the division by the standard deviation is irrational and stays in `ℝ`). -/
def netSQ (imp x : List ℚ) : ℚ :=
  let h2 := h2Q imp x
  dotQ NpRandom.w3Q (h2.map (fun h => h - meanQ h2))

/-- Rational variance of the second hidden layer. -/
def netVQ (imp x : List ℚ) : ℚ := varQ (h2Q imp x)

theorem leakyQ_cast (z : ℚ) : ((leakyQ z : ℚ) : ℝ) = leakyRelu (z : ℝ) := by
  unfold leakyQ leakyRelu
  by_cases h : 0 < z
  · rw [if_pos h, if_pos (by exact_mod_cast h)]
  · rw [if_neg h, if_neg (by exact_mod_cast h)]
    push_cast
    norm_num [Rat.mkRat_eq_div]

theorem castList_map {α : Type} (f : α → ℚ) (l : List α) :
    castList (l.map f) = l.map (fun a => ((f a : ℚ) : ℝ)) := by
  unfold castList
  rw [List.map_map]
  rfl

theorem castList_zipWith_mul (xs ys : List ℚ) :
    castList (List.zipWith (· * ·) xs ys) =
      List.zipWith (· * ·) (castList xs) (castList ys) := by
  induction xs generalizing ys with
  | nil => simp [castList]
  | cons a as ih =>
      cases ys with
      | nil => simp [castList]
      | cons b bs =>
          simp only [List.zipWith, castList, List.map] at *
          push_cast
          rw [ih]

theorem npDot_map_div (w xs : List ℝ) (c : ℝ) :
    npDot w (xs.map (fun x => x / c)) = npDot w xs / c := by
  induction w generalizing xs with
  | nil => simp [npDot]
  | cons a as ih =>
      cases xs with
      | nil => simp [npDot]
      | cons b bs =>
          simp only [List.map, npDot]
          rw [ih, add_div, mul_div_assoc]

theorem map_sub_div (l : List ℝ) (m sd : ℝ) :
    l.map (fun h => (h - m) / sd) = (l.map (fun h => h - m)).map (fun v => v / sd) := by
  rw [List.map_map]
  rfl

theorem castLayer (rowsQ : List (List ℚ)) (v : List ℚ) :
    (rowsQ.map castList).map (fun row => leakyRelu (npDot row (castList v))) =
      castList (rowsQ.map (fun row => leakyQ (dotQ row v))) := by
  rw [List.map_map, castList_map]
  apply List.map_congr_left
  intro row _
  simp only [Function.comp_apply]
  rw [leakyQ_cast, dotQ_cast]

theorem w1R_layer (v : List ℚ) :
    NpRandom.w1R.map (fun row => leakyRelu (npDot row (castList v))) =
      castList (NpRandom.w1Q.map (fun row => leakyQ (dotQ row v))) :=
  castLayer NpRandom.w1Q v

theorem w2R_layer (v : List ℚ) :
    NpRandom.w2R.map (fun row => leakyRelu (npDot row (castList v))) =
      castList (NpRandom.w2Q.map (fun row => leakyQ (dotQ row v))) :=
  castLayer NpRandom.w2Q v

theorem castShift (l : List ℚ) :
    (castList l).map (fun h => h - npMean (castList l)) =
      castList (l.map (fun h => h - meanQ l)) := by
  rw [castList_map]
  unfold castList
  rw [List.map_map]
  apply List.map_congr_left
  intro q _
  simp only [Function.comp_apply]
  push_cast [meanQ_cast]
  rfl

theorem clipPad20_of_valid (x : List ℚ) (hlen : x.length = 20)
    (hmem : ∀ q ∈ x, 0 ≤ q ∧ q ≤ 1) :
    clipPad20 (castList x) = castList x := by
  have hcl : (castList x).map (fun v => npClip v 0 1) = castList x := by
    unfold castList
    rw [List.map_map]
    apply List.map_congr_left
    intro q hq
    simp only [Function.comp_apply]
    exact npClip_of_mem _ _ _ (by exact_mod_cast (hmem q hq).1)
      (by exact_mod_cast (hmem q hq).2)
  have hl : (castList x).length = 20 := by rw [castList_length, hlen]
  simp only [clipPad20]
  rw [hcl, hl]
  norm_num
  rw [← hl]

/-- Refinement of the real forward pass to the rational evaluator: on a
valid rational feature vector the score is the sigmoid of
`S / (sqrt V + 1e-6)` with `S` and `V` computed exactly in `ℚ`. -/
theorem neural_forward_pass_ratEval (imp x : List ℚ) (hlen : x.length = 20)
    (hmem : ∀ q ∈ x, 0 ≤ q ∧ q ≤ 1) :
    neural_forward_pass (castList imp) NpRandom.w1R NpRandom.w2R NpRandom.w3R
        (castList x) =
      sigmoid ((netSQ imp x : ℝ) /
        (Real.sqrt ((netVQ imp x : ℚ) : ℝ) + 1e-6)) := by
  unfold neural_forward_pass
  dsimp only
  rw [clipPad20_of_valid x hlen hmem, ← castList_zipWith_mul, w1R_layer, w2R_layer]
  rw [show List.map (fun row => leakyQ (dotQ row
      (List.map (fun row => leakyQ (dotQ row (List.zipWith (· * ·) x imp)))
        NpRandom.w1Q))) NpRandom.w2Q = h2Q imp x from rfl]
  rw [map_sub_div, npDot_map_div, castShift]
  rw [show NpRandom.w3R = castList NpRandom.w3Q from rfl, ← dotQ_cast]
  rw [show dotQ NpRandom.w3Q ((h2Q imp x).map (fun h => h - meanQ (h2Q imp x))) =
      netSQ imp x from rfl]
  unfold npStd
  rw [← varQ_cast]
  rw [show varQ (h2Q imp x) = netVQ imp x from rfl]
  exact npClip_of_mem _ _ _ (le_of_lt (sigmoid_pos _)) (le_of_lt (sigmoid_lt_one _))

end NNModel

namespace DyslexiaNN

open NpModel QEval NNModel

/-- Rational value of the dyslexia `feature_importance` vector
(`dyslexia_nn_model.py:403`). -/
def feature_importanceQ : List ℚ :=
  [mkRat 13 10, mkRat 6 5, mkRat 9 10,
   mkRat 7 5, mkRat 6 5, mkRat 11 10,
   mkRat 1 1, mkRat 19 20, mkRat 11 10,
   mkRat 11 10, mkRat 9 10, mkRat 4 5,
   mkRat 7 10, mkRat 4 5, mkRat 3 4,
   mkRat 9 10, mkRat 19 20, mkRat 17 20,
   mkRat 1 1, mkRat 19 20]

/-- Rational value of the 20 dyslexia features extracted from the empty
session `{}` (each entry is the guarded fallback of the corresponding
sub-routine; the equality with the extractor is proved below as
`extract_advanced_features_empty`). -/
def emptyFeatQ : List ℚ :=
  [mkRat 1 3, mkRat 1 1, mkRat 1 2, mkRat 1 2, mkRat 0 1, mkRat 0 1,
   mkRat 1 2, mkRat 1 1, mkRat 1 2, mkRat 2 5, mkRat 1 2, mkRat 1 3,
   mkRat 1 4, mkRat 0 1, mkRat 0 1, mkRat 1 2, mkRat 1 2, mkRat 0 1,
   mkRat 1 2, mkRat 1 2]

end DyslexiaNN

namespace NetEval

open NpModel QEval NNModel

section KernelFacts

attribute [local semireducible] Rat.add Rat.mul Rat.sub Rat.inv

set_option maxRecDepth 100000 in
theorem dysEmpty_feat_valid :
    DyslexiaNN.emptyFeatQ.length = 20 ∧
      ∀ q ∈ DyslexiaNN.emptyFeatQ, 0 ≤ q ∧ q ≤ 1 := by
  decide

set_option maxRecDepth 100000 in
theorem dysEmpty_net_bounds :
    0 ≤ netVQ DyslexiaNN.feature_importanceQ DyslexiaNN.emptyFeatQ ∧
      netVQ DyslexiaNN.feature_importanceQ DyslexiaNN.emptyFeatQ ≤
        mkRat 832 100 ^ 2 ∧
      mkRat 111 50 * (mkRat 832 100 + mkRat 1 1000000) ≤
        netSQ DyslexiaNN.feature_importanceQ DyslexiaNN.emptyFeatQ := by
  decide

end KernelFacts

theorem cast_832 : ((mkRat 832 100 : ℚ) : ℝ) = 8.32 := by
  rw [Rat.mkRat_eq_div]
  push_cast
  norm_num

theorem cast_222 : ((mkRat 111 50 : ℚ) : ℝ) = 2.22 := by
  rw [Rat.mkRat_eq_div]
  push_cast
  norm_num

theorem cast_eps : ((mkRat 1 1000000 : ℚ) : ℝ) = 1e-6 := by
  rw [Rat.mkRat_eq_div]
  push_cast
  norm_num

theorem exp_222_ge_nine : (9 : ℝ) ≤ Real.exp 2.22 := by
  have h := Real.sum_le_exp_of_nonneg (show (0:ℝ) ≤ 2.22 by norm_num) 9
  refine le_trans ?_ h
  rw [Finset.sum_range_succ, Finset.sum_range_succ, Finset.sum_range_succ,
    Finset.sum_range_succ, Finset.sum_range_succ, Finset.sum_range_succ,
    Finset.sum_range_succ, Finset.sum_range_succ, Finset.sum_range_succ,
    Finset.sum_range_zero]
  norm_num [Nat.factorial]

theorem sigmoid_ge_nine_tenths (z : ℝ) (h : 2.22 ≤ z) : (0.9 : ℝ) ≤ sigmoid z := by
  have hexp : Real.exp (-z) ≤ 1 / 9 := by
    have h1 : Real.exp (-z) ≤ Real.exp (-2.22) :=
      Real.exp_le_exp.mpr (neg_le_neg h)
    have h2 : Real.exp (-2.22) ≤ 1 / 9 := by
      rw [Real.exp_neg]
      rw [inv_le_comm₀ (Real.exp_pos _) (by norm_num)]
      calc (1 / 9 : ℝ)⁻¹ = 9 := by norm_num
        _ ≤ Real.exp 2.22 := exp_222_ge_nine
    exact le_trans h1 h2
  unfold sigmoid
  rw [le_div_iff₀ (by positivity)]
  nlinarith [Real.exp_pos (-z)]

/-- Score of the dyslexia scorer on the empty-session feature vector is at
least `0.9`, hence lands in the top tier. -/
theorem dysEmpty_score_ge : (0.9 : ℝ) ≤
    neural_forward_pass (castList DyslexiaNN.feature_importanceQ)
      NpRandom.w1R NpRandom.w2R NpRandom.w3R (castList DyslexiaNN.emptyFeatQ) := by
  obtain ⟨hlen, hmem⟩ := dysEmpty_feat_valid
  rw [neural_forward_pass_ratEval _ _ hlen hmem]
  apply sigmoid_ge_nine_tenths
  obtain ⟨hv0, hvle, hsle⟩ := dysEmpty_net_bounds
  set S := netSQ DyslexiaNN.feature_importanceQ DyslexiaNN.emptyFeatQ with hS
  set V := netVQ DyslexiaNN.feature_importanceQ DyslexiaNN.emptyFeatQ with hV
  have hvR : ((V : ℚ) : ℝ) ≤ (8.32 : ℝ) ^ 2 := by
    calc ((V : ℚ) : ℝ) ≤ ((mkRat 832 100 ^ 2 : ℚ) : ℝ) := by exact_mod_cast hvle
      _ = (8.32 : ℝ) ^ 2 := by push_cast [cast_832]; ring
  have hsqrt : Real.sqrt ((V : ℚ) : ℝ) ≤ 8.32 := by
    calc Real.sqrt ((V : ℚ) : ℝ) ≤ Real.sqrt ((8.32 : ℝ) ^ 2) :=
          Real.sqrt_le_sqrt hvR
      _ = 8.32 := Real.sqrt_sq (by norm_num)
  have hden : (0 : ℝ) < Real.sqrt ((V : ℚ) : ℝ) + 1e-6 := by
    have := Real.sqrt_nonneg ((V : ℚ) : ℝ)
    linarith
  have hsR : (2.22 : ℝ) * (8.32 + 1e-6) ≤ ((S : ℚ) : ℝ) := by
    calc (2.22 : ℝ) * (8.32 + 1e-6)
        = ((mkRat 111 50 * (mkRat 832 100 + mkRat 1 1000000) : ℚ) : ℝ) := by
          push_cast [cast_832, cast_222, cast_eps]
          ring
      _ ≤ ((S : ℚ) : ℝ) := by exact_mod_cast hsle
  rw [le_div_iff₀ hden]
  have hmul : (2.22 : ℝ) * (Real.sqrt ((V : ℚ) : ℝ) + 1e-6) ≤
      (2.22 : ℝ) * (8.32 + 1e-6) := by
    apply mul_le_mul_of_nonneg_left _ (by norm_num)
    linarith
  linarith

end NetEval

namespace DataModel

/-- Model of one captured stroke of the handwriting tasks: a dictionary
that may carry a raw point path (`points`) and/or precompiled per-stroke
metrics (`smoothness`, `straightness`, `pressure`, `tremor`), plus a
duration.  Absent keys are `none`. -/
structure Stroke where
  points : Option (List (ℝ × ℝ))
  duration_ms : Option ℝ
  smoothness : Option ℝ
  straightness : Option ℝ
  pressure : Option ℝ
  tremor : Option ℝ

/-- Stroke with no keys present. -/
def Stroke.empty : Stroke := ⟨none, none, none, none, none, none⟩

/-- Model of one task record (a "game"): the union of the loosely-typed
dictionary fields read by the three domain extractors and by the route-level
analyzers.  Every field is optional, `none` standing for an absent key.
The `errors` field stores the length of the `errors` list of the source
(only its length is ever read, guarded by an `isinstance(…, list)` check);
`error_sequence` stores the per-item truthiness of the error sequence. -/
structure TaskRec where
  response_times : Option (List ℝ)
  duration_ms : Option ℝ
  words_read : Option ℝ
  correct : Option ℝ
  correct_count : Option ℝ
  total : Option ℝ
  total_count : Option ℝ
  avg_speed : Option ℝ
  letter_confusion_errors : Option ℝ
  errors : Option ℕ
  word_order_errors : Option ℝ
  total_errors : Option ℝ
  task_type : Option String
  difficulty : Option String
  complexity_level : Option ℝ
  hesitation_count : Option ℝ
  self_corrections : Option ℝ
  error_recovery : Option ℝ
  visual_processing_score : Option ℝ
  cognitive_load : Option ℝ
  requires_planning : Option Bool
  avg_response_time_ms : Option ℝ
  error_sequence : Option (List Bool)
  avg_rt : Option ℝ
  rt_std : Option ℝ
  type : Option String
  operation : Option String
  complexity : Option String
  error_types : Option (List String)
  conceptual_errors : Option ℝ
  time : Option ℝ
  completion : Option ℝ
  strokes : Option (List Stroke)

/-- Task record with no keys present (the empty dictionary `{}`). -/
def TaskRec.empty : TaskRec :=
  ⟨none, none, none, none, none, none, none, none, none, none, none, none,
   none, none, none, none, none, none, none, none, none, none, none, none,
   none, none, none, none, none, none, none, none, none⟩

/-- Model of the `games` mapping of one session: an ordered association
list from task name to task record.  The empty session `{}` has
`session_data.get('games', {}) = {}`, i.e. the empty list. -/
abbrev Games : Type := List (String × TaskRec)

/-- Values of the games mapping, in insertion order (`games.values()`). -/
def Games.vals (games : Games) : List TaskRec :=
  (games : List (String × TaskRec)).map Prod.snd

/-- Games mapping sorted by task name (`sorted(games.keys())` iteration). -/
def Games.sortedVals (games : Games) : List TaskRec :=
  ((games : List (String × TaskRec)).mergeSort
    (fun a b => decide (a.1 ≤ b.1))).map Prod.snd

end DataModel

namespace DyslexiaNN

open NpModel DataModel

/-- Per-game reading-speed estimate of `_calculate_reading_speed`
(`dyslexia_nn_model.py:123`): response-times format, else the old
duration/words format (appending only when the duration is positive),
else the correct/total proxy. -/
noncomputable def readingSpeedOf (g : TaskRec) : Option ℝ :=
  match g.response_times with
  | some rts =>
      some (max 50 (200 - (if rts ≠ [] then npMean rts else 1500) / 10))
  | none =>
      match g.duration_ms, g.words_read with
      | some d, some w =>
          if d / 60000 > 0 then some (w / (d / 60000)) else none
      | _, _ =>
          let correct := g.correct.getD (g.correct_count.getD 0)
          let total := g.total.getD (g.total_count.getD 1)
          some (if total > 0 then correct / total * 100 else 50)

/-- Average reading speed in WPM (`_calculate_reading_speed`). -/
noncomputable def calculate_reading_speed (games : Games) : ℝ :=
  let speeds := games.vals.filterMap readingSpeedOf
  if speeds ≠ [] then npMean speeds else 100

/-- Per-game speed sample of `_calculate_speed_variance` and
`_calculate_speed_trend`: the mean of a present non-empty response-time
list, else the `avg_speed` field. -/
noncomputable def speedSampleOf (g : TaskRec) : Option ℝ :=
  match g.response_times with
  | some rts => if rts ≠ [] then some (npMean rts) else g.avg_speed
  | none => g.avg_speed

/-- Reading-speed variability (`_calculate_speed_variance`). -/
noncomputable def calculate_speed_variance (games : Games) : ℝ :=
  let speeds := games.vals.filterMap speedSampleOf
  if 1 < speeds.length then npStd speeds else 0

/-- Real-valued `0, 1, …, n-1` (model of `np.arange`). -/
def arangeR (n : ℕ) : List ℝ := (List.range n).map Nat.cast

/-- Speed trend over name-sorted tasks (`_calculate_speed_trend`): slope of
the degree-1 fit, clipped into `[-1, 1]` after division by 50. -/
noncomputable def calculate_speed_trend (games : Games) : ℝ :=
  let speed_over_time := games.sortedVals.filterMap speedSampleOf
  if speed_over_time.length < 2 then 0
  else npClip (polyfitSlope (arangeR speed_over_time.length) speed_over_time / 50)
    (-1) 1

/-- Overall accuracy (`_calculate_accuracy`): summed corrects over summed
totals, `0.5` when no totals accumulate. -/
noncomputable def calculate_accuracy (games : Games) : ℝ :=
  let correct_total := npSum (games.vals.map
    (fun g => g.correct.getD (g.correct_count.getD 0)))
  let total_questions := npSum (games.vals.map
    (fun g => g.total.getD (g.total_count.getD 1)))
  if total_questions > 0 then correct_total / total_questions else 0.5

/-- Letter-confusion error rate (`_calculate_letter_confusion`).  The
fallback for a missing `letter_confusion_errors` key is the length of the
`errors` list when it is a list, else `0`; the denominator accumulates
`max(total_errors default 1, total - correct)`. -/
noncomputable def calculate_letter_confusion (games : Games) : ℝ :=
  let confusion_errors := npSum (games.vals.map
    (fun g => g.letter_confusion_errors.getD ((g.errors.getD 0 : ℕ) : ℝ)))
  let total_errors := npSum (games.vals.map
    (fun g => max (g.total_errors.getD 1) (g.total.getD 1 - g.correct.getD 0)))
  min 1 (confusion_errors / max 1 total_errors)

/-- Word-order error rate (`_calculate_word_errors`). -/
noncomputable def calculate_word_errors (games : Games) : ℝ :=
  let word_errors := npSum (games.vals.map (fun g => g.word_order_errors.getD 0))
  let total_errors := npSum (games.vals.map
    (fun g => max (g.total_errors.getD 1) (g.total.getD 1 - g.correct.getD 0)))
  min 1 (word_errors / max 1 total_errors)

/-- Shared accuracy formula `correct_count / max(1, total_count)` of the
task-filtering sub-routines. -/
noncomputable def countScore (g : TaskRec) : ℝ :=
  g.correct_count.getD 0 / max 1 (g.total_count.getD 1)

/-- Phonological-awareness score (`_calculate_phoneme_awareness`):
mean `countScore` of the tasks whose `task_type` contains `phoneme`,
`0.5` when there is none. -/
noncomputable def calculate_phoneme_awareness (games : Games) : ℝ :=
  let phoneme_tasks := games.vals.filter
    (fun g => pyInStr "phoneme" (g.task_type.getD "").toLower)
  if phoneme_tasks.isEmpty then 0.5
  else npMean (phoneme_tasks.map countScore)

/-- Performance consistency (`_calculate_consistency`): inverse coefficient
of variation of the per-game accuracies, `1` with fewer than two samples. -/
noncomputable def calculate_consistency (games : Games) : ℝ :=
  let accuracies := games.vals.filterMap (fun g =>
    let correct := g.correct.getD (g.correct_count.getD 0)
    let total := g.total.getD (g.total_count.getD 1)
    if total > 0 then some (correct / total) else none)
  if accuracies.length < 2 then 1
  else max 0 (1 - npStd accuracies / (npMean accuracies + 0.1))

/-- Attention stability (`_calculate_attention_stability`): dispersion of
the truthy positions of each long-enough error sequence. -/
noncomputable def calculate_attention_stability (games : Games) : ℝ :=
  let error_patterns := games.vals.filterMap (fun g =>
    let errors := g.error_sequence.getD []
    if 5 < errors.length then
      some (npStd (errors.enum.filterMap
        (fun p => if p.2 then some ((p.1 : ℕ) : ℝ) else none)))
    else none)
  if error_patterns = [] then 0.5
  else min 1 (npMean error_patterns / 10)

/-- Easy-versus-hard accuracy gap (`_calculate_difficulty_gap`): defaults
`0.8` and `0.4` stand in for missing easy or hard samples. -/
noncomputable def calculate_difficulty_gap (games : Games) : ℝ :=
  let accOf := fun (g : TaskRec) =>
    let correct := g.correct.getD (g.correct_count.getD 0)
    let total := g.total.getD (g.total_count.getD 1)
    if total > 0 then correct / max 1 total else 0
  let easy_acc := (games.vals.filter
    (fun g => g.difficulty.getD "medium" = "easy")).map accOf
  let hard_acc := (games.vals.filter
    (fun g => g.difficulty.getD "medium" = "hard")).map accOf
  let easy_mean := if easy_acc ≠ [] then npMean easy_acc else 0.8
  let hard_mean := if hard_acc ≠ [] then npMean hard_acc else 0.4
  max 0 (easy_mean - hard_mean)

/-- Complex-word handling (`_calculate_complexity_score`). -/
noncomputable def calculate_complexity_score (games : Games) : ℝ :=
  let complex_tasks := games.vals.filter (fun g => 7 < g.complexity_level.getD 0)
  if complex_tasks.isEmpty then 0.5
  else npMean (complex_tasks.map countScore)

/-- Per-game response-time sample of `_calculate_avg_response_time` and
`_calculate_rt_variance`. -/
noncomputable def rtSampleOf (g : TaskRec) : Option ℝ :=
  match g.response_times with
  | some rts => if rts ≠ [] then some (npMean rts) else g.avg_response_time_ms
  | none => g.avg_response_time_ms

/-- Average response time (`_calculate_avg_response_time`), defaulting to
`2000` ms. -/
noncomputable def calculate_avg_response_time (games : Games) : ℝ :=
  let times := games.vals.filterMap rtSampleOf
  if times ≠ [] then npMean times else 2000

/-- Response-time variability (`_calculate_rt_variance`), defaulting to
`500`. -/
noncomputable def calculate_rt_variance (games : Games) : ℝ :=
  let times := games.vals.filterMap rtSampleOf
  if 1 < times.length then npStd times else 500

/-- Hesitation rate (`_calculate_hesitation_score`). -/
noncomputable def calculate_hesitation_score (games : Games) : ℝ :=
  let hesitations := npSum (games.vals.map (fun g => g.hesitation_count.getD 0))
  let total_items := npSum (games.vals.map (fun g => g.total_count.getD 1))
  min 1 (hesitations / max 1 total_items)

/-- Self-correction rate (`_calculate_correction_rate`). -/
noncomputable def calculate_correction_rate (games : Games) : ℝ :=
  let corrections := npSum (games.vals.map (fun g => g.self_corrections.getD 0))
  let total_errors := npSum (games.vals.map (fun g => g.total_errors.getD 1))
  min 1 (corrections / max 1 total_errors)

/-- Learning-from-errors score (`_calculate_learning_rate`). -/
noncomputable def calculate_learning_rate (games : Games) : ℝ :=
  let learning_scores := games.vals.filterMap (fun g => g.error_recovery)
  if learning_scores ≠ [] then npMean learning_scores else 0.5

/-- Visual-processing score (`_calculate_visual_processing`): sum of the
field over all games divided by the number of games carrying it. -/
noncomputable def calculate_visual_processing (games : Games) : ℝ :=
  let visual_score := npSum (games.vals.map
    (fun g => g.visual_processing_score.getD 0))
  let count := (games.vals.filter (fun g => g.visual_processing_score.isSome)).length
  if 0 < count then visual_score / count else 0.5

/-- Cognitive-load indicator (`_calculate_cognitive_load`). -/
noncomputable def calculate_cognitive_load (games : Games) : ℝ :=
  npSum (games.vals.map (fun g => g.cognitive_load.getD 0.5)) /
    ((max 1 games.vals.length : ℕ) : ℝ)

/-- Working-memory indicator (`_calculate_working_memory`). -/
noncomputable def calculate_working_memory (games : Games) : ℝ :=
  let memory_tasks := games.vals.filter
    (fun g => pyInStr "memory" (g.task_type.getD "").toLower)
  if memory_tasks.isEmpty then 0.5
  else npMean (memory_tasks.map countScore)

/-- Executive-function score (`_calculate_executive_function`). -/
noncomputable def calculate_executive_function (games : Games) : ℝ :=
  let exec_tasks := games.vals.filter (fun g => g.requires_planning.getD false)
  if exec_tasks.isEmpty then 0.5
  else npMean (exec_tasks.map countScore)

/-- Normalisation helper `_normalize` shared by the models. -/
noncomputable def normalize (value min_val max_val : ℝ) : ℝ :=
  if min_val = max_val then 0.5
  else npClip ((value - min_val) / (max_val - min_val)) 0 1

/-- The 20-feature extraction of `extract_advanced_features`
(`dyslexia_nn_model.py:26`), in source order F1 to F20. -/
noncomputable def extract_advanced_features (games : Games) : List ℝ :=
  [normalize (calculate_reading_speed games) 0 300,
   1 - min 1 (calculate_speed_variance games),
   normalize (calculate_speed_trend games) (-1) 1,
   calculate_accuracy games,
   calculate_letter_confusion games,
   calculate_word_errors games,
   calculate_phoneme_awareness games,
   calculate_consistency games,
   calculate_attention_stability games,
   calculate_difficulty_gap games,
   calculate_complexity_score games,
   normalize (calculate_avg_response_time games) 500 5000,
   min 1 (calculate_rt_variance games / 2000),
   calculate_hesitation_score games,
   calculate_correction_rate games,
   calculate_learning_rate games,
   calculate_visual_processing games,
   calculate_cognitive_load games,
   calculate_working_memory games,
   calculate_executive_function games]

theorem dyslexia_features_length (games : Games) :
    (extract_advanced_features games).length = 20 := rfl

end DyslexiaNN

namespace DyslexiaNN

open NpModel DataModel QEval

/-- The single-task session of the spec's worked example:
`{"correct": 8, "total": 10, "avg_rt": 1000}`. -/
def exampleTask : TaskRec :=
  { TaskRec.empty with correct := some 8, total := some 10, avg_rt := some 1000 }

theorem calculate_accuracy_example :
    calculate_accuracy [("task1", exampleTask)] = 0.8 := by
  unfold calculate_accuracy
  simp [Games.vals, exampleTask, TaskRec.empty, npSum]
  norm_num

theorem extract_advanced_features_empty :
    extract_advanced_features ([] : Games) = castList emptyFeatQ := by
  unfold extract_advanced_features castList emptyFeatQ
  unfold calculate_reading_speed calculate_speed_variance calculate_speed_trend
    calculate_accuracy calculate_letter_confusion calculate_word_errors
    calculate_phoneme_awareness calculate_consistency
    calculate_attention_stability calculate_difficulty_gap
    calculate_complexity_score calculate_avg_response_time
    calculate_rt_variance calculate_hesitation_score calculate_correction_rate
    calculate_learning_rate calculate_visual_processing
    calculate_cognitive_load calculate_working_memory
    calculate_executive_function normalize
  simp [Games.vals, Games.sortedVals, npSum, npMean, npClip, Rat.mkRat_eq_div]
  norm_num

end DyslexiaNN

namespace MLModels

/-- Domain-level prediction of `predict_risk` of a domain model: risk tier,
score and confidence.  The `recommendations` and `detailed_analysis` entries
of the source dictionary are static presentation data (a lookup table of
guidance strings keyed by the tier, and a regrouping of feature values) and
are not part of this embedding; the orchestrator-level claims treat domain
models as parameters carrying the full result. -/
structure DomainPrediction where
  risk_level : String
  risk_score : ℝ
  confidence : ℝ

end MLModels

namespace DyslexiaNN

open NpModel NNModel QEval MLModels

/-- Real-valued dyslexia `feature_importance` vector. -/
noncomputable def feature_importance : List ℝ := castList feature_importanceQ

/-- Dyslexia `_neural_forward_pass`: the shared cascade instantiated with
the dyslexia importance vector and the seed-42 weights (the source
regenerates the same `w1, w2, w3` inside every call via
`np.random.seed(42)`). -/
noncomputable def neural_forward_pass (features : List ℝ) : ℝ :=
  NNModel.neural_forward_pass feature_importance
    NpRandom.w1R NpRandom.w2R NpRandom.w3R features

/-- Dyslexia `predict_risk` (`dyslexia_nn_model.py:356`): extract features,
score them, map the score to a tier and compute the confidence. -/
noncomputable def predict_risk (games : DataModel.Games) : DomainPrediction :=
  let features := extract_advanced_features games
  let risk_score := neural_forward_pass features
  { risk_level := get_risk_level risk_score
    risk_score := risk_score
    confidence := calculate_confidence features risk_score }

/-- On the empty session the dyslexia score is at least 0.9. -/
theorem empty_score_ge :
    (0.9 : ℝ) ≤ neural_forward_pass (extract_advanced_features ([] : DataModel.Games)) := by
  rw [extract_advanced_features_empty]
  exact NetEval.dysEmpty_score_ge

/-- On the empty session the dyslexia risk tier is `High` (score ≈ 0.904
with the seed-42 weights, at or above the 0.90 threshold). -/
theorem empty_risk_level_high :
    (predict_risk ([] : DataModel.Games)).risk_level = "High" := by
  unfold predict_risk
  exact get_risk_level_high _ (le_trans (by norm_num) empty_score_ge)

end DyslexiaNN

namespace DataModel

/-- Association lookup `games.get(name)` on the games mapping. -/
def Games.get (games : Games) (k : String) : Option TaskRec :=
  (games.find? (fun p => p.1 = k)).map Prod.snd

/-- Python `games.get(a) or games.get(b)`: the first present record wins.
The typed model equates presence with truthiness (an explicitly present
empty task dictionary, which Python would also treat as falsy, is not
distinguished). -/
def Games.getOr (games : Games) (ks : List String) : Option TaskRec :=
  ks.firstM games.get

end DataModel

namespace DyscalculiaNN

open NpModel DataModel

/-- Subitizing score (`dyscalculia_nn_model.py:121`,
`_calculate_subitizing_score`).  The `avg_rt` default reads the head of a
present `response_times` list (Python would raise on a present empty list;
the typed model returns the 1000 fallback there), and the
`isinstance(avg_rt, list)` re-coercion branch cannot fire on the typed
field. -/
noncomputable def calculate_subitizing_score (games : Games) : ℝ :=
  match games.getOr ["subitizing", "number_sense", "number_recognition"] with
  | none => 0.5
  | some g =>
      let correct := g.correct.getD 0
      let total := g.total.getD 1
      let avg_rt := g.avg_rt.getD
        (match g.response_times with
         | some rts => rts.headD 1000
         | none => 1000)
      let accuracy := correct / max 1 total
      let speed_factor := if avg_rt < 1500 then 1 else max 0 ((4000 - avg_rt) / 2500)
      accuracy * 0.7 + max 0 speed_factor * 0.3

/-- Number-comparison score (`_calculate_comparison_score`): named lookups,
then the first task typed `comparison`/`number_comparison`, then the
`number_sense` fallback. -/
noncomputable def calculate_comparison_score (games : Games) : ℝ :=
  let byName := games.getOr ["comparison", "number_comparison"]
  let byType := games.vals.find? (fun g =>
    g.type = some "comparison" ∨ g.type = some "number_comparison")
  match (byName <|> byType) <|> games.get "number_sense" with
  | none => 0.5
  | some g => g.correct.getD 0 / max 1 (g.total.getD 1)

/-- Accuracy `correct / max(1, total)` shared by the dyscalculia
sub-routines. -/
noncomputable def accScore (g : TaskRec) : ℝ :=
  g.correct.getD 0 / max 1 (g.total.getD 1)

/-- Magnitude-understanding score (`_calculate_magnitude_score`). -/
noncomputable def calculate_magnitude_score (games : Games) : ℝ :=
  let magnitude_games := games.vals.filter (fun g => g.type = some "magnitude")
  if magnitude_games.isEmpty then 0.5
  else npMean (magnitude_games.map accScore)

/-- Counting score (`_calculate_counting_score`). -/
noncomputable def calculate_counting_score (games : Games) : ℝ :=
  match games.getOr ["counting", "number_counting", "number_sense"] with
  | none => 0.5
  | some g =>
      let correct := g.correct.getD 0
      let total := g.total.getD 1
      let avg_rt :=
        match g.response_times with
        | some rts => if rts ≠ [] then npMean rts else g.avg_rt.getD 1500
        | none => g.avg_rt.getD 1500
      let accuracy := correct / max 1 total
      let speed_bonus :=
        if 0 < avg_rt then min 1 (max 0 ((4000 - avg_rt) / 2500)) else 0.5
      accuracy * 0.6 + speed_bonus * 0.4

/-- Sequencing score (`_calculate_sequencing_score`). -/
noncomputable def calculate_sequencing_score (games : Games) : ℝ :=
  let byName := games.getOr ["sequencing", "number_sequencing"]
  let byType := games.vals.find? (fun g =>
    g.type = some "sequencing" ∨ g.type = some "number_sequencing")
  match byName <|> byType with
  | none => 0.5
  | some g => g.correct.getD 0 / max 1 (g.total.getD 1)

/-- Skip-counting score (`_calculate_skip_counting`). -/
noncomputable def calculate_skip_counting (games : Games) : ℝ :=
  let skip_games := games.vals.filter (fun g => g.type = some "skip_count")
  if skip_games.isEmpty then 0.5
  else npMean (skip_games.map accScore)

/-- Operation-specific score (`_calculate_operation_score`): tasks whose
`operation` or `type` tag equals the operation, else the generic
`operations` task, else 0.5. -/
noncomputable def calculate_operation_score (games : Games) (operation : String) : ℝ :=
  let op_games := games.vals.filter (fun g =>
    g.operation = some operation ∨ g.type = some operation)
  let op_games :=
    if op_games.isEmpty then
      match games.get "operations" with
      | some g => [g]
      | none => []
    else op_games
  if op_games.isEmpty then 0.5
  else npMean (op_games.map accScore)

/-- Problems-per-minute estimate (`_calculate_calculation_speed`). -/
noncomputable def calculate_calculation_speed (games : Games) : ℝ :=
  let total_problems := npSum (games.vals.map (fun g => g.total.getD 0))
  let total_time_ms := npSum (games.vals.map (fun g =>
    match g.response_times with
    | some rts => npSum rts
    | none => g.duration_ms.getD (g.time.getD 0 * 1000)))
  if total_time_ms = 0 then 0
  else if 0 < total_time_ms / 60000 then total_problems / (total_time_ms / 60000)
  else 0

/-- Speed-accuracy tradeoff (`_calculate_speed_accuracy_ratio`): per-game
accuracy and per-game one-task calculation speed, combined 60/40. -/
noncomputable def calculate_speed_accuracy_ratio (games : Games) : ℝ :=
  let accuracies := games.vals.map accScore
  let speeds := games.vals.map (fun g =>
    calculate_calculation_speed [(("game" : String), g)])
  if accuracies.isEmpty ∨ speeds.isEmpty then 0.5
  else npMean accuracies * 0.6 + npMean speeds / 20 * 0.4

/-- Response-time consistency (`_calculate_rt_consistency`): pooled raw
response times (or the `rt_std` summary when both summary keys are
present), scored by the inverse coefficient of variation. -/
noncomputable def calculate_rt_consistency (games : Games) : ℝ :=
  let all_response_times := games.vals.flatMap (fun g =>
    match g.response_times with
    | some rts => if rts ≠ [] then rts else
        (if g.avg_rt.isSome ∧ g.rt_std.isSome then [g.rt_std.getD 0] else [])
    | none => if g.avg_rt.isSome ∧ g.rt_std.isSome then [g.rt_std.getD 0] else [])
  if all_response_times.isEmpty then 0.5
  else
    let cv := npStd all_response_times / (npMean all_response_times + 1)
    max 0 (1 - min 1 cv)

/-- Multi-step problem solving (`_calculate_multistep_score`). -/
noncomputable def calculate_multistep_score (games : Games) : ℝ :=
  let multistep_games := games.vals.filter (fun g => g.complexity = some "multistep")
  if multistep_games.isEmpty then 0.5
  else npMean (multistep_games.map accScore)

/-- Memory span (`_calculate_memory_span`): tasks whose `type` contains
`memory`. -/
noncomputable def calculate_memory_span (games : Games) : ℝ :=
  let memory_games := games.vals.filter (fun g =>
    pyInStr "memory" (g.type.getD "").toLower)
  if memory_games.isEmpty then 0.5
  else npMean (memory_games.map accScore)

/-- Systematic-error detection (`_calculate_systematic_errors`): count how
many distinct error types recur more than twice, against a third of the
total error count. -/
noncomputable def calculate_systematic_errors (games : Games) : ℝ :=
  let all_errors := games.vals.flatMap (fun g => g.error_types.getD [])
  if all_errors.isEmpty then 0
  else
    let systematic_count :=
      (all_errors.dedup.filter (fun e => 2 < all_errors.count e)).length
    let total_errors := all_errors.length
    min 1 ((systematic_count : ℝ) / max 1 ((total_errors : ℝ) / 3))

/-- Conceptual-error rate (`_calculate_conceptual_errors`). -/
noncomputable def calculate_conceptual_errors (games : Games) : ℝ :=
  let conceptual_errors := npSum (games.vals.map (fun g => g.conceptual_errors.getD 0))
  let total_errors := npSum (games.vals.map (fun g => g.total_errors.getD 1))
  min 1 (conceptual_errors / max 1 total_errors)

/-- Error-recovery ability (`_calculate_error_recovery`). -/
noncomputable def calculate_error_recovery (games : Games) : ℝ :=
  let recoveries := npSum (games.vals.map (fun g => g.self_corrections.getD 0))
  let total_errors := npSum (games.vals.map (fun g => g.total_errors.getD 1))
  min 1 (recoveries / max 1 total_errors)

/-- Word-problem comprehension (`_calculate_comprehension_score`). -/
noncomputable def calculate_comprehension_score (games : Games) : ℝ :=
  let word_problem_games := games.vals.filter (fun g =>
    pyInStr "word_problem" (g.type.getD "").toLower)
  if word_problem_games.isEmpty then 0.5
  else npMean (word_problem_games.map accScore)

/-- Fact fluency (`_calculate_fact_fluency`): accuracy and recall speed of
the `fact`-typed tasks, combined 70/30. -/
noncomputable def calculate_fact_fluency (games : Games) : ℝ :=
  let fact_games := games.vals.filter (fun g =>
    pyInStr "fact" (g.type.getD "").toLower)
  if fact_games.isEmpty then 0.5
  else
    npMean (fact_games.map (fun g =>
      let accuracy := g.correct.getD 0 / max 1 (g.total.getD 1)
      let speed := max 0 (1 - (g.avg_rt.getD 1000 - 500) / 2000)
      accuracy * 0.7 + speed * 0.3))

/-- Reasoning score (`_calculate_reasoning_score`). -/
noncomputable def calculate_reasoning_score (games : Games) : ℝ :=
  let reasoning_games := games.vals.filter (fun g =>
    pyInStr "reasoning" (g.type.getD "").toLower)
  if reasoning_games.isEmpty then 0.5
  else npMean (reasoning_games.map accScore)

/-- The 20-feature extraction of `extract_advanced_features`
(`dyscalculia_nn_model.py:25`), in source order F1 to F20. -/
noncomputable def extract_advanced_features (games : Games) : List ℝ :=
  [calculate_subitizing_score games,
   calculate_comparison_score games,
   calculate_magnitude_score games,
   calculate_counting_score games,
   calculate_sequencing_score games,
   calculate_skip_counting games,
   calculate_operation_score games "addition",
   calculate_operation_score games "subtraction",
   calculate_operation_score games "multiplication",
   DyslexiaNN.normalize (calculate_calculation_speed games) 0 20,
   calculate_speed_accuracy_ratio games,
   calculate_rt_consistency games,
   calculate_multistep_score games,
   calculate_memory_span games,
   calculate_systematic_errors games,
   calculate_conceptual_errors games,
   calculate_error_recovery games,
   calculate_comprehension_score games,
   calculate_fact_fluency games,
   calculate_reasoning_score games]

theorem dyscalculia_features_length (games : Games) :
    (extract_advanced_features games).length = 20 := rfl

/-- Rational value of the dyscalculia `feature_importance` vector
(`dyscalculia_nn_model.py:423`). -/
def feature_importanceQ : List ℚ :=
  [mkRat 6 5, mkRat 11 10, mkRat 1 1,
   mkRat 11 10, mkRat 19 20, mkRat 4 5,
   mkRat 13 10, mkRat 6 5, mkRat 11 10,
   mkRat 7 10, mkRat 9 10, mkRat 3 5,
   mkRat 1 1, mkRat 19 20, mkRat 7 10,
   mkRat 4 5, mkRat 3 4, mkRat 7 10,
   mkRat 17 20, mkRat 9 10]

/-- Real-valued dyscalculia `feature_importance` vector. -/
noncomputable def feature_importance : List ℝ := QEval.castList feature_importanceQ

/-- Dyscalculia `_neural_forward_pass`: the shared cascade with the
dyscalculia importance vector and the same seed-42 weights. -/
noncomputable def neural_forward_pass (features : List ℝ) : ℝ :=
  NNModel.neural_forward_pass feature_importance
    NpRandom.w1R NpRandom.w2R NpRandom.w3R features

/-- Dyscalculia `predict_risk` (`dyscalculia_nn_model.py:377`). -/
noncomputable def predict_risk (games : Games) : MLModels.DomainPrediction :=
  let features := extract_advanced_features games
  let risk_score := neural_forward_pass features
  { risk_level := NNModel.get_risk_level risk_score
    risk_score := risk_score
    confidence := NNModel.calculate_confidence features risk_score }

end DyscalculiaNN

namespace DysgraphiaNN

open NpModel DataModel

/-- Euclidean distance between two points. -/
noncomputable def dist2 (p q : ℝ × ℝ) : ℝ :=
  Real.sqrt ((q.1 - p.1) ^ 2 + (q.2 - p.2) ^ 2)

/-- Distances between consecutive points of a path. -/
noncomputable def pathDists (points : List (ℝ × ℝ)) : List ℝ :=
  (points.zip points.tail).map (fun pq => dist2 pq.1 pq.2)

/-- Total length of a path (`sum of point-to-point distances`). -/
noncomputable def pathLength (points : List (ℝ × ℝ)) : ℝ := npSum (pathDists points)

/-- Consecutive motion vectors of a path. -/
def pathVecs (points : List (ℝ × ℝ)) : List (ℝ × ℝ) :=
  (points.zip points.tail).map (fun pq => (pq.2.1 - pq.1.1, pq.2.2 - pq.1.2))

/-- Turn angles between consecutive motion vectors, keeping only pairs of
vectors of positive magnitude (`_calculate_stroke_smoothness` inner loop):
`acos(clip(dot / (|v1| |v2|), -1, 1))`. -/
noncomputable def turnAngles (points : List (ℝ × ℝ)) : List ℝ :=
  let vectors := pathVecs points
  (vectors.zip vectors.tail).filterMap (fun vv =>
    let v1 := vv.1
    let v2 := vv.2
    let dot := v1.1 * v2.1 + v1.2 * v2.2
    let mag1 := Real.sqrt (v1.1 ^ 2 + v1.2 ^ 2)
    let mag2 := Real.sqrt (v2.1 ^ 2 + v2.2 ^ 2)
    if 0 < mag1 ∧ 0 < mag2 then
      some (Real.arccos (npClip (dot / (mag1 * mag2)) (-1) 1))
    else none)

/-- Smoothness of a set of strokes from raw points
(`_calculate_stroke_smoothness`, `dysgraphia_nn_model.py:142`): one minus
the turn-angle variance scaled by `π/2`, clamped below at 0; `0.5` without
strokes or without usable angles. -/
noncomputable def calculate_stroke_smoothness (strokes : List Stroke) : ℝ :=
  if strokes.isEmpty then 0.5
  else
    let all_angles := strokes.flatMap (fun stroke =>
      let points := stroke.points.getD []
      if points.length < 3 then [] else turnAngles points)
    if all_angles.isEmpty then 0.5
    else max 0 (1 - npVar all_angles / (Real.pi / 2))

/-- Whether a stroke list is in the precomputed-metrics format for a given
selector (`strokes and isinstance(strokes[0], dict) and key in strokes[0]`). -/
def newFormat (strokes : List Stroke) (sel : Stroke → Option ℝ) : Bool :=
  match strokes.head? with
  | some s => (sel s).isSome
  | none => false

/-- Presence of the `points` key on the first stroke
(`strokes and isinstance(strokes[0], dict) and 'points' in strokes[0]`). -/
def headHasPoints (strokes : List Stroke) : Bool :=
  match strokes.head? with
  | some s => s.points.isSome
  | none => false

/-- Overall smoothness (`_calculate_overall_smoothness`): per game, average
precomputed per-stroke smoothness when present, else recompute from raw
points; `0.5` with no games. -/
noncomputable def calculate_overall_smoothness (games : Games) : ℝ :=
  let smoothness_scores := games.vals.map (fun g =>
    let strokes := g.strokes.getD []
    if newFormat strokes (fun s => s.smoothness) then
      npMean (strokes.map (fun s => s.smoothness.getD 0.5))
    else calculate_stroke_smoothness strokes)
  if smoothness_scores.isEmpty then 0.5 else npMean smoothness_scores

/-- Deviation of a point path from its least-squares line
(`_calculate_line_deviation`, `dysgraphia_nn_model.py:207`): the mean
absolute residual of the degree-1 fit, divided by `max(1, y-range)`;
`0` for paths of fewer than three points. -/
noncomputable def calculate_line_deviation (points : List (ℝ × ℝ)) : ℝ :=
  if points.length < 3 then 0
  else
    let xs := points.map Prod.fst
    let ys := points.map Prod.snd
    let slope := polyfitSlope xs ys
    let intercept := polyfitIntercept xs ys
    let residuals := points.map (fun p => |p.2 - (slope * p.1 + intercept)|)
    let y_range := max 1 (npMax ys - npMin ys)
    npMean residuals / y_range

/-- Line straightness (`_calculate_straightness`): precomputed per-stroke
straightness when present; else, for `trace_line` tasks, one minus the
clamped line deviation of each long-enough stroke; `0.5` without samples. -/
noncomputable def calculate_straightness (games : Games) : ℝ :=
  let straightness_scores := games.vals.flatMap (fun g =>
    let strokes := g.strokes.getD []
    if newFormat strokes (fun s => s.straightness) then
      [npMean (strokes.map (fun s => s.straightness.getD 0.5))]
    else if pyInStr "trace_line" (g.type.getD "").toLower then
      strokes.filterMap (fun stroke =>
        let points := stroke.points.getD []
        if 5 < points.length then
          some (1 - min 1 (calculate_line_deviation points))
        else none)
    else [])
  if straightness_scores.isEmpty then 0.5 else npMean straightness_scores

/-- Pressure consistency (`_calculate_pressure_consistency`): one minus the
dispersion of precomputed pressures, else the raw per-stroke velocity
dispersion, averaged and rescaled by 50. -/
noncomputable def calculate_pressure_consistency (games : Games) : ℝ :=
  let velocity_variations := games.vals.flatMap (fun g =>
    let strokes := g.strokes.getD []
    if newFormat strokes (fun s => s.pressure) then
      let pressures := strokes.map (fun s => s.pressure.getD 0.5)
      if pressures.isEmpty then [] else [1 - npStd pressures]
    else
      strokes.filterMap (fun stroke =>
        let points := stroke.points.getD []
        if points.length < 2 then none
        else
          let velocities := pathDists points
          if velocities.isEmpty then none else some (npStd velocities)))
  if velocity_variations.isEmpty then 0.5
  else 1 - min 1 (npMean velocity_variations / 50)

/-- Second differences of a coordinate list (`np.diff` applied twice). -/
def secondDiffs (vals : List ℝ) : List ℝ :=
  let dv := (vals.zip vals.tail).map (fun pq => pq.2 - pq.1)
  (dv.zip dv.tail).map (fun pq => pq.2 - pq.1)

/-- Tremor detection (`_calculate_tremor`): inverted precomputed tremor
values when present, else the variance of the second-order coordinate
differences; the average is inverted when it is small (new-format range)
and rescaled by 100 otherwise. -/
noncomputable def calculate_tremor (games : Games) : ℝ :=
  let tremor_scores := games.vals.flatMap (fun g =>
    let strokes := g.strokes.getD []
    if newFormat strokes (fun s => s.tremor) then
      strokes.map (fun s => 1 - s.tremor.getD 0.5)
    else
      strokes.filterMap (fun stroke =>
        let points := stroke.points.getD []
        if points.length < 5 then none
        else
          let x_vals := points.map Prod.fst
          let y_vals := points.map Prod.snd
          if 3 < x_vals.length then
            let d2x := secondDiffs x_vals
            let tremor_x := if 0 < d2x.length then npVar d2x else 0
            let d2y := secondDiffs y_vals
            let tremor_y := if 0 < d2y.length then npVar d2y else 0
            some ((tremor_x + tremor_y) / 2)
          else none))
  if tremor_scores.isEmpty then 0.5
  else
    let avg_tremor := npMean tremor_scores
    if avg_tremor < 1 then 1 - avg_tremor else min 1 (avg_tremor / 100)

/-- Writing speed in pixels per second (`_calculate_writing_speed`):
distance over duration for raw-point strokes, else a completion-based
proxy; durations that look like seconds (below 100) are converted to
milliseconds. -/
noncomputable def calculate_writing_speed (games : Games) : ℝ :=
  let speeds := games.vals.filterMap (fun g =>
    let duration_ms0 := g.time.getD (g.duration_ms.getD 1000)
    let duration_ms := if duration_ms0 < 100 then duration_ms0 * 1000 else duration_ms0
    let strokes := g.strokes.getD []
    if 0 < duration_ms ∧ ¬strokes.isEmpty then
      if headHasPoints strokes then
        let total_distance := npSum (strokes.map (fun s => pathLength (s.points.getD [])))
        some (total_distance / (duration_ms / 1000))
      else
        let completion := g.completion.getD 1
        let time_per_completion := duration_ms / (completion + 0.1)
        some (500 / max (time_per_completion / 1000) 0.1)
    else none)
  if speeds.isEmpty then 100 else npMean speeds

/-- Per-stroke speeds of `_calculate_speed_variance`
(`dysgraphia_nn_model.py:352`): distance over the stroke duration, the
duration defaulting to an equal share of the game duration. -/
noncomputable def strokeSpeeds (g : TaskRec) : List ℝ :=
  let duration_ms := g.duration_ms.getD 1000
  let strokes := g.strokes.getD []
  if 0 < duration_ms then
    strokes.filterMap (fun stroke =>
      let points := stroke.points.getD []
      if 1 < points.length then
        let stroke_duration := stroke.duration_ms.getD (duration_ms / strokes.length)
        if 0 < stroke_duration then
          some (pathLength points / (stroke_duration / 1000))
        else none
      else none)
  else []

/-- Writing-speed variability (`_calculate_speed_variance`). -/
noncomputable def calculate_speed_variance (games : Games) : ℝ :=
  let speeds := games.vals.flatMap strokeSpeeds
  if 1 < speeds.length then npStd speeds else 0

/-- Per-stroke speeds of `_calculate_speed_fatigue`: as `strokeSpeeds` but
with a flat 100 ms default stroke duration. -/
noncomputable def fatigueSpeeds (g : TaskRec) : List ℝ :=
  let duration_ms := g.duration_ms.getD 1000
  let strokes := g.strokes.getD []
  if 0 < duration_ms then
    strokes.filterMap (fun stroke =>
      let points := stroke.points.getD []
      if 1 < points.length then
        let stroke_duration := stroke.duration_ms.getD 100
        if 0 < stroke_duration then
          some (pathLength points / (stroke_duration / 1000))
        else none
      else none)
  else []

/-- Speed fatigue (`_calculate_speed_fatigue`, `dysgraphia_nn_model.py:374`):
negated degree-1 slope of the stroke-speed sequence, scaled by 50 and
clamped into `[0,1]`; `0` with fewer than two speed samples. -/
noncomputable def calculate_speed_fatigue (games : Games) : ℝ :=
  let speed_sequence := games.vals.flatMap fatigueSpeeds
  if speed_sequence.length < 2 then 0
  else
    let slope := polyfitSlope (DyslexiaNN.arangeR speed_sequence.length) speed_sequence
    min 1 (max 0 (-slope / 50))

/-- Bounding-box diagonal of a stroke (`_calculate_size_consistency`). -/
noncomputable def strokeSize (points : List (ℝ × ℝ)) : ℝ :=
  let xs := points.map Prod.fst
  let ys := points.map Prod.snd
  Real.sqrt ((npMax xs - npMin xs) ^ 2 + (npMax ys - npMin ys) ^ 2)

/-- Letter-size consistency (`_calculate_size_consistency`): completion as a
proxy in the precomputed format, else the dispersion of bounding-box
diagonals; single samples are returned unchanged. -/
noncomputable def calculate_size_consistency (games : Games) : ℝ :=
  let sizes := games.vals.flatMap (fun g =>
    let strokes := g.strokes.getD []
    if ¬strokes.isEmpty ∧ ¬headHasPoints strokes then
      [g.completion.getD 1]
    else
      strokes.filterMap (fun stroke =>
        let points := stroke.points.getD []
        if 0 < points.length then
          let size := strokeSize points
          if 0 < size then some size else none
        else none))
  if sizes.length < 1 then 0.5
  else if sizes.length < 2 then sizes.headD 0.5
  else
    let cv := if 0 < npMean sizes then npStd sizes / npMean sizes else 0
    1 - min 1 cv

/-- Gaps between the end of one stroke and the start of the next
(`_calculate_spacing_uniformity` inner loop). -/
noncomputable def strokeGaps (strokes : List Stroke) : List ℝ :=
  (strokes.zip strokes.tail).filterMap (fun pq =>
    let prev_points := pq.1.points.getD []
    let curr_points := pq.2.points.getD []
    match prev_points.getLast?, curr_points.head? with
    | some lastp, some firstc => some (dist2 lastp firstc)
    | _, _ => none)

/-- Spacing uniformity (`_calculate_spacing_uniformity`). -/
noncomputable def calculate_spacing_uniformity (games : Games) : ℝ :=
  let spaces := games.vals.flatMap (fun g =>
    let strokes := g.strokes.getD []
    if ¬strokes.isEmpty ∧ ¬headHasPoints strokes then
      [g.completion.getD 1]
    else strokeGaps strokes)
  if spaces.length < 1 then 0.5
  else if spaces.length < 2 then spaces.headD 0.5
  else
    let cv := if 0 < npMean spaces then npStd spaces / npMean spaces else 0
    1 - min 1 cv

/-- Shape accuracy (`_calculate_shape_accuracy`): completion proxy in the
precomputed format, else the dispersion of positive stroke lengths of
`shape`-typed or stroke-bearing games. -/
noncomputable def calculate_shape_accuracy (games : Games) : ℝ :=
  let shape_scores := games.vals.filterMap (fun g =>
    let strokes := g.strokes.getD []
    if ¬strokes.isEmpty ∧ ¬headHasPoints strokes then
      some (g.completion.getD 1)
    else if pyInStr "shape" (g.type.getD "").toLower ∨ 0 < strokes.length then
      if 0 < strokes.length then
        let stroke_lengths := strokes.filterMap (fun stroke =>
          let points := stroke.points.getD []
          let len := if 1 < points.length then pathLength points else 0
          if 0 < len then some len else none)
        if ¬stroke_lengths.isEmpty then
          let cv := if 0 < npMean stroke_lengths then
            npStd stroke_lengths / npMean stroke_lengths else 0
          some (1 - min 1 cv)
        else none
      else none
    else none)
  if shape_scores.isEmpty then 0.5 else npMean shape_scores

/-- Overall legibility (`_calculate_legibility`): mean of smoothness, size
consistency, spacing uniformity and inverted tremor. -/
noncomputable def calculate_legibility (games : Games) : ℝ :=
  npMean [calculate_overall_smoothness games,
    calculate_size_consistency games,
    calculate_spacing_uniformity games,
    1 - calculate_tremor games]

/-- Letter recognition (`_calculate_recognition`): delegates to shape
accuracy. -/
noncomputable def calculate_recognition (games : Games) : ℝ :=
  calculate_shape_accuracy games

/-- Eye-hand coordination (`_calculate_coordination`): single-stroke
smoothness of every stroke with more than two points. -/
noncomputable def calculate_coordination (games : Games) : ℝ :=
  let coord_scores := games.vals.flatMap (fun g =>
    (g.strokes.getD []).filterMap (fun stroke =>
      let points := stroke.points.getD []
      if 2 < points.length then
        some (calculate_stroke_smoothness [stroke])
      else none))
  if coord_scores.isEmpty then 0.5 else npMean coord_scores

/-- Bilateral coordination (`_calculate_bilateral_coordination`,
`dysgraphia_nn_model.py:551`): the source returns the constant `0.7`
("assume symmetric performance"). -/
noncomputable def calculate_bilateral_coordination (games : Games) : ℝ := 0.7

/-- Writing endurance (`_calculate_endurance`). -/
noncomputable def calculate_endurance (games : Games) : ℝ :=
  let total_writing_time := npSum (games.vals.map (fun g => g.duration_ms.getD 0))
  let total_output := npSum (games.vals.map (fun g => ((g.strokes.getD []).length : ℝ)))
  min 1 (total_writing_time / 60000 * (total_output / 50))

/-- Fatigue indicator (`_calculate_fatigue_indicator`): smoothness
degradation from the early half of a game's strokes to the late half. -/
noncomputable def calculate_fatigue_indicator (games : Games) : ℝ :=
  let quality_over_time := games.vals.filterMap (fun g =>
    let strokes := g.strokes.getD []
    if 4 < strokes.length then
      let early := npMean ((strokes.take (strokes.length / 2)).map
        (fun s => calculate_stroke_smoothness [s]))
      let late := npMean ((strokes.drop (strokes.length / 2)).map
        (fun s => calculate_stroke_smoothness [s]))
      some (max 0 (early - late))
    else none)
  if quality_over_time.isEmpty then 0 else npMean quality_over_time

/-- Task completion rate (`_calculate_completion_rate`). -/
noncomputable def calculate_completion_rate (games : Games) : ℝ :=
  let total_tasks := games.vals.length
  let completed_tasks := (games.vals.filter (fun g => ¬(g.strokes.getD []).isEmpty)).length
  (completed_tasks : ℝ) / max 1 (total_tasks : ℝ)

/-- Effort-to-output ratio (`_calculate_effort_ratio`). -/
noncomputable def calculate_effort_ratio (games : Games) : ℝ :=
  let total_duration := npSum (games.vals.map (fun g => g.duration_ms.getD 0))
  let total_strokes := npSum (games.vals.map (fun g => ((g.strokes.getD []).length : ℝ)))
  if total_duration = 0 then 0.5
  else min 1 (total_strokes / (total_duration / 1000) / 10)

/-- Grip tension (`_calculate_grip_tension`): velocity dispersion of every
stroke with more than two points, rescaled by 30. -/
noncomputable def calculate_grip_tension (games : Games) : ℝ :=
  let pressure_indicators := games.vals.flatMap (fun g =>
    (g.strokes.getD []).filterMap (fun stroke =>
      let points := stroke.points.getD []
      if 2 < points.length then
        let velocities := pathDists points
        if ¬velocities.isEmpty then some (min 1 (npStd velocities / 30)) else none
      else none))
  if pressure_indicators.isEmpty then 0.5 else npMean pressure_indicators

/-- Motor planning (`_calculate_motor_planning`): single-stroke smoothness
of every stroke with more than five points. -/
noncomputable def calculate_motor_planning (games : Games) : ℝ :=
  let planning_scores := games.vals.flatMap (fun g =>
    (g.strokes.getD []).filterMap (fun stroke =>
      let points := stroke.points.getD []
      if 5 < points.length then
        some (calculate_stroke_smoothness [stroke])
      else none))
  if planning_scores.isEmpty then 0.5 else npMean planning_scores

/-- The 20-feature extraction of `extract_advanced_features`
(`dysgraphia_nn_model.py:26`), in source order F1 to F20. -/
noncomputable def extract_advanced_features (games : Games) : List ℝ :=
  [calculate_overall_smoothness games,
   calculate_straightness games,
   calculate_pressure_consistency games,
   calculate_tremor games,
   DyslexiaNN.normalize (calculate_writing_speed games) 0 500,
   1 - min 1 (calculate_speed_variance games),
   calculate_speed_fatigue games,
   calculate_size_consistency games,
   calculate_spacing_uniformity games,
   calculate_shape_accuracy games,
   calculate_legibility games,
   calculate_recognition games,
   calculate_coordination games,
   calculate_bilateral_coordination games,
   calculate_endurance games,
   calculate_fatigue_indicator games,
   calculate_completion_rate games,
   calculate_effort_ratio games,
   calculate_grip_tension games,
   calculate_motor_planning games]

theorem dysgraphia_features_length (games : Games) :
    (extract_advanced_features games).length = 20 := rfl

/-- Rational value of the dysgraphia `feature_importance` vector
(`dysgraphia_nn_model.py:698`). -/
def feature_importanceQ : List ℚ :=
  [mkRat 13 10, mkRat 6 5, mkRat 11 10, mkRat 3 5,
   mkRat 11 10, mkRat 19 20, mkRat 4 5,
   mkRat 6 5, mkRat 11 10, mkRat 23 20,
   mkRat 13 10, mkRat 11 10, mkRat 9 10,
   mkRat 4 5, mkRat 7 10, mkRat 3 4,
   mkRat 1 1, mkRat 19 20, mkRat 17 20, mkRat 9 10]

/-- Real-valued dysgraphia `feature_importance` vector. -/
noncomputable def feature_importance : List ℝ := QEval.castList feature_importanceQ

/-- Dysgraphia `_neural_forward_pass`: the shared cascade with the
dysgraphia importance vector and the same seed-42 weights. -/
noncomputable def neural_forward_pass (features : List ℝ) : ℝ :=
  NNModel.neural_forward_pass feature_importance
    NpRandom.w1R NpRandom.w2R NpRandom.w3R features

/-- Dysgraphia `predict_risk` (`dysgraphia_nn_model.py:651`). -/
noncomputable def predict_risk (games : Games) : MLModels.DomainPrediction :=
  let features := extract_advanced_features games
  let risk_score := neural_forward_pass features
  { risk_level := NNModel.get_risk_level risk_score
    risk_score := risk_score
    confidence := NNModel.calculate_confidence features risk_score }

end DysgraphiaNN

namespace UnifiedPredictor

open NpModel

/-- Model version string of `UnifiedDisorderPredictor`. -/
def model_version : String := "2.0 - Neural Networks"

/-- Per-domain prediction dictionary flowing through the orchestrator
(`unified_predictor.py`): the success path carries tier, score, confidence
and recommendations plus the stamped `assessment_type`/`timestamp`; the
degraded path carries the preserved error message.  The nested
`detailed_analysis` sub-dictionary (presentation data) is not modelled. -/
structure PredictionResult where
  assessment_type : Option String
  risk_level : String
  risk_score : ℝ
  confidence : ℝ
  error : Option String
  recommendations : List String
  model : Option String
  timestamp : Option String

/-- Degraded prediction `_error_response` (`unified_predictor.py:249`). -/
def error_response (disorder_type error_message : String) : PredictionResult :=
  { assessment_type := some disorder_type
    risk_level := "Unable to assess"
    risk_score := 0
    confidence := 0
    error := some error_message
    recommendations := ["Please ensure all assessment data is complete"]
    model := some model_version
    timestamp := none }

/-- Shared body of `predict_dyslexia` / `predict_dyscalculia` /
`predict_dysgraphia`: run the domain model (a fallible function of the
session data, standing for `self.<domain>_model.predict_risk`), stamp the
assessment type and timestamp on success, and convert any raised exception
into the degraded `error_response`.  The timestamp (`datetime.now()`) is a
parameter of the embedding. -/
def predict_domain {σ : Type} (name : String)
    (model : σ → Except String PredictionResult) (ts : String)
    (session_data : σ) : PredictionResult :=
  match model session_data with
  | .ok p => { p with assessment_type := some name, timestamp := some ts }
  | .error e => error_response name e

/-- Orchestrator entry `predict_dyslexia` (`unified_predictor.py:29`). -/
def predict_dyslexia {σ : Type} (model : σ → Except String PredictionResult)
    (ts : String) (session_data : σ) : PredictionResult :=
  predict_domain "dyslexia" model ts session_data

/-- Orchestrator entry `predict_dyscalculia` (`unified_predictor.py:47`). -/
def predict_dyscalculia {σ : Type} (model : σ → Except String PredictionResult)
    (ts : String) (session_data : σ) : PredictionResult :=
  predict_domain "dyscalculia" model ts session_data

/-- Orchestrator entry `predict_dysgraphia` (`unified_predictor.py:65`). -/
def predict_dysgraphia {σ : Type} (model : σ → Except String PredictionResult)
    (ts : String) (session_data : σ) : PredictionResult :=
  predict_domain "dysgraphia" model ts session_data

/-- Overall risk determination of `_generate_comprehensive_summary`
(`unified_predictor.py:124`): at least two `High` domains give `High`;
else one `High` or at least two `Medium` give `Medium`; else one `Medium`
or any `Low` gives `Low`; else `None`. -/
def overall_risk (risk_levels : List String) : String :=
  let high_count := risk_levels.countP (fun r => r = "High")
  let medium_count := risk_levels.countP (fun r => r = "Medium")
  if 2 ≤ high_count then "High"
  else if high_count = 1 ∨ 2 ≤ medium_count then "Medium"
  else if medium_count = 1 ∨ risk_levels.any (fun r => r = "Low") then "Low"
  else "None"

/-- Order-preserving deduplicated concatenation of the domain
recommendation lists (`_combine_recommendations`). -/
def combine_recommendations (results : List (String × PredictionResult)) : List String :=
  (results.flatMap (fun p => p.2.recommendations)).foldl
    (fun acc r => if r ∈ acc then acc else acc ++ [r]) []

/-- Static escalation playbooks of `_generate_next_steps`, keyed by the
overall tier; unrecognised tiers give the empty list. -/
def next_steps_map (overall : String) : List String :=
  if overall = "High" then
    ["1. Schedule comprehensive professional evaluation (Educational Psychologist)",
     "2. Request formal diagnosis from qualified specialist",
     "3. Develop Individualized Education Plan (IEP)",
     "4. Implement specialized intervention programs",
     "5. Request accommodations (extended time, assistive tech, etc.)",
     "6. Monitor progress with regular reassessment",
     "7. Coordinate with parents/guardians for home support"]
  else if overall = "Medium" then
    ["1. Schedule follow-up assessment in 4-6 weeks",
     "2. Implement targeted intervention strategies",
     "3. Provide supplementary support materials",
     "4. Monitor progress closely",
     "5. Consider consultation with specialist if issues persist",
     "6. Provide recommended accommodations",
     "7. Regular progress monitoring"]
  else if overall = "Low" then
    ["1. Continue current learning approach",
     "2. Regular monitoring and assessments",
     "3. Maintain current support level",
     "4. Provide enrichment activities",
     "5. Follow-up assessment in 6-12 months"]
  else if overall = "None" then
    ["1. No immediate intervention needed",
     "2. Continue standard curriculum",
     "3. Annual screening recommended",
     "4. Encourage continued learning development"]
  else []

/-- Comprehensive summary (`_generate_comprehensive_summary`): overall
tier by the escalation rule, mean score and confidence of the available
domains, the per-domain risk profile, the deduplicated recommendations and
the tier-keyed next steps.  The `clinical_notes` free-text rendering is not
modelled. -/
structure Summary where
  overall_risk_level : String
  average_risk_score : ℝ
  average_confidence : ℝ
  risk_profile : List (String × String × ℝ × ℝ)
  combined_recommendations : List String
  next_steps : List String

/-- Build the comprehensive summary from the per-domain results. -/
noncomputable def generate_comprehensive_summary
    (results : List (String × PredictionResult)) : Summary :=
  let risk_levels := results.map (fun p => p.2.risk_level)
  let risk_scores := results.map (fun p => p.2.risk_score)
  let confidences := results.map (fun p => p.2.confidence)
  let overall := overall_risk risk_levels
  { overall_risk_level := overall
    average_risk_score := if risk_scores ≠ [] then npMean risk_scores else 0
    average_confidence := if confidences ≠ [] then npMean confidences else 0
    risk_profile := results.map
      (fun p => (p.1, p.2.risk_level, p.2.risk_score, p.2.confidence))
    combined_recommendations := combine_recommendations results
    next_steps := next_steps_map overall }

/-- Per-domain result list of `comprehensive_assessment`
(`unified_predictor.py:83`): each domain present in the assessments mapping
is run through its `predict_<domain>` entry, in the fixed
dyslexia/dyscalculia/dysgraphia order. -/
def comprehensive_results {σ : Type}
    (mdl mdc mdg : σ → Except String PredictionResult) (ts : String)
    (assessments : Option σ × Option σ × Option σ) :
    List (String × PredictionResult) :=
  (match assessments.1 with
   | some s => [("dyslexia", predict_dyslexia mdl ts s)]
   | none => []) ++
  (match assessments.2.1 with
   | some s => [("dyscalculia", predict_dyscalculia mdc ts s)]
   | none => []) ++
  (match assessments.2.2 with
   | some s => [("dysgraphia", predict_dysgraphia mdg ts s)]
   | none => [])

/-- Report of `comprehensive_assessment`: individual results plus the
comprehensive summary (with the version and date stamps). -/
structure ComprehensiveReport where
  individual_results : List (String × PredictionResult)
  comprehensive_summary : Summary
  model_version : String
  assessment_date : String

/-- Orchestrator entry `comprehensive_assessment` (`unified_predictor.py:83`). -/
noncomputable def comprehensive_assessment {σ : Type}
    (mdl mdc mdg : σ → Except String PredictionResult) (ts : String)
    (assessments : Option σ × Option σ × Option σ) : ComprehensiveReport :=
  let results := comprehensive_results mdl mdc mdg ts assessments
  { individual_results := results
    comprehensive_summary := generate_comprehensive_summary results
    model_version := model_version
    assessment_date := ts }

end UnifiedPredictor

namespace PyModel

/-- Dynamic model of a Python value as received from the untrusted client:
nothing, a boolean, a number (floats and ints collapsed to `ℚ`), a string,
a list, or a string-keyed dictionary. -/
inductive PyVal where
  | pynone
  | pybool (b : Bool)
  | pynum (q : ℚ)
  | pystr (s : String)
  | pylist (xs : List PyVal)
  | pydict (entries : List (String × PyVal))

/-- Dictionary lookup on an association list (first binding wins). -/
def lookupEntry (entries : List (String × PyVal)) (k : String) : Option PyVal :=
  (entries.find? (fun p => p.1 = k)).map Prod.snd

/-- Python `v.get(k, dflt)`: an `AttributeError` when `v` is not a
dictionary, else the stored value or the default. -/
def pyGet (v : PyVal) (k : String) (dflt : PyVal) : Except String PyVal :=
  match v with
  | PyVal.pydict entries =>
      match lookupEntry entries k with
      | some x => Except.ok x
      | none => Except.ok dflt
  | _ => Except.error "AttributeError"

/-- Use of a Python value as a number (summation, subtraction,
comparison): numbers pass through, booleans coerce to 0/1, and any other
type raises a `TypeError`. -/
def pyToNum (v : PyVal) : Except String ℚ :=
  match v with
  | PyVal.pynum q => Except.ok q
  | PyVal.pybool b => Except.ok (if b then 1 else 0)
  | _ => Except.error "TypeError"

/-- One summand of `confusion_errors` in `_calculate_letter_confusion`
(`dyslexia_nn_model.py:194`): the value of `letter_confusion_errors`,
defaulting to the length of the `errors` value when that value is a list
and to `0` otherwise. -/
def confusionTerm (g : PyVal) : Except String ℚ := do
  let errsProbe ← pyGet g "errors" PyVal.pynone
  let dfltLen : ℚ :=
    match errsProbe with
    | PyVal.pylist xs => QEval.natQ xs.length
    | _ => 0
  let v ← pyGet g "letter_confusion_errors" (PyVal.pynum dfltLen)
  pyToNum v

/-- One summand of `total_errors` in `_calculate_letter_confusion`:
`max(total_errors default 1, total default 1 - correct default 0)`.
A non-numeric field raises (as the Python subtraction or `max` comparison
would). -/
def totalTerm (g : PyVal) : Except String ℚ := do
  let a ← pyGet g "total_errors" (PyVal.pynum 1)
  let t ← pyGet g "total" (PyVal.pynum 1)
  let c ← pyGet g "correct" (PyVal.pynum 0)
  let qt ← pyToNum t
  let qc ← pyToNum c
  let qa ← pyToNum a
  pure (max qa (qt - qc))

/-- Dynamic-value model of `_calculate_letter_confusion`
(`dyslexia_nn_model.py:191`), faithful to Python's run-time behaviour on
arbitrarily-shaped task records: summing, subtracting or comparing a
non-numeric field — or calling `.get` on a non-dictionary record — raises
instead of returning a rate. -/
def calculate_letter_confusion_dyn (games : List (String × PyVal)) :
    Except String ℚ := do
  let confusion_errors ← games.foldlM (fun acc p => do
    let t ← confusionTerm p.2
    pure (acc + t)) (0 : ℚ)
  let total_errors ← games.foldlM (fun acc p => do
    let t ← totalTerm p.2
    pure (acc + t)) (0 : ℚ)
  pure (min 1 (confusion_errors / max 1 total_errors))

/-- Well-formedness of one optional numeric field: absent, or a
non-negative number. -/
def numFieldOK (entries : List (String × PyVal)) (k : String) : Bool :=
  match lookupEntry entries k with
  | none => true
  | some (PyVal.pynum q) => decide (0 ≤ q)
  | some _ => false

/-- Well-formedness of a task record for `_calculate_letter_confusion`:
a dictionary whose relevant fields, when present, are non-negative
numbers (the `errors` field may have any shape: it is `isinstance`-guarded
in the source). -/
def recOK : PyVal → Bool
  | PyVal.pydict entries =>
      numFieldOK entries "letter_confusion_errors" &&
      numFieldOK entries "total_errors" &&
      numFieldOK entries "total" &&
      numFieldOK entries "correct"
  | _ => false

end PyModel

namespace PyModel

theorem exceptBind_ok {α β : Type} (a : α) (f : α → Except String β) :
    (Except.ok a >>= f : Except String β) = f a := rfl

theorem natQ_nonneg (n : ℕ) : 0 ≤ QEval.natQ n := by
  unfold QEval.natQ
  rw [Rat.mkRat_one]
  exact_mod_cast Nat.zero_le n

theorem pyGet_dict (entries : List (String × PyVal)) (k : String) (dflt : PyVal) :
    pyGet (PyVal.pydict entries) k dflt =
      Except.ok ((lookupEntry entries k).getD dflt) := by
  cases hl : lookupEntry entries k <;> simp [pyGet, hl]

theorem fieldVal (entries : List (String × PyVal)) (k : String) (d : ℚ)
    (hd : 0 ≤ d) (h : numFieldOK entries k = true) :
    ∃ q, (lookupEntry entries k).getD (PyVal.pynum d) = PyVal.pynum q ∧ 0 ≤ q := by
  unfold numFieldOK at h
  cases hl : lookupEntry entries k with
  | none => exact ⟨d, rfl, hd⟩
  | some v =>
      rw [hl] at h
      cases v with
      | pynum q => exact ⟨q, rfl, by simpa using h⟩
      | pynone => simp at h
      | pybool b => simp at h
      | pystr s => simp at h
      | pylist xs => simp at h
      | pydict es => simp at h

theorem confusionTerm_ok (g : PyVal) (h : recOK g = true) :
    ∃ q, confusionTerm g = Except.ok q ∧ 0 ≤ q := by
  match g, h with
  | PyVal.pydict entries, h =>
      simp only [recOK, Bool.and_eq_true] at h
      obtain ⟨⟨⟨h1, _⟩, _⟩, _⟩ := h
      unfold confusionTerm
      rw [pyGet_dict]
      have hdflt : (0 : ℚ) ≤
          (match (lookupEntry entries "errors").getD PyVal.pynone with
           | PyVal.pylist xs => QEval.natQ xs.length
           | _ => 0) := by
        cases (lookupEntry entries "errors").getD PyVal.pynone <;>
          simp [natQ_nonneg]
      obtain ⟨q, hq, hq0⟩ := fieldVal entries "letter_confusion_errors" _ hdflt h1
      simp only [bind, Except.bind]
      rw [pyGet_dict, hq]
      exact ⟨q, rfl, hq0⟩

theorem totalTerm_ok (g : PyVal) (h : recOK g = true) :
    ∃ q, totalTerm g = Except.ok q := by
  match g, h with
  | PyVal.pydict entries, h =>
      simp only [recOK, Bool.and_eq_true] at h
      obtain ⟨⟨⟨_, h2⟩, h3⟩, h4⟩ := h
      unfold totalTerm
      obtain ⟨qa, ha, _⟩ := fieldVal entries "total_errors" 1 (by norm_num) h2
      obtain ⟨qt, ht, _⟩ := fieldVal entries "total" 1 (by norm_num) h3
      obtain ⟨qc, hc, _⟩ := fieldVal entries "correct" 0 (by norm_num) h4
      simp only [bind, Except.bind]
      rw [pyGet_dict, pyGet_dict, pyGet_dict, ha, ht, hc]
      exact ⟨max qa (qt - qc), rfl⟩

theorem foldl_confusion_ok (games : List (String × PyVal))
    (h : ∀ p ∈ games, recOK p.2 = true) :
    ∀ acc : ℚ, 0 ≤ acc → ∃ s, (games.foldlM (fun acc p => do
      let t ← confusionTerm p.2
      pure (acc + t)) acc : Except String ℚ) = Except.ok s ∧ 0 ≤ s := by
  induction games with
  | nil => exact fun acc hacc => ⟨acc, rfl, hacc⟩
  | cons p rest ih =>
      intro acc hacc
      obtain ⟨q, hq, hq0⟩ := confusionTerm_ok p.2 (h p (by simp))
      obtain ⟨s, hs, hs0⟩ := ih (fun r hr => h r (by simp [hr])) (acc + q)
        (by linarith)
      refine ⟨s, ?_, hs0⟩
      simp only [List.foldlM, bind, Except.bind, hq]
      exact hs

theorem foldl_total_ok (games : List (String × PyVal))
    (h : ∀ p ∈ games, recOK p.2 = true) :
    ∀ acc : ℚ, ∃ s, (games.foldlM (fun acc p => do
      let t ← totalTerm p.2
      pure (acc + t)) acc : Except String ℚ) = Except.ok s := by
  induction games with
  | nil => exact fun acc => ⟨acc, rfl⟩
  | cons p rest ih =>
      intro acc
      obtain ⟨q, hq⟩ := totalTerm_ok p.2 (h p (by simp))
      obtain ⟨s, hs⟩ := ih (fun r hr => h r (by simp [hr])) (acc + q)
      refine ⟨s, ?_⟩
      simp only [List.foldlM, bind, Except.bind, hq]
      exact hs

/-- On well-formed task records the dynamic letter-confusion sub-routine
returns a value, and that value lies in `[0, 1]`. -/
theorem calculate_letter_confusion_dyn_ok (games : List (String × PyVal))
    (h : ∀ p ∈ games, recOK p.2 = true) :
    ∃ q, calculate_letter_confusion_dyn games = Except.ok q ∧ 0 ≤ q ∧ q ≤ 1 := by
  obtain ⟨s, hs, hs0⟩ := foldl_confusion_ok games h 0 (le_refl 0)
  obtain ⟨t, ht⟩ := foldl_total_ok games h 0
  refine ⟨min 1 (s / max 1 t), ?_, ?_, min_le_left _ _⟩
  · unfold calculate_letter_confusion_dyn
    rw [hs, exceptBind_ok]
    rw [ht, exceptBind_ok]
    rfl
  · have hden : (0 : ℚ) < max 1 t := lt_of_lt_of_le one_pos (le_max_left _ _)
    have : 0 ≤ s / max 1 t := div_nonneg hs0 (le_of_lt hden)
    exact le_min (by norm_num) this

end PyModel

namespace AssessmentRoutes

open PyModel

/-- Result of a route-level analyzer: the risk label, the normalised
aggregate score, and the warning list.  The `per_task` sub-dictionary
(display-rounded copies of the per-task numbers) is not modelled. -/
structure RouteAnalysis where
  risk : String
  norm_score : ℚ
  warnings : List String

/-- Coercion `_safe(v, default)` of `analyze_dyscalculia_results`:
`float(v)` with the default on failure.  Numbers and booleans convert;
string parsing is modelled as failure. -/
def safeFloat (v : Option PyVal) (dflt : ℚ) : ℚ :=
  match v with
  | some (PyVal.pynum q) => q
  | some (PyVal.pybool b) => if b then 1 else 0
  | _ => dflt

/-- The fixed scoring weights of `analyze_dyscalculia_results`
(`assessment_routes.py:1124`). -/
def weight_map : List (String × ℚ) :=
  [("subitizing", mkRat 3 2), ("comparison", mkRat 6 5),
   ("symbol_match", mkRat 7 5), ("sequencing", mkRat 13 10),
   ("memory_span", mkRat 11 10), ("story_arith", mkRat 7 5)]

/-- Per-task component of the dyscalculia analyzer loop: accuracy against
the 0.8 baseline minus the balanced response-time penalty. -/
def taskComponent (entries : List (String × PyVal)) (g : String) : ℚ :=
  let gdata :=
    match lookupEntry entries g with
    | some (PyVal.pydict ge) => ge
    | _ => []
  let correct := safeFloat (lookupEntry gdata "correct") 0
  let total := max 1 (safeFloat (lookupEntry gdata "total") 1)
  let acc := correct / total
  let rt := safeFloat (lookupEntry gdata "avg_rt") 1500
  let acc_score := acc - mkRat 8 10
  let rt_penalty := max 0 ((rt - 1500) / 2500)
  acc_score - rt_penalty

/-- Warnings of the analyzer loop for one task.  The Python warning texts
interpolate the formatted numbers (`f'Low accuracy in {g} ({acc:.2f})'`);
the embedding keeps the task name and drops the number formatting. -/
def taskWarnings (entries : List (String × PyVal)) (g : String) : List String :=
  let gdata :=
    match lookupEntry entries g with
    | some (PyVal.pydict ge) => ge
    | _ => []
  let correct := safeFloat (lookupEntry gdata "correct") 0
  let total := max 1 (safeFloat (lookupEntry gdata "total") 1)
  let acc := correct / total
  let rt := safeFloat (lookupEntry gdata "avg_rt") 1500
  (if acc < mkRat 1 2 then ["Low accuracy in " ++ g] else []) ++
    (if mkRat 3500 1 < rt then ["Slow responses in " ++ g] else [])

/-- Model of `analyze_dyscalculia_results` (`assessment_routes.py:1105`):
a non-mapping input is surfaced as an `Unknown` result, the empty mapping
as `No data`; otherwise the six fixed tasks are scored against the
accuracy/response-time baselines, the weighted aggregate is normalised and
thresholded into one of four risk labels. -/
def analyze_dyscalculia_results (games : PyVal) : RouteAnalysis :=
  match games with
  | PyVal.pydict entries =>
      if entries.isEmpty then
        { risk := "No data", norm_score := 0,
          warnings := ["No assessment data available"] }
      else
        let aggregate := QEval.sumQ (weight_map.map
          (fun p => taskComponent entries p.1 * p.2))
        let weight_sum := QEval.sumQ (weight_map.map (fun p => p.2))
        let warnings := weight_map.flatMap (fun p => taskWarnings entries p.1)
        let norm :=
          if 0 < weight_sum then aggregate / max (mkRat 1 1000000) weight_sum
          else 0
        let risk :=
          if mkRat (-5) 100 ≤ norm then "No risk likely"
          else if mkRat (-25) 100 ≤ norm then "Low risk"
          else if mkRat (-60) 100 ≤ norm then "Medium risk"
          else "High risk"
        { risk := risk, norm_score := norm, warnings := warnings }
  | _ =>
      { risk := "Unknown", norm_score := 0, warnings := ["Invalid input data"] }

theorem analyze_dyscalculia_results_non_mapping (xs : List PyVal) :
    (analyze_dyscalculia_results (PyVal.pylist xs)).risk = "Unknown" := rfl

theorem analyze_dyscalculia_results_empty :
    (analyze_dyscalculia_results (PyVal.pydict [])).risk = "No data" := rfl

end AssessmentRoutes

namespace UnifiedPredictor

theorem predict_domain_error {σ : Type} (name : String)
    (model : σ → Except String PredictionResult) (ts : String) (s : σ)
    (e : String) (h : model s = Except.error e) :
    predict_domain name model ts s = error_response name e := by
  unfold predict_domain
  rw [h]

theorem predict_domain_ok {σ : Type} (name : String)
    (model : σ → Except String PredictionResult) (ts : String) (s : σ)
    (p : PredictionResult) (h : model s = Except.ok p) :
    predict_domain name model ts s =
      { p with assessment_type := some name, timestamp := some ts } := by
  unfold predict_domain
  rw [h]

theorem overall_risk_high (levels : List String)
    (h : 2 ≤ levels.countP (fun r => r = "High")) :
    overall_risk levels = "High" := by
  unfold overall_risk
  rw [if_pos h]

theorem overall_risk_medium (levels : List String)
    (h : levels.countP (fun r => r = "High") = 1 ∨
      (levels.countP (fun r => r = "High") < 2 ∧
        2 ≤ levels.countP (fun r => r = "Medium"))) :
    overall_risk levels = "Medium" := by
  unfold overall_risk
  rcases h with h1 | ⟨h2, h3⟩
  · rw [if_neg (by omega), if_pos (Or.inl h1)]
  · rw [if_neg (by omega), if_pos (Or.inr h3)]

theorem overall_risk_low (levels : List String)
    (h0 : levels.countP (fun r => r = "High") = 0)
    (h1 : levels.countP (fun r => r = "Medium") < 2)
    (h2 : levels.countP (fun r => r = "Medium") = 1 ∨
      levels.any (fun r => r = "Low")) :
    overall_risk levels = "Low" := by
  unfold overall_risk
  rcases h2 with h2 | h2
  · rw [if_neg (by omega), if_neg (by omega), if_pos (Or.inl h2)]
  · rw [if_neg (by omega), if_neg (by omega), if_pos (Or.inr h2)]

theorem overall_risk_none (levels : List String)
    (h0 : levels.countP (fun r => r = "High") = 0)
    (h1 : levels.countP (fun r => r = "Medium") = 0)
    (h2 : levels.any (fun r => r = "Low") = false) :
    overall_risk levels = "None" := by
  unfold overall_risk
  rw [if_neg (by omega), if_neg (by omega), if_neg (by simp [h0, h1, h2])]

theorem comprehensive_results_all {σ : Type}
    (mdl mdc mdg : σ → Except String PredictionResult) (ts : String)
    (s1 s2 s3 : σ) :
    comprehensive_results mdl mdc mdg ts (some s1, some s2, some s3) =
      [("dyslexia", predict_dyslexia mdl ts s1),
       ("dyscalculia", predict_dyscalculia mdc ts s2),
       ("dysgraphia", predict_dysgraphia mdg ts s3)] := rfl

theorem comprehensive_empty_overall {σ : Type}
    (mdl mdc mdg : σ → Except String PredictionResult) (ts : String) :
    (comprehensive_assessment mdl mdc mdg ts
      (none, none, none)).comprehensive_summary.overall_risk_level = "None" := rfl

end UnifiedPredictor

namespace FallbackFacts

open DataModel

theorem bilateral_coordination_empty :
    DysgraphiaNN.calculate_bilateral_coordination ([] : Games) = 0.7 := rfl

theorem speed_fatigue_empty :
    DysgraphiaNN.calculate_speed_fatigue ([] : Games) = 0 := by
  unfold DysgraphiaNN.calculate_speed_fatigue
  simp [Games.vals]

theorem difficulty_gap_empty :
    DyslexiaNN.calculate_difficulty_gap ([] : Games) = 0.4 := by
  unfold DyslexiaNN.calculate_difficulty_gap
  simp [Games.vals]
  norm_num

theorem speed_trend_empty :
    DyslexiaNN.calculate_speed_trend ([] : Games) = 0 := by
  unfold DyslexiaNN.calculate_speed_trend
  simp [Games.sortedVals]

theorem phoneme_awareness_empty :
    DyslexiaNN.calculate_phoneme_awareness ([] : Games) = 0.5 := rfl

theorem working_memory_empty :
    DyslexiaNN.calculate_working_memory ([] : Games) = 0.5 := rfl

theorem subitizing_empty :
    DyscalculiaNN.calculate_subitizing_score ([] : Games) = 0.5 := rfl

theorem coordination_empty :
    DysgraphiaNN.calculate_coordination ([] : Games) = 0.5 := rfl

end FallbackFacts

namespace RegressionBound

open NpModel

theorem npSum_nonneg (l : List ℝ) (h : ∀ x ∈ l, 0 ≤ x) : 0 ≤ npSum l := by
  induction l with
  | nil => simp [npSum]
  | cons a as ih =>
      simp only [npSum, List.foldr] at *
      have ha := h a (by simp)
      have has := ih (fun x hx => h x (by simp [hx]))
      linarith

theorem npSum_le_of_bound (l : List ℝ) (B : ℝ) (h : ∀ x ∈ l, x ≤ B) :
    npSum l ≤ l.length * B := by
  induction l with
  | nil => simp [npSum]
  | cons a as ih =>
      simp only [npSum, List.foldr, List.length_cons] at *
      have ha := h a (by simp)
      have has := ih (fun x hx => h x (by simp [hx]))
      push_cast
      linarith

theorem bound_le_npSum (l : List ℝ) (B : ℝ) (h : ∀ x ∈ l, B ≤ x) :
    l.length * B ≤ npSum l := by
  induction l with
  | nil => simp [npSum]
  | cons a as ih =>
      simp only [npSum, List.foldr, List.length_cons] at *
      have ha := h a (by simp)
      have has := ih (fun x hx => h x (by simp [hx]))
      push_cast
      linarith

theorem npMean_nonneg (l : List ℝ) (h : ∀ x ∈ l, 0 ≤ x) : 0 ≤ npMean l := by
  unfold npMean
  exact div_nonneg (npSum_nonneg l h) (Nat.cast_nonneg _)

theorem npMean_le_of_bound (l : List ℝ) (B : ℝ) (hl : l ≠ [])
    (h : ∀ x ∈ l, x ≤ B) : npMean l ≤ B := by
  unfold npMean
  have hn : (0 : ℝ) < l.length := by
    have := List.length_pos.mpr hl
    exact_mod_cast this
  rw [div_le_iff₀ hn]
  calc npSum l ≤ l.length * B := npSum_le_of_bound l B h
    _ = B * l.length := by ring

theorem bound_le_npMean (l : List ℝ) (B : ℝ) (hl : l ≠ [])
    (h : ∀ x ∈ l, B ≤ x) : B ≤ npMean l := by
  unfold npMean
  have hn : (0 : ℝ) < l.length := by
    have := List.length_pos.mpr hl
    exact_mod_cast this
  rw [le_div_iff₀ hn]
  calc B * l.length = l.length * B := by ring
    _ ≤ npSum l := bound_le_npSum l B h

theorem le_foldl_max (l : List ℝ) (acc : ℝ) : acc ≤ l.foldl max acc := by
  induction l generalizing acc with
  | nil => exact le_refl acc
  | cons x xs ih =>
      calc acc ≤ max acc x := le_max_left _ _
        _ ≤ xs.foldl max (max acc x) := ih _

theorem mem_le_foldl_max (l : List ℝ) (acc y : ℝ) (hy : y ∈ l) :
    y ≤ l.foldl max acc := by
  induction l generalizing acc with
  | nil => simp at hy
  | cons x xs ih =>
      rcases List.mem_cons.mp hy with rfl | hmem
      · calc y ≤ max acc y := le_max_right _ _
          _ ≤ xs.foldl max (max acc y) := le_foldl_max _ _
      · exact ih _ hmem

theorem mem_le_npMax (l : List ℝ) (y : ℝ) (hy : y ∈ l) : y ≤ npMax l := by
  unfold npMax
  match l, hy with
  | x :: rest, hy =>
      rcases List.mem_cons.mp hy with rfl | hmem
      · exact le_foldl_max _ _
      · exact mem_le_foldl_max _ _ _ hmem

theorem foldl_min_le (l : List ℝ) (acc : ℝ) : l.foldl min acc ≤ acc := by
  induction l generalizing acc with
  | nil => exact le_refl acc
  | cons x xs ih =>
      calc xs.foldl min (min acc x) ≤ min acc x := ih _
        _ ≤ acc := min_le_left _ _

theorem foldl_min_le_mem (l : List ℝ) (acc y : ℝ) (hy : y ∈ l) :
    l.foldl min acc ≤ y := by
  induction l generalizing acc with
  | nil => simp at hy
  | cons x xs ih =>
      rcases List.mem_cons.mp hy with rfl | hmem
      · calc xs.foldl min (min acc y) ≤ min acc y := foldl_min_le _ _
          _ ≤ y := min_le_right _ _
      · exact ih _ hmem

theorem npMin_le_mem (l : List ℝ) (y : ℝ) (hy : y ∈ l) : npMin l ≤ y := by
  unfold npMin
  match l, hy with
  | x :: rest, hy =>
      rcases List.mem_cons.mp hy with rfl | hmem
      · exact foldl_min_le _ _
      · exact foldl_min_le_mem _ _ _ hmem

theorem npMean_mem_bounds (l : List ℝ) (hl : l ≠ []) :
    npMin l ≤ npMean l ∧ npMean l ≤ npMax l :=
  ⟨bound_le_npMean l _ hl (fun x hx => npMin_le_mem l x hx),
   npMean_le_of_bound l _ hl (fun x hx => mem_le_npMax l x hx)⟩

theorem npSum_map_linear3 {α : Type} (l : List α) (f g k : α → ℝ) (c d : ℝ) :
    npSum (l.map (fun p => f p + c * g p + d * k p)) =
      npSum (l.map f) + c * npSum (l.map g) + d * npSum (l.map k) := by
  induction l with
  | nil => simp [npSum]
  | cons a as ih =>
      simp only [npSum, List.foldr, List.map] at *
      rw [ih]
      ring

/-- Cauchy–Schwarz specialisation for list sums:
`(Σ |f|)² ≤ n · Σ f²`. -/
theorem sq_npSum_abs_le {α : Type} (l : List α) (f : α → ℝ) :
    (npSum (l.map (fun p => |f p|))) ^ 2 ≤
      l.length * npSum (l.map (fun p => (f p) ^ 2)) := by
  induction l with
  | nil => simp [npSum]
  | cons p rest ih =>
      simp only [npSum, List.foldr, List.map, List.length_cons] at *
      set a := |f p| with ha
      set S := (rest.map (fun p => |f p|)).foldr (· + ·) 0 with hS
      set T := (rest.map (fun p => (f p) ^ 2)).foldr (· + ·) 0 with hT
      set n := (rest.length : ℝ) with hn
      have hS0 : 0 ≤ S := by
        rw [hS]
        exact npSum_nonneg _ (by
          intro x hx
          obtain ⟨q, _, rfl⟩ := List.mem_map.mp hx
          positivity)
      have hT0 : 0 ≤ T := by
        rw [hT]
        exact npSum_nonneg _ (by
          intro x hx
          obtain ⟨q, _, rfl⟩ := List.mem_map.mp hx
          positivity)
      have ha0 : 0 ≤ a := abs_nonneg _
      have hn0 : 0 ≤ n := by rw [hn]; positivity
      have hsq : a ^ 2 = f p ^ 2 := sq_abs _
      push_cast
      rcases eq_or_lt_of_le hn0 with hz | hpos
      · have hrest : rest.length = 0 := by
          rw [hn] at hz
          exact_mod_cast hz.symm
        have h1 : rest = [] := List.length_eq_zero.mp hrest
        subst h1
        simp only [List.map_nil] at hS hT
        simp [npSum] at hS hT
        rw [hS] at *
        rw [hT] at *
        simp at *
        nlinarith
      · have key : n * (2 * a * S + S ^ 2) ≤ n ^ 2 * a ^ 2 + (n + 1) * (n * T) := by
          nlinarith [sq_nonneg (n * a - S), ih, mul_le_mul_of_nonneg_left ih hn0]
        have goal' : 2 * a * S + S ^ 2 ≤ n * a ^ 2 + (n + 1) * T := by
          rw [← mul_le_mul_left hpos]
          calc n * (2 * a * S + S ^ 2) ≤ n ^ 2 * a ^ 2 + (n + 1) * (n * T) := key
            _ = n * (n * a ^ 2 + (n + 1) * T) := by ring
        nlinarith [goal']

end RegressionBound

namespace RegressionBound

open NpModel

theorem SSE_identity (points : List (ℝ × ℝ)) (mx my b : ℝ) :
    npSum (points.map (fun p => ((p.2 - my) - b * (p.1 - mx)) ^ 2)) =
      npSum (points.map (fun p => (p.2 - my) ^ 2)) +
        (-2 * b) * npSum (points.map (fun p => (p.1 - mx) * (p.2 - my))) +
        b ^ 2 * npSum (points.map (fun p => (p.1 - mx) ^ 2)) := by
  have hfun : (fun p : ℝ × ℝ => ((p.2 - my) - b * (p.1 - mx)) ^ 2) =
      (fun p : ℝ × ℝ => (p.2 - my) ^ 2 +
        (-2 * b) * ((p.1 - mx) * (p.2 - my)) + b ^ 2 * ((p.1 - mx) ^ 2)) := by
    funext p
    ring
  rw [hfun, npSum_map_linear3]

theorem SSE_le_Syy (points : List (ℝ × ℝ)) (mx my : ℝ) :
    npSum (points.map (fun p => ((p.2 - my) -
        (npSum (points.map (fun p => (p.1 - mx) * (p.2 - my))) /
          npSum (points.map (fun p => (p.1 - mx) ^ 2))) * (p.1 - mx)) ^ 2)) ≤
      npSum (points.map (fun p => (p.2 - my) ^ 2)) := by
  set Sxy := npSum (points.map (fun p => (p.1 - mx) * (p.2 - my))) with hSxy
  set Sxx := npSum (points.map (fun p => (p.1 - mx) ^ 2)) with hSxx
  rw [SSE_identity]
  have hSxx0 : 0 ≤ Sxx := by
    rw [hSxx]
    refine npSum_nonneg _ ?_
    intro x hx
    obtain ⟨q, _, rfl⟩ := List.mem_map.mp hx
    positivity
  rcases eq_or_lt_of_le hSxx0 with hz | hpos
  · rw [← hz]
    simp
  · have hterm : (-2 * (Sxy / Sxx)) * Sxy + (Sxy / Sxx) ^ 2 * Sxx =
        -(Sxy ^ 2 / Sxx) := by
      field_simp
      ring
    have hneg : -(Sxy ^ 2 / Sxx) ≤ 0 := by
      have : 0 ≤ Sxy ^ 2 / Sxx := div_nonneg (sq_nonneg _) hSxx0
      linarith
    linarith [hterm]

/-- The line-deviation helper always returns a value in `[0, 1]`: the mean
absolute residual of the least-squares line never exceeds the y-range used
as the denominator. -/
theorem calculate_line_deviation_mem (points : List (ℝ × ℝ)) :
    0 ≤ DysgraphiaNN.calculate_line_deviation points ∧
      DysgraphiaNN.calculate_line_deviation points ≤ 1 := by
  simp only [DysgraphiaNN.calculate_line_deviation]
  split_ifs with hlen
  · norm_num
  · have hn3 : 3 ≤ points.length := by omega
    have hne : points ≠ [] := by
      intro h
      rw [h] at hn3
      simp at hn3
    set xs := points.map Prod.fst with hxs
    set ys := points.map Prod.snd with hys
    set mx := npMean xs with hmx
    set my := npMean ys with hmy
    set slope := polyfitSlope xs ys with hslope
    set intercept := polyfitIntercept xs ys with hintercept
    set residuals := points.map (fun p => |p.2 - (slope * p.1 + intercept)|)
      with hres
    set range := npMax ys - npMin ys with hrange
    have hysne : ys ≠ [] := by
      rw [hys]
      simpa using hne
    have hy0 : ∃ y, y ∈ ys := List.exists_mem_of_ne_nil ys hysne
    have hrange0 : 0 ≤ range := by
      obtain ⟨y, hy⟩ := hy0
      rw [hrange]
      have h1 := npMin_le_mem ys y hy
      have h2 := mem_le_npMax ys y hy
      linarith
    have hmybounds := npMean_mem_bounds ys hysne
    have hrp1 : (1 : ℝ) ≤ max 1 range := le_max_left _ _
    have hrppos : (0 : ℝ) < max 1 range := lt_of_lt_of_le one_pos hrp1
    have hres_nonneg : 0 ≤ npMean residuals := by
      refine npMean_nonneg _ ?_
      intro x hx
      rw [hres] at hx
      obtain ⟨q, _, rfl⟩ := List.mem_map.mp hx
      positivity
    refine ⟨div_nonneg hres_nonneg (le_of_lt hrppos), ?_⟩
    rw [div_le_one hrppos]
    -- identify the fitted slope with the Sxy/Sxx quotient over the points
    have hzip : xs.zip ys = points := by
      rw [hxs, hys, List.zip_map']
      simp
    have hslope2 : slope =
        npSum (points.map (fun p => (p.1 - mx) * (p.2 - my))) /
          npSum (points.map (fun p => (p.1 - mx) ^ 2)) := by
      rw [hslope, hmx, hmy, hxs, hys]
      unfold polyfitSlope
      dsimp only
      rw [List.zip_map', List.map_map, List.map_map]
      congr 1
    have hint2 : intercept = my - slope * mx := by
      rw [hintercept]
      unfold polyfitIntercept
      rw [← hslope, ← hmx, ← hmy]
    -- the residual body in centred form
    have hbody : (fun p : ℝ × ℝ => |p.2 - (slope * p.1 + intercept)|) =
        (fun p : ℝ × ℝ => |(p.2 - my) - slope * (p.1 - mx)|) := by
      funext p
      congr 1
      rw [hint2]
      ring
    -- Cauchy-Schwarz on the residuals
    have hCS := sq_npSum_abs_le points
      (fun p => (p.2 - my) - slope * (p.1 - mx))
    -- the summed squared residuals are at most Syy
    have hSSE : npSum (points.map (fun p =>
        ((p.2 - my) - slope * (p.1 - mx)) ^ 2)) ≤
        npSum (points.map (fun p => (p.2 - my) ^ 2)) := by
      rw [hslope2]
      exact SSE_le_Syy points mx my
    -- Syy is at most n · range²
    have hpointwise : ∀ x ∈ points.map (fun p => (p.2 - my) ^ 2),
        x ≤ range ^ 2 := by
      intro x hx
      obtain ⟨p, hp, rfl⟩ := List.mem_map.mp hx
      have hymem : p.2 ∈ ys := by
        rw [hys]
        exact List.mem_map.mpr ⟨p, hp, rfl⟩
      have h1 := npMin_le_mem ys p.2 hymem
      have h2 := mem_le_npMax ys p.2 hymem
      rw [hrange]
      nlinarith [hmybounds.1, hmybounds.2]
    have hSyy : npSum (points.map (fun p => (p.2 - my) ^ 2)) ≤
        points.length * range ^ 2 := by
      calc npSum (points.map (fun p => (p.2 - my) ^ 2)) ≤
          (points.map (fun p => (p.2 - my) ^ 2)).length * range ^ 2 :=
            npSum_le_of_bound _ _ hpointwise
        _ = points.length * range ^ 2 := by rw [List.length_map]
    -- assemble: (Σ|e|)² ≤ n² range², hence mean ≤ range ≤ max 1 range
    have hsum_abs : npSum residuals =
        npSum (points.map (fun p => |(p.2 - my) - slope * (p.1 - mx)|)) := by
      rw [hres, hbody]
    have hsum0 : 0 ≤ npSum residuals := by
      refine npSum_nonneg _ ?_
      intro x hx
      rw [hres] at hx
      obtain ⟨q, _, rfl⟩ := List.mem_map.mp hx
      positivity
    have hnpos : (0 : ℝ) < points.length := by
      have : 0 < points.length := by omega
      exact_mod_cast this
    have hkey : (npSum residuals) ^ 2 ≤
        (points.length : ℝ) ^ 2 * range ^ 2 := by
      calc (npSum residuals) ^ 2 =
          (npSum (points.map (fun p =>
            |(p.2 - my) - slope * (p.1 - mx)|))) ^ 2 := by rw [hsum_abs]
        _ ≤ points.length * npSum (points.map (fun p =>
            ((p.2 - my) - slope * (p.1 - mx)) ^ 2)) := hCS
        _ ≤ points.length * (points.length * range ^ 2) := by
            have := le_trans hSSE hSyy
            exact mul_le_mul_of_nonneg_left this (le_of_lt hnpos)
        _ = (points.length : ℝ) ^ 2 * range ^ 2 := by ring
    have hmean_le : npMean residuals ≤ range := by
      unfold npMean
      rw [hres, List.length_map, ← hres]
      rw [div_le_iff₀ hnpos]
      by_contra hcon
      push_neg at hcon
      have hrn : 0 ≤ range * (points.length : ℝ) :=
        mul_nonneg hrange0 (le_of_lt hnpos)
      have h1 : (range * (points.length : ℝ)) ^ 2 < (npSum residuals) ^ 2 :=
        pow_lt_pow_left₀ hcon hrn two_ne_zero
      have h2 : (range * (points.length : ℝ)) ^ 2 =
          (points.length : ℝ) ^ 2 * range ^ 2 := by ring
      linarith [hkey, h1, h2.symm.le]
    calc npMean residuals ≤ range := hmean_le
      _ ≤ max 1 range := le_max_right _ _

end RegressionBound

namespace PyModel

/-- Python `isinstance(v, dict)`. -/
def isDict : PyVal → Bool
  | PyVal.pydict _ => true
  | _ => false

end PyModel

/-- C1: the unified orchestrator's overall risk level follows the
escalation rule — at least two `High` domains give `High`; otherwise one
`High` or at least two `Medium` give `Medium`; otherwise one `Medium` or
any `Low` gives `Low`; otherwise `None` — and in particular
`[High, High, None]` yields `High` and `[None, None, None]` yields
`None`. -/
theorem claim_C1_overall_risk_escalation :
    (∀ levels : List String,
      (2 ≤ levels.countP (fun r => r = "High") →
        UnifiedPredictor.overall_risk levels = "High") ∧
      (levels.countP (fun r => r = "High") = 1 ∨
          (levels.countP (fun r => r = "High") < 2 ∧
            2 ≤ levels.countP (fun r => r = "Medium")) →
        UnifiedPredictor.overall_risk levels = "Medium") ∧
      (levels.countP (fun r => r = "High") = 0 →
        levels.countP (fun r => r = "Medium") < 2 →
        (levels.countP (fun r => r = "Medium") = 1 ∨
          levels.any (fun r => r = "Low")) →
        UnifiedPredictor.overall_risk levels = "Low") ∧
      (levels.countP (fun r => r = "High") = 0 →
        levels.countP (fun r => r = "Medium") = 0 →
        levels.any (fun r => r = "Low") = false →
        UnifiedPredictor.overall_risk levels = "None")) ∧
    UnifiedPredictor.overall_risk ["High", "High", "None"] = "High" ∧
    UnifiedPredictor.overall_risk ["None", "None", "None"] = "None" := by
  refine ⟨fun levels => ⟨?_, ?_, ?_, ?_⟩, rfl, rfl⟩
  · exact UnifiedPredictor.overall_risk_high levels
  · exact UnifiedPredictor.overall_risk_medium levels
  · exact UnifiedPredictor.overall_risk_low levels
  · exact UnifiedPredictor.overall_risk_none levels

/-- Witness for C1 at concrete level lists. -/
theorem claim_C1_overall_risk_escalation_witness :
    UnifiedPredictor.overall_risk ["High", "Medium", "Low"] = "Medium" ∧
    UnifiedPredictor.overall_risk ["None", "Low", "None"] = "Low" :=
  ⟨((claim_C1_overall_risk_escalation.1 ["High", "Medium", "Low"]).2.1
      (Or.inl (by decide))),
   ((claim_C1_overall_risk_escalation.1 ["None", "Low", "None"]).2.2.1
      (by decide) (by decide) (Or.inr (by decide)))⟩

/-- C2: for every importance vector, weight matrices and feature vector the
forward pass lands strictly inside `(0, 1)` (in particular for the three
instantiated domain scorers), and the confidence estimate always lands in
`[0.5, 0.99]`. -/
theorem claim_C2_score_confidence_ranges :
    ∀ (imp : List ℝ) (w1 w2 : List (List ℝ)) (w3 : List ℝ)
      (features : List ℝ) (s : ℝ),
      (0 < NNModel.neural_forward_pass imp w1 w2 w3 features ∧
        NNModel.neural_forward_pass imp w1 w2 w3 features < 1) ∧
      (0 < DyslexiaNN.neural_forward_pass features ∧
        DyslexiaNN.neural_forward_pass features < 1) ∧
      (0 < DyscalculiaNN.neural_forward_pass features ∧
        DyscalculiaNN.neural_forward_pass features < 1) ∧
      (0 < DysgraphiaNN.neural_forward_pass features ∧
        DysgraphiaNN.neural_forward_pass features < 1) ∧
      (0.5 ≤ NNModel.calculate_confidence features s ∧
        NNModel.calculate_confidence features s ≤ 0.99) :=
  fun imp w1 w2 w3 features s =>
    ⟨⟨NNModel.neural_forward_pass_pos imp w1 w2 w3 features,
      NNModel.neural_forward_pass_lt_one imp w1 w2 w3 features⟩,
     ⟨NNModel.neural_forward_pass_pos _ _ _ _ _,
      NNModel.neural_forward_pass_lt_one _ _ _ _ _⟩,
     ⟨NNModel.neural_forward_pass_pos _ _ _ _ _,
      NNModel.neural_forward_pass_lt_one _ _ _ _ _⟩,
     ⟨NNModel.neural_forward_pass_pos _ _ _ _ _,
      NNModel.neural_forward_pass_lt_one _ _ _ _ _⟩,
     NNModel.calculate_confidence_mem features s⟩

/-- C3: the instantiated domain scorers are deterministic functions of the
feature vector alone — the weights are fixed constants regenerated from the
same seed 42 on every call, so equal inputs give equal scores for each
domain model. -/
theorem claim_C3_scorer_determinism :
    ∀ (x y : List ℝ), x = y →
      DyslexiaNN.neural_forward_pass x = DyslexiaNN.neural_forward_pass y ∧
      DyscalculiaNN.neural_forward_pass x = DyscalculiaNN.neural_forward_pass y ∧
      DysgraphiaNN.neural_forward_pass x = DysgraphiaNN.neural_forward_pass y := by
  intro x y h
  rw [h]
  exact ⟨rfl, rfl, rfl⟩

/-- Witness for C3 at a concrete feature vector. -/
theorem claim_C3_scorer_determinism_witness :
    DyslexiaNN.neural_forward_pass (List.replicate 20 0.5) =
      DyslexiaNN.neural_forward_pass (List.replicate 20 0.5) :=
  (claim_C3_scorer_determinism (List.replicate 20 0.5)
    (List.replicate 20 0.5) rfl).1

/-- C4: each of the three domain extractors emits exactly 20 scalars for
every session, and the scorer's clip-and-pad stage returns a vector of
length exactly 20 for every input list. -/
theorem claim_C4_feature_vector_length :
    (∀ games : DataModel.Games,
      (DyslexiaNN.extract_advanced_features games).length = 20 ∧
      (DyscalculiaNN.extract_advanced_features games).length = 20 ∧
      (DysgraphiaNN.extract_advanced_features games).length = 20) ∧
    (∀ features : List ℝ, (NNModel.clipPad20 features).length = 20) :=
  ⟨fun _ => ⟨rfl, rfl, rfl⟩, NNModel.clipPad20_length⟩

/-- C5: the score-to-tier mapping is monotone in the ordering
None < Low < Medium < High, with the concrete thresholds 0.83, 0.87 and
0.90. -/
theorem claim_C5_tier_mapping_monotone :
    (∀ s1 s2 : ℝ, s1 ≤ s2 →
      NNModel.riskOrd (NNModel.get_risk_level s1) ≤
        NNModel.riskOrd (NNModel.get_risk_level s2)) ∧
    (∀ s : ℝ,
      (s < 0.83 → NNModel.get_risk_level s = "None") ∧
      (0.83 ≤ s → s < 0.87 → NNModel.get_risk_level s = "Low") ∧
      (0.87 ≤ s → s < 0.90 → NNModel.get_risk_level s = "Medium") ∧
      (0.90 ≤ s → NNModel.get_risk_level s = "High")) :=
  ⟨NNModel.get_risk_level_monotone,
   fun s => ⟨NNModel.get_risk_level_none s,
     NNModel.get_risk_level_low s,
     NNModel.get_risk_level_medium s,
     NNModel.get_risk_level_high s⟩⟩

/-- Witness for C5 at concrete scores. -/
theorem claim_C5_tier_mapping_monotone_witness :
    NNModel.riskOrd (NNModel.get_risk_level 0.5) ≤
      NNModel.riskOrd (NNModel.get_risk_level 0.95) ∧
    NNModel.get_risk_level 0.5 = "None" ∧
    NNModel.get_risk_level 0.95 = "High" :=
  ⟨claim_C5_tier_mapping_monotone.1 0.5 0.95 (by norm_num),
   (claim_C5_tier_mapping_monotone.2 0.5).1 (by norm_num),
   (claim_C5_tier_mapping_monotone.2 0.95).2.2.2 (by norm_num)⟩

/-- Counterexample for C6: on a task record whose `total` field is a
string, `_calculate_letter_confusion` raises a `TypeError` (in the
subtraction `g.get('total', 1) - g.get('correct', 0)`) instead of
returning a value in `[0, 1]`. -/
theorem claim_C6_counterexample :
    PyModel.calculate_letter_confusion_dyn
      [("g1", PyModel.PyVal.pydict [("total", PyModel.PyVal.pystr "ten")])] =
      Except.error "TypeError" := rfl

/-- C6 (amended): on task records that are dictionaries whose relevant
fields are absent or non-negative numbers, `_calculate_letter_confusion`
returns a value in `[0, 1]` and does not raise; and the line-deviation
helper returns a value in `[0, 1]` for every point path. -/
theorem claim_C6_subroutines_safe :
    (∀ games : List (String × PyModel.PyVal),
      (∀ p ∈ games, PyModel.recOK p.2 = true) →
      ∃ q, PyModel.calculate_letter_confusion_dyn games = Except.ok q ∧
        0 ≤ q ∧ q ≤ 1) ∧
    (∀ points : List (ℝ × ℝ),
      0 ≤ DysgraphiaNN.calculate_line_deviation points ∧
        DysgraphiaNN.calculate_line_deviation points ≤ 1) :=
  ⟨PyModel.calculate_letter_confusion_dyn_ok,
   RegressionBound.calculate_line_deviation_mem⟩

/-- Witness for C6 at a concrete well-formed record. -/
theorem claim_C6_subroutines_safe_witness :
    (∀ p ∈ [(("g1" : String), PyModel.PyVal.pydict
        [("total", PyModel.PyVal.pynum 10),
         ("correct", PyModel.PyVal.pynum 8)])],
      PyModel.recOK p.2 = true) ∧
    ∃ q, PyModel.calculate_letter_confusion_dyn
      [(("g1" : String), PyModel.PyVal.pydict
        [("total", PyModel.PyVal.pynum 10),
         ("correct", PyModel.PyVal.pynum 8)])] = Except.ok q ∧
      0 ≤ q ∧ q ≤ 1 :=
  ⟨by decide, claim_C6_subroutines_safe.1 _ (by decide)⟩

/-- C7: a domain model exception is caught by the orchestrator's per-domain
entry and converted into the degraded prediction (`Unable to assess`,
zero score and confidence, the error message preserved, the generic
recommendation), and the other domains' results in a comprehensive
assessment are exactly their standalone predictions. -/
theorem claim_C7_error_containment :
    ∀ (σ : Type) (mdl mdc mdg : σ → Except String UnifiedPredictor.PredictionResult)
      (ts : String) (s1 s2 s3 : σ) (e : String),
      mdl s1 = Except.error e →
      (UnifiedPredictor.predict_dyslexia mdl ts s1).risk_level = "Unable to assess" ∧
      (UnifiedPredictor.predict_dyslexia mdl ts s1).risk_score = 0 ∧
      (UnifiedPredictor.predict_dyslexia mdl ts s1).confidence = 0 ∧
      (UnifiedPredictor.predict_dyslexia mdl ts s1).error = some e ∧
      (UnifiedPredictor.predict_dyslexia mdl ts s1).recommendations =
        ["Please ensure all assessment data is complete"] ∧
      UnifiedPredictor.comprehensive_results mdl mdc mdg ts
          (some s1, some s2, some s3) =
        [("dyslexia", UnifiedPredictor.error_response "dyslexia" e),
         ("dyscalculia", UnifiedPredictor.predict_dyscalculia mdc ts s2),
         ("dysgraphia", UnifiedPredictor.predict_dysgraphia mdg ts s3)] := by
  intro σ mdl mdc mdg ts s1 s2 s3 e h
  have herr : UnifiedPredictor.predict_dyslexia mdl ts s1 =
      UnifiedPredictor.error_response "dyslexia" e :=
    UnifiedPredictor.predict_domain_error "dyslexia" mdl ts s1 e h
  rw [UnifiedPredictor.comprehensive_results_all, herr]
  exact ⟨rfl, rfl, rfl, rfl, rfl, rfl⟩

/-- Witness for C7 with a concrete throwing model. -/
theorem claim_C7_error_containment_witness :
    (UnifiedPredictor.predict_dyslexia
      (fun (_ : Unit) => Except.error "boom") "ts" ()).risk_level =
      "Unable to assess" ∧
    (UnifiedPredictor.predict_dyslexia
      (fun (_ : Unit) => Except.error "boom") "ts" ()).error = some "boom" :=
  ⟨(claim_C7_error_containment Unit (fun _ => Except.error "boom")
      (fun _ => Except.error "a") (fun _ => Except.error "b")
      "ts" () () () "boom" rfl).1,
   (claim_C7_error_containment Unit (fun _ => Except.error "boom")
      (fun _ => Except.error "a") (fun _ => Except.error "b")
      "ts" () () () "boom" rfl).2.2.2.1⟩

/-- Counterexample for C8: with the relevant task absent (the empty
session), the dysgraphia bilateral-coordination sub-routine returns the
constant `0.7`, not the claimed neutral fallback `0.5`. -/
theorem claim_C8_counterexample :
    DysgraphiaNN.calculate_bilateral_coordination ([] : DataModel.Games) = 0.7 ∧
    (0.7 : ℝ) ≠ 0.5 :=
  ⟨FallbackFacts.bilateral_coordination_empty, by norm_num⟩

/-- C8 (amended): when the relevant task is absent most feature
sub-routines fall back to the neutral `0.5` (phoneme awareness, working
memory, subitizing, coordination shown here), but
`_calculate_bilateral_coordination` returns `0.7`,
`_calculate_speed_fatigue` and `_calculate_speed_trend` return `0`, and
`_calculate_difficulty_gap` returns `0.4`. -/
theorem claim_C8_fallback_values :
    DyslexiaNN.calculate_phoneme_awareness ([] : DataModel.Games) = 0.5 ∧
    DyslexiaNN.calculate_working_memory ([] : DataModel.Games) = 0.5 ∧
    DyscalculiaNN.calculate_subitizing_score ([] : DataModel.Games) = 0.5 ∧
    DysgraphiaNN.calculate_coordination ([] : DataModel.Games) = 0.5 ∧
    DysgraphiaNN.calculate_bilateral_coordination ([] : DataModel.Games) = 0.7 ∧
    DysgraphiaNN.calculate_speed_fatigue ([] : DataModel.Games) = 0 ∧
    DyslexiaNN.calculate_speed_trend ([] : DataModel.Games) = 0 ∧
    DyslexiaNN.calculate_difficulty_gap ([] : DataModel.Games) = 0.4 :=
  ⟨FallbackFacts.phoneme_awareness_empty,
   FallbackFacts.working_memory_empty,
   FallbackFacts.subitizing_empty,
   FallbackFacts.coordination_empty,
   FallbackFacts.bilateral_coordination_empty,
   FallbackFacts.speed_fatigue_empty,
   FallbackFacts.speed_trend_empty,
   FallbackFacts.difficulty_gap_empty⟩

/-- Counterexample for C9: on the empty assessments mapping the
comprehensive-assessment entry point reports the overall risk level
`None`, not the claimed `No data`. -/
theorem claim_C9_counterexample :
    (UnifiedPredictor.comprehensive_assessment
      (fun (_ : Unit) => Except.error "e") (fun _ => Except.error "e")
      (fun _ => Except.error "e") "ts"
      (none, none, none)).comprehensive_summary.overall_risk_level = "None" ∧
    ("None" : String) ≠ "No data" := ⟨rfl, by decide⟩

/-- C9 (amended): `analyze_dyscalculia_results` surfaces a non-mapping
input as a typed `Unknown` result and the empty mapping as `No data`
instead of raising; `comprehensive_assessment` on an empty assessments
mapping also returns a typed result, but its overall risk level is
`None`. -/
theorem claim_C9_invalid_shape_typed_results :
    (∀ v : PyModel.PyVal, PyModel.isDict v = false →
      (AssessmentRoutes.analyze_dyscalculia_results v).risk = "Unknown") ∧
    (AssessmentRoutes.analyze_dyscalculia_results
      (PyModel.PyVal.pydict [])).risk = "No data" ∧
    (∀ (σ : Type) (mdl mdc mdg : σ → Except String UnifiedPredictor.PredictionResult)
      (ts : String),
      (UnifiedPredictor.comprehensive_assessment mdl mdc mdg ts
        (none, none, none)).comprehensive_summary.overall_risk_level = "None") := by
  refine ⟨?_, rfl, fun σ mdl mdc mdg ts => rfl⟩
  intro v hv
  cases v <;> first | rfl | simp [PyModel.isDict] at hv

/-- Witness for C9 at a concrete non-mapping input. -/
theorem claim_C9_invalid_shape_typed_results_witness :
    PyModel.isDict (PyModel.PyVal.pylist []) = false ∧
    (AssessmentRoutes.analyze_dyscalculia_results
      (PyModel.PyVal.pylist [])).risk = "Unknown" :=
  ⟨rfl, claim_C9_invalid_shape_typed_results.1 (PyModel.PyVal.pylist []) rfl⟩

/-- Counterexample for C10: the all-defaults empty session `{}` is scored
`High` by the dyslexia model (its seed-42 score is ≈ 0.904, at or above
the 0.90 threshold), not in the lowest tier `None`. -/
theorem claim_C10_counterexample :
    (DyslexiaNN.predict_risk ([] : DataModel.Games)).risk_level = "High" ∧
    ("High" : String) ≠ "None" :=
  ⟨DyslexiaNN.empty_risk_level_high, by decide⟩

/-- C10 (amended): the single-task example session yields the accuracy
feature `0.8`; the empty session yields `0.5` for every accuracy-like
feature (overall accuracy, phoneme awareness, complexity, working memory,
executive function), but its predicted risk level is `High`, not the
lowest tier. -/
theorem claim_C10_worked_examples :
    DyslexiaNN.calculate_accuracy [("task1", DyslexiaNN.exampleTask)] = 0.8 ∧
    DyslexiaNN.calculate_accuracy ([] : DataModel.Games) = 0.5 ∧
    DyslexiaNN.calculate_phoneme_awareness ([] : DataModel.Games) = 0.5 ∧
    DyslexiaNN.calculate_complexity_score ([] : DataModel.Games) = 0.5 ∧
    DyslexiaNN.calculate_working_memory ([] : DataModel.Games) = 0.5 ∧
    DyslexiaNN.calculate_executive_function ([] : DataModel.Games) = 0.5 ∧
    (DyslexiaNN.predict_risk ([] : DataModel.Games)).risk_level = "High" := by
  refine ⟨DyslexiaNN.calculate_accuracy_example, ?_, rfl, rfl, rfl, rfl,
    DyslexiaNN.empty_risk_level_high⟩
  unfold DyslexiaNN.calculate_accuracy
  simp [DataModel.Games.vals, NpModel.npSum]
